import Mathlib

/-!
# guacamole-server: inbound instruction handling and instruction dispatch

A shallow embedding of

* `src/libguac/user-handlers.cpp`: the client-instruction dispatch table, the
  dispatcher `guac_call_instruction_handler` and the fourteen handlers
  (`__guac_handle_sync`, the stream handlers, the object handlers, ...);
* `src/guacenc/instructions.cpp`: the server-instruction dispatch table of the
  encoder and `guacenc_handle_instruction`.

Conventions of the embedding.

* A C `int` is an `Int` that is reduced with `toInt32` wherever the code stores
  the result of an arithmetic expression into an `int`; a `guac_timestamp`
  (`int64_t`) is an `Int`.
* A function pointer is `Option Nat` (`none` is `NULL`).  The code behind a
  pointer is external: calling it is recorded in the user's list of effects
  together with the arguments as they are at the call, and the value it returns
  is read from an oracle (`handler_results`).  What that code may itself write
  into the user is not part of the embedding: the definitions give what the
  functions of `user-handlers.cpp` do themselves.
* An array of the user (`__input_streams`, `__output_streams`, `__objects`) is
  its indexing function; a pointer to one of its slots is the slot's position.
* Constants and enumerations declared in headers that are outside this
  development are parameters (`guac_constants`, `GuacClientInstruction_Which`,
  `GuacServerInstruction_Which`).
-/

namespace UserHandlers

/-! ## Machine integers -/

/-- The value an `int` (32 bits, two's complement) holds after `x` is stored in it. -/
def toInt32 (x : Int) : Int :=
  (x + 2147483648) % 4294967296 - 2147483648

/-- Tells whether `x` is representable in an `int`. -/
def fitsInt32 (x : Int) : Prop :=
  -2147483648 ≤ x ∧ x ≤ 2147483647

instance (x : Int) : Decidable (fitsInt32 x) := by
  unfold fitsInt32; infer_instance

/-! ## Constants from headers outside this development -/

/-- Constants of `user-constants.h` and `protocol-types.h`. -/
structure guac_constants where
  GUAC_USER_MAX_STREAMS : Int
  GUAC_USER_CLOSED_STREAM_INDEX : Int
  GUAC_USER_MAX_OBJECTS : Int
  GUAC_USER_UNDEFINED_OBJECT_INDEX : Int
  GUAC_PROTOCOL_STATUS_UNSUPPORTED : Int
  GUAC_PROTOCOL_STATUS_CLIENT_BAD_REQUEST : Int

/-- A choice of these constants, the one of upstream libguac; it is used for
concrete inputs only. -/
def libguac_constants : guac_constants where
  GUAC_USER_MAX_STREAMS := 64
  GUAC_USER_CLOSED_STREAM_INDEX := -1
  GUAC_USER_MAX_OBJECTS := 64
  GUAC_USER_UNDEFINED_OBJECT_INDEX := -1
  GUAC_PROTOCOL_STATUS_UNSUPPORTED := 256
  GUAC_PROTOCOL_STATUS_CLIENT_BAD_REQUEST := 768

/-! ## Data model -/

/-- A stream slot (`guac_stream`). -/
structure guac_stream where
  index : Int
  data : Nat
  ack_handler : Option Nat
  blob_handler : Option Nat
  end_handler : Option Nat
deriving DecidableEq, Repr

/-- An object slot (`guac_object`). -/
structure guac_object where
  index : Int
  data : Nat
  get_handler : Option Nat
  put_handler : Option Nat
deriving DecidableEq, Repr

/-- The part of `guac_client` the handlers read. -/
structure guac_client where
  last_sent_timestamp : Int
deriving DecidableEq, Repr

/-- What a handler does that is visible outside the user structure: an
instruction written to `user->socket`, a line handed to `guac_user_log`, a call
through a function pointer (with its arguments as they are at the call), or
`guac_user_stop`. -/
inductive guac_effect where
  | send_ack (index : Int) (error : String) (status : Int)
  | log_sync (timestamp current processing_lag : Int)
  | sync_handler (fn : Nat) (timestamp : Int)
  | mouse_handler (fn : Nat) (x y button_mask : Int)
  | key_handler (fn : Nat) (keysym pressed : Int)
  | clipboard_handler (fn : Nat) (slot : Nat) (stream : guac_stream) (mimetype : String)
  | size_handler (fn : Nat) (width height : Int)
  | file_handler (fn : Nat) (slot : Nat) (stream : guac_stream) (mimetype filename : String)
  | pipe_handler (fn : Nat) (slot : Nat) (stream : guac_stream) (mimetype name : String)
  | ack_handler (fn : Nat) (slot : Nat) (stream : guac_stream) (message : String) (status : Int)
  | blob_handler (fn : Nat) (slot : Nat) (stream : guac_stream) (data : List Nat)
  | end_handler (fn : Nat) (slot : Nat) (stream : guac_stream)
  | get_handler (fn : Nat) (slot : Nat) (object : guac_object) (name : String)
  | put_handler (fn : Nat) (oslot : Nat) (object : guac_object) (slot : Nat)
      (stream : guac_stream) (mimetype name : String)
  | audio_handler (fn : Nat) (slot : Nat) (stream : guac_stream) (mimetype : String)
  | user_stop
deriving DecidableEq, Repr

/-- The part of `guac_user` the handlers read and write. -/
structure guac_user where
  client : guac_client
  last_received_timestamp : Int
  last_frame_duration : Int
  processing_lag : Int
  __input_streams : Nat → guac_stream
  __output_streams : Nat → guac_stream
  __objects : Nat → guac_object
  sync_handler : Option Nat
  mouse_handler : Option Nat
  key_handler : Option Nat
  clipboard_handler : Option Nat
  size_handler : Option Nat
  file_handler : Option Nat
  pipe_handler : Option Nat
  ack_handler : Option Nat
  blob_handler : Option Nat
  end_handler : Option Nat
  get_handler : Option Nat
  put_handler : Option Nat
  audio_handler : Option Nat
  effects : List guac_effect

/-- The value the external code behind a function pointer returns, given the
user as it is at the call and the call itself. -/
abbrev handler_results := guac_user → guac_effect → Int

/-- A call through a function pointer: the call is recorded and the result is
the one the external code returns. -/
def invoke (H : handler_results) (user : guac_user) (call : guac_effect) : Int × guac_user :=
  (H user call, { user with effects := user.effects ++ [call] })

/-! ## Instructions received from the client -/

/-- Payload of `mouse`. -/
structure MouseReader where
  getX : Int
  getY : Int
  getButtonMask : Int

/-- Payload of `key`. -/
structure KeyReader where
  getKeysym : Int
  getPressed : Int

/-- Payload of `clipboard` and of `audio`. -/
structure StreamMimetypeReader where
  getStream : Int
  getMimetype : String

/-- Payload of `size`. -/
structure SizeReader where
  getWidth : Int
  getHeight : Int

/-- Payload of `file`. -/
structure FileReader where
  getStream : Int
  getMimetype : String
  getFilename : String

/-- Payload of `pipe`. -/
structure PipeReader where
  getStream : Int
  getMimetype : String
  getName : String

/-- Payload of `ack`. -/
structure AckReader where
  getStream : Int
  getMessage : String
  getStatus : Int

/-- Payload of `blob`. -/
structure BlobReader where
  getStream : Int
  getData : List Nat

/-- Payload of `get`. -/
structure GetReader where
  getObject : Int
  getName : String

/-- Payload of `put`. -/
structure PutReader where
  getObject : Int
  getStream : Int
  getMimetype : String
  getName : String

/-- A decoded client instruction (`Guacamole::GuacClientInstruction::Reader`):
the discriminant `which()` and what each accessor returns. -/
structure Reader where
  which : Nat
  getSync : Int
  getMouse : MouseReader
  getKey : KeyReader
  getClipboard : StreamMimetypeReader
  getSize : SizeReader
  getFile : FileReader
  getPipe : PipeReader
  getAck : AckReader
  getBlob : BlobReader
  getEnd : Int
  getGet : GetReader
  getPut : PutReader
  getAudio : StreamMimetypeReader

/-! ## Handlers of `user-handlers.cpp` -/

/-- The function `__guac_handle_sync`, with `current` the value of `guac_timestamp_current()`. -/
def __guac_handle_sync (H : handler_results) (current : Int) (user : guac_user)
    (instr : Reader) : Int × guac_user :=
  let timestamp := instr.getSync
  if timestamp > user.client.last_sent_timestamp then
    (-1, user)
  else
    let user :=
      if timestamp ≥ user.last_received_timestamp then
        let user := { user with last_received_timestamp := timestamp }
        let frame_duration := toInt32 (current - timestamp)
        let user :=
          if user.last_frame_duration ≠ 0 then
            let processing_lag := toInt32 (frame_duration - user.last_frame_duration)
            let processing_lag := if processing_lag < 0 then 0 else processing_lag
            { user with processing_lag := processing_lag }
          else user
        { user with last_frame_duration := toInt32 (frame_duration - user.processing_lag) }
      else user
    let user :=
      { user with effects := user.effects ++ [guac_effect.log_sync timestamp current user.processing_lag] }
    match user.sync_handler with
    | some fn => invoke H user (guac_effect.sync_handler fn timestamp)
    | none => (0, user)

/-- The function `__guac_handle_mouse`. -/
def __guac_handle_mouse (H : handler_results) (user : guac_user) (instr : Reader) :
    Int × guac_user :=
  match user.mouse_handler with
  | some fn =>
    let mouse := instr.getMouse
    invoke H user (guac_effect.mouse_handler fn mouse.getX mouse.getY mouse.getButtonMask)
  | none => (0, user)

/-- The function `__guac_handle_key`. -/
def __guac_handle_key (H : handler_results) (user : guac_user) (instr : Reader) :
    Int × guac_user :=
  match user.key_handler with
  | some fn =>
    let key := instr.getKey
    invoke H user (guac_effect.key_handler fn key.getKeysym key.getPressed)
  | none => (0, user)

/-- The call `guac_protocol_send_ack(user->socket, stream, error, status)`: an `ack`
carrying `stream->index`, the message and the status is written to the user's
socket.  The handlers ignore the value it returns. -/
def guac_protocol_send_ack (user : guac_user) (stream : guac_stream) (error : String)
    (status : Int) : guac_user :=
  { user with effects := user.effects ++ [guac_effect.send_ack stream.index error status] }

/-- A `guac_stream` local variable of which only `index` is assigned. -/
def dummy_stream (stream_index : Int) : guac_stream :=
  { index := stream_index, data := 0, ack_handler := none, blob_handler := none,
    end_handler := none }

/-- The function `__get_input_stream`: the position of the slot, or `none` for `NULL`. -/
def __get_input_stream (K : guac_constants) (user : guac_user) (stream_index : Int) :
    Option Nat × guac_user :=
  if stream_index < 0 ∨ stream_index ≥ K.GUAC_USER_MAX_STREAMS then
    (none, guac_protocol_send_ack user (dummy_stream stream_index) "Invalid stream index"
      K.GUAC_PROTOCOL_STATUS_CLIENT_BAD_REQUEST)
  else
    (some stream_index.toNat, user)

/-- The function `__get_open_input_stream`. -/
def __get_open_input_stream (K : guac_constants) (user : guac_user) (stream_index : Int) :
    Option Nat × guac_user :=
  match __get_input_stream K user stream_index with
  | (none, user) => (none, user)
  | (some stream, user) =>
    if (user.__input_streams stream).index = K.GUAC_USER_CLOSED_STREAM_INDEX then
      (none, guac_protocol_send_ack user (dummy_stream stream_index) "Invalid stream index"
        K.GUAC_PROTOCOL_STATUS_CLIENT_BAD_REQUEST)
    else
      (some stream, user)

/-- Assignment through a pointer to an input stream slot. -/
def set_input_stream (user : guac_user) (stream : Nat) (value : guac_stream) : guac_user :=
  { user with __input_streams := Function.update user.__input_streams stream value }

/-- The function `__init_input_stream`.  The values the end handlers return are dropped. -/
def __init_input_stream (K : guac_constants) (H : handler_results) (user : guac_user)
    (stream_index : Int) : Option Nat × guac_user :=
  match __get_input_stream K user stream_index with
  | (none, user) => (none, user)
  | (some stream, user) =>
    let user :=
      if (user.__input_streams stream).index ≠ K.GUAC_USER_CLOSED_STREAM_INDEX then
        match (user.__input_streams stream).end_handler with
        | some fn =>
          (invoke H user (guac_effect.end_handler fn stream (user.__input_streams stream))).2
        | none =>
          match user.end_handler with
          | some fn =>
            (invoke H user (guac_effect.end_handler fn stream (user.__input_streams stream))).2
          | none => user
      else user
    (some stream,
      set_input_stream user stream
        { index := stream_index, data := 0, ack_handler := none, blob_handler := none,
          end_handler := none })

/-- The function `__guac_handle_audio`. -/
def __guac_handle_audio (K : guac_constants) (H : handler_results) (user : guac_user)
    (instr : Reader) : Int × guac_user :=
  let audio := instr.getAudio
  let stream_index := audio.getStream
  match __init_input_stream K H user stream_index with
  | (none, user) => (0, user)
  | (some stream, user) =>
    match user.audio_handler with
    | some fn =>
      invoke H user
        (guac_effect.audio_handler fn stream (user.__input_streams stream) audio.getMimetype)
    | none =>
      (0, guac_protocol_send_ack user (user.__input_streams stream) "Audio input unsupported"
        K.GUAC_PROTOCOL_STATUS_UNSUPPORTED)

/-- The function `__guac_handle_clipboard`. -/
def __guac_handle_clipboard (K : guac_constants) (H : handler_results) (user : guac_user)
    (instr : Reader) : Int × guac_user :=
  let clipboard := instr.getClipboard
  let stream_index := clipboard.getStream
  match __init_input_stream K H user stream_index with
  | (none, user) => (0, user)
  | (some stream, user) =>
    match user.clipboard_handler with
    | some fn =>
      invoke H user
        (guac_effect.clipboard_handler fn stream (user.__input_streams stream)
          clipboard.getMimetype)
    | none =>
      (0, guac_protocol_send_ack user (user.__input_streams stream) "Clipboard unsupported"
        K.GUAC_PROTOCOL_STATUS_UNSUPPORTED)

/-- The function `__guac_handle_size`. -/
def __guac_handle_size (H : handler_results) (user : guac_user) (instr : Reader) :
    Int × guac_user :=
  match user.size_handler with
  | some fn =>
    let size := instr.getSize
    invoke H user (guac_effect.size_handler fn size.getWidth size.getHeight)
  | none => (0, user)

/-- The function `__guac_handle_file`. -/
def __guac_handle_file (K : guac_constants) (H : handler_results) (user : guac_user)
    (instr : Reader) : Int × guac_user :=
  let file := instr.getFile
  let stream_index := file.getStream
  match __init_input_stream K H user stream_index with
  | (none, user) => (0, user)
  | (some stream, user) =>
    match user.file_handler with
    | some fn =>
      invoke H user
        (guac_effect.file_handler fn stream (user.__input_streams stream) file.getMimetype
          file.getFilename)
    | none =>
      (0, guac_protocol_send_ack user (user.__input_streams stream) "File transfer unsupported"
        K.GUAC_PROTOCOL_STATUS_UNSUPPORTED)

/-- The function `__guac_handle_pipe`. -/
def __guac_handle_pipe (K : guac_constants) (H : handler_results) (user : guac_user)
    (instr : Reader) : Int × guac_user :=
  let pipe := instr.getPipe
  let stream_index := pipe.getStream
  match __init_input_stream K H user stream_index with
  | (none, user) => (0, user)
  | (some stream, user) =>
    match user.pipe_handler with
    | some fn =>
      invoke H user
        (guac_effect.pipe_handler fn stream (user.__input_streams stream) pipe.getMimetype
          pipe.getName)
    | none =>
      (0, guac_protocol_send_ack user (user.__input_streams stream) "Named pipes unsupported"
        K.GUAC_PROTOCOL_STATUS_UNSUPPORTED)

/-- The function `__guac_handle_ack`.  `%` and `/` of C truncate towards zero. -/
def __guac_handle_ack (K : guac_constants) (H : handler_results) (user : guac_user)
    (instr : Reader) : Int × guac_user :=
  let ack := instr.getAck
  let stream_index := ack.getStream
  if Int.tmod stream_index 2 ≠ 0 then
    (0, user)
  else
    let stream_index := Int.tdiv stream_index 2
    if stream_index < 0 ∨ stream_index ≥ K.GUAC_USER_MAX_STREAMS then
      (0, user)
    else
      let stream := stream_index.toNat
      if (user.__output_streams stream).index = K.GUAC_USER_CLOSED_STREAM_INDEX then
        (0, user)
      else
        match (user.__output_streams stream).ack_handler with
        | some fn =>
          invoke H user
            (guac_effect.ack_handler fn stream (user.__output_streams stream) ack.getMessage
              ack.getStatus)
        | none =>
          match user.ack_handler with
          | some fn =>
            invoke H user
              (guac_effect.ack_handler fn stream (user.__output_streams stream) ack.getMessage
                ack.getStatus)
          | none => (0, user)

/-- The function `__guac_handle_blob`. -/
def __guac_handle_blob (K : guac_constants) (H : handler_results) (user : guac_user)
    (instr : Reader) : Int × guac_user :=
  let blob := instr.getBlob
  let stream_index := blob.getStream
  match __get_open_input_stream K user stream_index with
  | (none, user) => (0, user)
  | (some stream, user) =>
    let data := blob.getData
    match (user.__input_streams stream).blob_handler with
    | some fn =>
      invoke H user (guac_effect.blob_handler fn stream (user.__input_streams stream) data)
    | none =>
      match user.blob_handler with
      | some fn =>
        invoke H user (guac_effect.blob_handler fn stream (user.__input_streams stream) data)
      | none =>
        (0, guac_protocol_send_ack user (user.__input_streams stream)
          "File transfer unsupported" K.GUAC_PROTOCOL_STATUS_UNSUPPORTED)

/-- The function `__guac_handle_end`. -/
def __guac_handle_end (K : guac_constants) (H : handler_results) (user : guac_user)
    (instr : Reader) : Int × guac_user :=
  let stream_index := instr.getEnd
  match __get_open_input_stream K user stream_index with
  | (none, user) => (0, user)
  | (some stream, user) =>
    let (result, user) :=
      match (user.__input_streams stream).end_handler with
      | some fn => invoke H user (guac_effect.end_handler fn stream (user.__input_streams stream))
      | none =>
        match user.end_handler with
        | some fn =>
          invoke H user (guac_effect.end_handler fn stream (user.__input_streams stream))
        | none => (0, user)
    (result,
      set_input_stream user stream
        { user.__input_streams stream with index := K.GUAC_USER_CLOSED_STREAM_INDEX })

/-- The function `__guac_handle_get`. -/
def __guac_handle_get (K : guac_constants) (H : handler_results) (user : guac_user)
    (instr : Reader) : Int × guac_user :=
  let get := instr.getGet
  let object_index := get.getObject
  if object_index < 0 ∨ object_index ≥ K.GUAC_USER_MAX_OBJECTS then
    (0, user)
  else
    let object := object_index.toNat
    if (user.__objects object).index = K.GUAC_USER_UNDEFINED_OBJECT_INDEX then
      (0, user)
    else
      match (user.__objects object).get_handler with
      | some fn =>
        invoke H user (guac_effect.get_handler fn object (user.__objects object) get.getName)
      | none =>
        match user.get_handler with
        | some fn =>
          invoke H user (guac_effect.get_handler fn object (user.__objects object) get.getName)
        | none => (0, user)

/-- The function `__guac_handle_put`. -/
def __guac_handle_put (K : guac_constants) (H : handler_results) (user : guac_user)
    (instr : Reader) : Int × guac_user :=
  let put := instr.getPut
  let object_index := put.getObject
  if object_index < 0 ∨ object_index ≥ K.GUAC_USER_MAX_OBJECTS then
    (0, user)
  else
    let object := object_index.toNat
    if (user.__objects object).index = K.GUAC_USER_UNDEFINED_OBJECT_INDEX then
      (0, user)
    else
      let stream_index := put.getStream
      match __init_input_stream K H user stream_index with
      | (none, user) => (0, user)
      | (some stream, user) =>
        match (user.__objects object).put_handler with
        | some fn =>
          invoke H user
            (guac_effect.put_handler fn object (user.__objects object) stream
              (user.__input_streams stream) put.getMimetype put.getName)
        | none =>
          match user.put_handler with
          | some fn =>
            invoke H user
              (guac_effect.put_handler fn object (user.__objects object) stream
                (user.__input_streams stream) put.getMimetype put.getName)
          | none =>
            (0, guac_protocol_send_ack user (user.__input_streams stream)
              "Object write unsupported" K.GUAC_PROTOCOL_STATUS_UNSUPPORTED)

/-- The function `__guac_handle_disconnect`: `guac_user_stop(user)`, defined outside this
development, is recorded as an effect. -/
def __guac_handle_disconnect (user : guac_user) (_instr : Reader) : Int × guac_user :=
  (0, { user with effects := user.effects ++ [guac_effect.user_stop] })

/-! ## Reading the list of effects -/

/-- Tells whether an effect is a call of an end handler. -/
def is_end_handler_call : guac_effect → Bool
  | guac_effect.end_handler _ _ _ => true
  | _ => false

/-- Tells whether an effect is a call of a blob handler. -/
def is_blob_handler_call : guac_effect → Bool
  | guac_effect.blob_handler _ _ _ _ => true
  | _ => false

/-! ## Concrete inputs -/

/-- A closed stream slot. -/
def closed_stream (K : guac_constants) : guac_stream :=
  { index := K.GUAC_USER_CLOSED_STREAM_INDEX, data := 0, ack_handler := none,
    blob_handler := none, end_handler := none }

/-- An undefined object slot. -/
def undefined_object (K : guac_constants) : guac_object :=
  { index := K.GUAC_USER_UNDEFINED_OBJECT_INDEX, data := 0, get_handler := none,
    put_handler := none }

/-- A user that has measured no frame yet: no lag, no baseline, every stream
closed, every object undefined, no handler set, nothing written or called. -/
def idle_user (last_sent last_received : Int) : guac_user :=
  { client := { last_sent_timestamp := last_sent },
    last_received_timestamp := last_received,
    last_frame_duration := 0,
    processing_lag := 0,
    __input_streams := fun _ => closed_stream libguac_constants,
    __output_streams := fun _ => closed_stream libguac_constants,
    __objects := fun _ => undefined_object libguac_constants,
    sync_handler := none, mouse_handler := none, key_handler := none,
    clipboard_handler := none, size_handler := none, file_handler := none,
    pipe_handler := none, ack_handler := none, blob_handler := none, end_handler := none,
    get_handler := none, put_handler := none, audio_handler := none,
    effects := [] }

/-- A user that has a baseline: `idle_user` with the given
`last_frame_duration` and `processing_lag`. -/
def measured_user (last_sent last_received last_frame_duration processing_lag : Int) :
    guac_user :=
  { idle_user last_sent last_received with
    last_frame_duration := last_frame_duration, processing_lag := processing_lag }

/-- The function pointers used in the concrete inputs. -/
def stream_end_fn : Nat := 4096

/-- The user `idle_user` with input stream 3 open, bound to an end handler, and with a
user-wide end handler. -/
def user_with_open_stream : guac_user :=
  { idle_user 1000 900 with
    __input_streams := Function.update (idle_user 1000 900).__input_streams 3
      { index := 3, data := 77, ack_handler := none, blob_handler := some 8192,
        end_handler := some stream_end_fn },
    end_handler := some 12288 }

/-- An instruction with discriminant `which` and empty payloads. -/
def empty_instruction (which : Nat) : Reader :=
  { which := which,
    getSync := 0,
    getMouse := { getX := 0, getY := 0, getButtonMask := 0 },
    getKey := { getKeysym := 0, getPressed := 0 },
    getClipboard := { getStream := 0, getMimetype := "" },
    getSize := { getWidth := 0, getHeight := 0 },
    getFile := { getStream := 0, getMimetype := "", getFilename := "" },
    getPipe := { getStream := 0, getMimetype := "", getName := "" },
    getAck := { getStream := 0, getMessage := "", getStatus := 0 },
    getBlob := { getStream := 0, getData := [] },
    getEnd := 0,
    getGet := { getObject := 0, getName := "" },
    getPut := { getObject := 0, getStream := 0, getMimetype := "", getName := "" },
    getAudio := { getStream := 0, getMimetype := "" } }

/-- The instruction `sync(timestamp)`. -/
def sync_instruction (timestamp : Int) : Reader :=
  { empty_instruction 0 with getSync := timestamp }

/-- The instruction `blob(stream, data)`. -/
def blob_instruction (stream : Int) (data : List Nat) : Reader :=
  { empty_instruction 9 with getBlob := { getStream := stream, getData := data } }

/-- The instruction `end(stream)`. -/
def end_instruction (stream : Int) : Reader :=
  { empty_instruction 10 with getEnd := stream }

/-- The instruction `file(stream, mimetype, filename)`. -/
def file_instruction (stream : Int) (mimetype filename : String) : Reader :=
  { empty_instruction 6 with
    getFile := { getStream := stream, getMimetype := mimetype, getFilename := filename } }

/-- The instruction `ack(stream, message, status)`. -/
def ack_instruction (stream : Int) (message : String) (status : Int) : Reader :=
  { empty_instruction 8 with
    getAck := { getStream := stream, getMessage := message, getStatus := status } }

/-- The user `idle_user` with output stream 2 open and bound to an ack handler. -/
def user_with_output_stream : guac_user :=
  { idle_user 1000 900 with
    __output_streams := Function.update (idle_user 1000 900).__output_streams 2
      { index := 4, data := 0, ack_handler := some 16384, blob_handler := none,
        end_handler := none } }

/-- External handlers that all return 0. -/
def handlers_return_zero : handler_results := fun _ _ => 0

/-- External handlers that all return 7. -/
def handlers_return_seven : handler_results := fun _ _ => 7

/-! ## The dispatch table of `user-handlers.cpp` -/

/-- The values of the enumeration `Guacamole::GuacClientInstruction::Which`,
which the schema compiler generates and which is outside this development. -/
structure GuacClientInstruction_Which where
  SYNC : Nat
  MOUSE : Nat
  KEY : Nat
  CLIPBOARD : Nat
  DISCONNECT : Nat
  SIZE : Nat
  FILE : Nat
  PIPE : Nat
  ACK : Nat
  BLOB : Nat
  END : Nat
  GET : Nat
  PUT : Nat
  AUDIO : Nat

/-- The numbering of `GuacClientInstruction::Which` that counts the enumerators
from 0 in the order of the table. -/
def client_which_in_order : GuacClientInstruction_Which where
  SYNC := 0
  MOUSE := 1
  KEY := 2
  CLIPBOARD := 3
  DISCONNECT := 4
  SIZE := 5
  FILE := 6
  PIPE := 7
  ACK := 8
  BLOB := 9
  END := 10
  GET := 11
  PUT := 12
  AUDIO := 13

/-- The type of the functions in the table. -/
abbrev __guac_instruction_handler := guac_user → Reader → Int × guac_user

/-- The table `__guac_instruction_handler_map`. -/
def __guac_instruction_handler_map (W : GuacClientInstruction_Which) (K : guac_constants)
    (H : handler_results) (current : Int) : List (Nat × __guac_instruction_handler) :=
  [
    ( W.SYNC, __guac_handle_sync H current),
    ( W.MOUSE, __guac_handle_mouse H),
    ( W.KEY, __guac_handle_key H),
    ( W.CLIPBOARD, __guac_handle_clipboard K H),
    ( W.DISCONNECT, __guac_handle_disconnect),
    ( W.SIZE, __guac_handle_size H),
    ( W.FILE, __guac_handle_file K H),
    ( W.PIPE, __guac_handle_pipe K H),
    ( W.ACK, __guac_handle_ack K H),
    ( W.BLOB, __guac_handle_blob K H),
    ( W.END, __guac_handle_end K H),
    ( W.GET, __guac_handle_get K H),
    ( W.PUT, __guac_handle_put K H),
    ( W.AUDIO, __guac_handle_audio K H)
  ]

/-- The loop of the lambda under `static_assert`, `index` being its counter. -/
def handler_map_in_order_from {α : Type} : Nat → List (Nat × α) → Bool
  | _, [] => true
  | index, (opcode, _) :: rest =>
    if opcode ≠ index then false else handler_map_in_order_from (index + 1) rest

/-- The lambda under `static_assert`: the table is in the order of the
enumeration. -/
def handler_map_in_order {α : Type} (instr_map : List (Nat × α)) : Bool :=
  handler_map_in_order_from 0 instr_map

/-- The function `guac_call_instruction_handler`. -/
def guac_call_instruction_handler (W : GuacClientInstruction_Which) (K : guac_constants)
    (H : handler_results) (current : Int) (user : guac_user) (instr : Reader) :
    Int × guac_user :=
  let instr_index := instr.which
  if h : instr_index ≥ (__guac_instruction_handler_map W K H current).length then
    (0, user)
  else
    let handler_pair :=
      (__guac_instruction_handler_map W K H current).get ⟨instr_index, Nat.lt_of_not_ge h⟩
    let handler := handler_pair.2
    handler user instr

end UserHandlers

namespace Guacenc

/-! ## The dispatch table of `guacenc/instructions.cpp` -/

/-- The values of the enumeration `Guacamole::GuacServerInstruction::Which`,
which the schema compiler generates and which is outside this development. -/
structure GuacServerInstruction_Which where
  ARC : Nat
  CFILL : Nat
  CLIP : Nat
  CLOSE : Nat
  COPY : Nat
  CSTROKE : Nat
  CURSOR : Nat
  CURVE : Nat
  DISPOSE : Nat
  DISTORT : Nat
  IDENTITY : Nat
  LFILL : Nat
  LINE : Nat
  LSTROKE : Nat
  MOVE : Nat
  POP : Nat
  PUSH : Nat
  RECT : Nat
  RESET : Nat
  SET : Nat
  SHADE : Nat
  SIZE : Nat
  START : Nat
  TRANSFER : Nat
  TRANSFORM : Nat
  ACK : Nat
  AUDIO : Nat
  BLOB : Nat
  CLIPBOARD : Nat
  END : Nat
  FILE : Nat
  IMG : Nat
  NEST : Nat
  PIPE : Nat
  VIDEO : Nat
  BODY : Nat
  FILESYSTEM : Nat
  UNDEFINE : Nat
  ARGS : Nat
  DISCONNECT : Nat
  ERROR : Nat
  LOG : Nat
  MOUSE : Nat
  KEY : Nat
  NOP : Nat
  READY : Nat
  SYNC : Nat
  NAME : Nat

/-- The numbering of `GuacServerInstruction::Which` that counts the enumerators
from 0 in the order of the table. -/
def server_which_in_order : GuacServerInstruction_Which where
  ARC := 0
  CFILL := 1
  CLIP := 2
  CLOSE := 3
  COPY := 4
  CSTROKE := 5
  CURSOR := 6
  CURVE := 7
  DISPOSE := 8
  DISTORT := 9
  IDENTITY := 10
  LFILL := 11
  LINE := 12
  LSTROKE := 13
  MOVE := 14
  POP := 15
  PUSH := 16
  RECT := 17
  RESET := 18
  SET := 19
  SHADE := 20
  SIZE := 21
  START := 22
  TRANSFER := 23
  TRANSFORM := 24
  ACK := 25
  AUDIO := 26
  BLOB := 27
  CLIPBOARD := 28
  END := 29
  FILE := 30
  IMG := 31
  NEST := 32
  PIPE := 33
  VIDEO := 34
  BODY := 35
  FILESYSTEM := 36
  UNDEFINE := 37
  ARGS := 38
  DISCONNECT := 39
  ERROR := 40
  LOG := 41
  MOUSE := 42
  KEY := 43
  NOP := 44
  READY := 45
  SYNC := 46
  NAME := 47

/-- The type of the functions in the table, for a display type `D` and a type
`R` of decoded server instructions. -/
abbrev guacenc_instruction_handler (D R : Type) := D → R → Int × D

/-- The handlers named in the table.  They are defined in the files
`instruction-*.cpp`; the dispatcher is embedded for any definition of them. -/
structure guacenc_handlers (D R : Type) where
  guacenc_handle_cfill : guacenc_instruction_handler D R
  guacenc_handle_copy : guacenc_instruction_handler D R
  guacenc_handle_cursor : guacenc_instruction_handler D R
  guacenc_handle_dispose : guacenc_instruction_handler D R
  guacenc_handle_move : guacenc_instruction_handler D R
  guacenc_handle_rect : guacenc_instruction_handler D R
  guacenc_handle_shade : guacenc_instruction_handler D R
  guacenc_handle_size : guacenc_instruction_handler D R
  guacenc_handle_transfer : guacenc_instruction_handler D R
  guacenc_handle_blob : guacenc_instruction_handler D R
  guacenc_handle_end : guacenc_instruction_handler D R
  guacenc_handle_img : guacenc_instruction_handler D R
  guacenc_handle_mouse : guacenc_instruction_handler D R
  guacenc_handle_sync : guacenc_instruction_handler D R

/-- Handlers over a display that is a counter and instructions that are their
discriminant: each handler adds one to the counter and returns 1. -/
def counting_handlers : guacenc_handlers Nat Nat where
  guacenc_handle_cfill := fun display _ => (1, display + 1)
  guacenc_handle_copy := fun display _ => (1, display + 1)
  guacenc_handle_cursor := fun display _ => (1, display + 1)
  guacenc_handle_dispose := fun display _ => (1, display + 1)
  guacenc_handle_move := fun display _ => (1, display + 1)
  guacenc_handle_rect := fun display _ => (1, display + 1)
  guacenc_handle_shade := fun display _ => (1, display + 1)
  guacenc_handle_size := fun display _ => (1, display + 1)
  guacenc_handle_transfer := fun display _ => (1, display + 1)
  guacenc_handle_blob := fun display _ => (1, display + 1)
  guacenc_handle_end := fun display _ => (1, display + 1)
  guacenc_handle_img := fun display _ => (1, display + 1)
  guacenc_handle_mouse := fun display _ => (1, display + 1)
  guacenc_handle_sync := fun display _ => (1, display + 1)

/-- The table `guacenc_instruction_handler_map`; `none` is `nullptr`. -/
def guacenc_instruction_handler_map {D R : Type} (W : GuacServerInstruction_Which)
    (h : guacenc_handlers D R) : List (Nat × Option (guacenc_instruction_handler D R)) :=
  [
    ( W.ARC, none),
    ( W.CFILL, some h.guacenc_handle_cfill),
    ( W.CLIP, none),
    ( W.CLOSE, none),
    ( W.COPY, some h.guacenc_handle_copy),
    ( W.CSTROKE, none),
    ( W.CURSOR, some h.guacenc_handle_cursor),
    ( W.CURVE, none),
    ( W.DISPOSE, some h.guacenc_handle_dispose),
    ( W.DISTORT, none),
    ( W.IDENTITY, none),
    ( W.LFILL, none),
    ( W.LINE, none),
    ( W.LSTROKE, none),
    ( W.MOVE, some h.guacenc_handle_move),
    ( W.POP, none),
    ( W.PUSH, none),
    ( W.RECT, some h.guacenc_handle_rect),
    ( W.RESET, none),
    ( W.SET, none),
    ( W.SHADE, some h.guacenc_handle_shade),
    ( W.SIZE, some h.guacenc_handle_size),
    ( W.START, none),
    ( W.TRANSFER, some h.guacenc_handle_transfer),
    ( W.TRANSFORM, none),
    ( W.ACK, none),
    ( W.AUDIO, none),
    ( W.BLOB, some h.guacenc_handle_blob),
    ( W.CLIPBOARD, none),
    ( W.END, some h.guacenc_handle_end),
    ( W.FILE, none),
    ( W.IMG, some h.guacenc_handle_img),
    ( W.NEST, none),
    ( W.PIPE, none),
    ( W.VIDEO, none),
    ( W.BODY, none),
    ( W.FILESYSTEM, none),
    ( W.UNDEFINE, none),
    ( W.ARGS, none),
    ( W.DISCONNECT, none),
    ( W.ERROR, none),
    ( W.LOG, none),
    ( W.MOUSE, some h.guacenc_handle_mouse),
    ( W.KEY, none),
    ( W.NOP, none),
    ( W.READY, none),
    ( W.SYNC, some h.guacenc_handle_sync),
    ( W.NAME, none)
  ]

/-- The loop of the lambda under `static_assert`, `index` being its counter. -/
def handler_map_in_order_from {α : Type} : Nat → List (Nat × α) → Bool
  | _, [] => true
  | index, (opcode, _) :: rest =>
    if opcode ≠ index then false else handler_map_in_order_from (index + 1) rest

/-- The lambda under `static_assert`: the table is in the order of the
enumeration. -/
def handler_map_in_order {α : Type} (instr_map : List (Nat × α)) : Bool :=
  handler_map_in_order_from 0 instr_map

/-- Levels of `guacenc_log`. -/
inductive guac_client_log_level where
  | GUAC_LOG_ERROR
  | GUAC_LOG_WARNING
  | GUAC_LOG_INFO
  | GUAC_LOG_DEBUG
  | GUAC_LOG_TRACE
deriving DecidableEq, Repr

/-- What `guacenc_handle_instruction` yields: the value returned, the display,
and the lines the dispatcher itself hands to `guacenc_log`. -/
structure guacenc_outcome (D : Type) where
  result : Int
  display : D
  log : List (guac_client_log_level × String)

/-- The function `guacenc_handle_instruction`.  `which` is `instr.which()` and `field_name`
the name of the active field as `capnp::DynamicStruct` reports it (`none` when
it reports no field). -/
def guacenc_handle_instruction {D R : Type} (W : GuacServerInstruction_Which)
    (h : guacenc_handlers D R) (which : R → Nat) (field_name : R → Option String)
    (display : D) (instr : R) : guacenc_outcome D :=
  let instr_index := which instr
  if hlt : instr_index ≥ (guacenc_instruction_handler_map W h).length then
    { result := 0, display := display, log := [] }
  else
    let handler_pair :=
      (guacenc_instruction_handler_map W h).get ⟨instr_index, Nat.lt_of_not_ge hlt⟩
    match handler_pair.2 with
    | none =>
      { result := 0, display := display,
        log :=
          match field_name instr with
          | some name =>
            [(guac_client_log_level.GUAC_LOG_DEBUG, "\"" ++ name ++ "\" not implemented")]
          | none => [] }
    | some handler =>
      let r := handler display instr
      { result := r.1, display := r.2, log := [] }

end Guacenc

namespace Guacamole

/-! ## The instructions sent to the client -/

/-- A C `double`, by its bits.  The code only passes these values on. -/
structure double where
  bits : Nat
deriving DecidableEq, Repr

/-- A message whose root is a `Guacamole::GuacServerInstruction`, as
`protocol.cpp` builds it: one constructor for each builder call that selects a
variant (`initAck`, `setSync`, ...), carrying the values given to the setters,
in the order of the calls. -/
inductive GuacServerInstruction where
  | initAck (stream : Int) (message : String) (status : Int)
  | initArgs (list : List String)
  | initArc (layer : Int) (x : Int) (y : Int) (radius : Int) (start : double) (end_ : double) (negative : Int)
  | initAudio (stream : Int) (mimetype : String)
  | initBlob (stream : Int) (data : List Nat)
  | initBody (object : Int) (stream : Int) (mimetype : String) (name : String)
  | initCfill (mask : Int) (layer : Int) (r : Int) (g : Int) (b : Int) (a : Int)
  | setClose (value : Int)
  | setClip (value : Int)
  | initClipboard (stream : Int) (mimetype : String)
  | initCopy (srcLayer : Int) (srcX : Int) (srcY : Int) (srcWidth : Int) (srcHeight : Int) (mask : Int) (dstLayer : Int) (dstX : Int) (dstY : Int)
  | initCstroke (mask : Int) (layer : Int) (cap : Int) (join : Int) (thickness : Int) (r : Int) (g : Int) (b : Int) (a : Int)
  | initCursor (x : Int) (y : Int) (srcLayer : Int) (srcX : Int) (srcY : Int) (srcWidth : Int) (srcHeight : Int)
  | initCurve (layer : Int) (cp1x : Int) (cp1y : Int) (cp2x : Int) (cp2y : Int) (x : Int) (y : Int)
  | setDisconnect
  | setDispose (value : Int)
  | initDistort (layer : Int) (a : double) (b : double) (c : double) (d : double) (e : double) (f : double)
  | setEnd (value : Int)
  | initError (text : String) (status : Int)
  | setLog (value : String)
  | initFile (stream : Int) (mimetype : String) (filename : String)
  | initFilesystem (object : Int) (name : String)
  | setIdentity (value : Int)
  | initKey (keysym : Int) (pressed : Int) (timestamp : Int)
  | initLfill (mask : Int) (layer : Int) (srcLayer : Int)
  | initLine (layer : Int) (x : Int) (y : Int)
  | initLstroke (mask : Int) (layer : Int) (cap : Int) (join : Int) (thickness : Int) (srcLayer : Int)
  | initMouse (x : Int) (y : Int) (buttonMask : Int) (timestamp : Int)
  | initMove (layer : Int) (parent : Int) (x : Int) (y : Int) (z : Int)
  | setName (value : String)
  | setNop
  | initPipe (stream : Int) (mimetype : String) (name : String)
  | initImg (stream : Int) (mode : Int) (layer : Int) (mimetype : String) (x : Int) (y : Int)
  | setPop (value : Int)
  | setPush (value : Int)
  | setReady (value : String)
  | initRect (layer : Int) (x : Int) (y : Int) (width : Int) (height : Int)
  | setReset (value : Int)
  | initSet (layer : Int) (property : String) (value : String)
  | initShade (layer : Int) (opacity : Int)
  | initSize (layer : Int) (width : Int) (height : Int)
  | initStart (layer : Int) (x : Int) (y : Int)
  | setSync (value : Int)
  | initTransfer (srcLayer : Int) (srcX : Int) (srcY : Int) (srcWidth : Int) (srcHeight : Int) (function : Int) (dstLayer : Int) (dstX : Int) (dstY : Int)
  | initTransform (layer : Int) (a : double) (b : double) (c : double) (d : double) (e : double) (f : double)
  | setUndefine (value : Int)
  | initVideo (stream : Int) (layer : Int) (mimetype : String)

end Guacamole

namespace Protocol

open Guacamole

/-! ## Sockets (`socket.c`) -/

/-- The part of `guac_layer` the senders read. -/
structure guac_layer where
  index : Int
deriving DecidableEq, Repr

/-- A call through one of the function pointers of a socket, with the message
handed to `write_handler`. -/
inductive guac_socket_event where
  | lock_handler (fn : Nat)
  | write_handler (fn : Nat) (message : GuacServerInstruction)
  | unlock_handler (fn : Nat)

/-- The part of `guac_socket` the senders use, and the calls made through its
function pointers so far.  `write_handler` is called without a test for `NULL`:
it is a function pointer that is set. -/
structure guac_socket where
  write_handler : Nat
  lock_handler : Option Nat
  unlock_handler : Option Nat
  events : List guac_socket_event

/-- The value the external code behind `write_handler` returns, given the
socket as it is at the call and the message. -/
abbrev write_results := guac_socket → GuacServerInstruction → Int

/-- The function `guac_socket_instruction_begin`. -/
def guac_socket_instruction_begin (socket : guac_socket) : guac_socket :=
  match socket.lock_handler with
  | some fn => { socket with events := socket.events ++ [guac_socket_event.lock_handler fn] }
  | none => socket

/-- The function `guac_socket_instruction_end`. -/
def guac_socket_instruction_end (socket : guac_socket) : guac_socket :=
  match socket.unlock_handler with
  | some fn => { socket with events := socket.events ++ [guac_socket_event.unlock_handler fn] }
  | none => socket

/-- The call `socket->write_handler(socket, &message_builder)`. -/
def call_write_handler (W : write_results) (socket : guac_socket)
    (message_builder : GuacServerInstruction) : Int × guac_socket :=
  (W socket message_builder,
    { socket with
      events := socket.events ++
        [guac_socket_event.write_handler socket.write_handler message_builder] })

/-! ## The senders (`protocol.cpp`) -/

/-- The function `guac_protocol_send_ack`. -/
def guac_protocol_send_ack (W : write_results) (socket : guac_socket)
    (stream : UserHandlers.guac_stream) (error : String) (status : Int) :
    Int × guac_socket :=
  let socket := guac_socket_instruction_begin socket
  let message_builder :=
    GuacServerInstruction.initAck stream.index error status
  let (ret_val, socket) := call_write_handler W socket message_builder
  let socket := guac_socket_instruction_end socket
  (ret_val, socket)

/-- The size of a pointer, in bytes. -/
def sizeof_pointer : Nat := 8

/-- The loop of `__array_len`: `array` is the address the pointer holds, `size`
the counter (`uint32_t`); `none` when the loop has not stopped within `fuel`
iterations. -/
def __array_len_loop : Nat → Nat → Nat → Option Nat
  | 0, _, _ => none
  | fuel + 1, array, size =>
    if array ≠ 0 then
      __array_len_loop fuel (array + sizeof_pointer) ((size + 1) % 4294967296)
    else
      some size

/-- The function `__array_len`. -/
def __array_len (fuel : Nat) (array : Nat) : Option Nat :=
  __array_len_loop fuel array 0

/-- The loop of `__copy_args_to_list`.  `memory` gives what an address of the
array holds: `none` if it cannot be read, `some none` for `NULL`, `some (some s)`
for a pointer to the string `s`.  `arg` is the address the pointer holds, `i`
the index.  The element `*arg` is read after the increment; the assignment goes
to the temporary that `asReader()` returns, so the list keeps its entries.
`none` when the loop has not stopped within `fuel` iterations, or reads where
there is no string, or indexes beyond the list. -/
def __copy_args_to_list_loop (memory : Nat → Option (Option String)) :
    Nat → Nat → Nat → List String → Option (List String)
  | 0, _, _, _ => none
  | fuel + 1, arg, i, list =>
    if arg ≠ 0 then
      let arg := arg + sizeof_pointer
      match memory arg with
      | some (some _) =>
        if i < list.length then
          __copy_args_to_list_loop memory fuel arg ((i + 1) % 4294967296) list
        else none
      | _ => none
    else
      some list

/-- The function `__copy_args_to_list`. -/
def __copy_args_to_list (memory : Nat → Option (Option String)) (fuel : Nat) (args : Nat)
    (list : List String) : Option (List String) :=
  __copy_args_to_list_loop memory fuel args 0 list

/-- The function `guac_protocol_send_args`; `args` is the address of the array.
The result is `none`, with the socket as it is then, when one of the two loops
yields nothing. -/
def guac_protocol_send_args (W : write_results) (memory : Nat → Option (Option String))
    (fuel : Nat) (socket : guac_socket) (args : Nat) : Option Int × guac_socket :=
  let socket := guac_socket_instruction_begin socket
  match __array_len fuel args with
  | none => (none, socket)
  | some num_args =>
    let args_message := List.replicate num_args ""
    match __copy_args_to_list memory fuel args args_message with
    | none => (none, socket)
    | some args_message =>
      let message_builder := GuacServerInstruction.initArgs args_message
      let (ret_val, socket) := call_write_handler W socket message_builder
      let socket := guac_socket_instruction_end socket
      (some ret_val, socket)

/-- The function `guac_protocol_send_arc`. -/
def guac_protocol_send_arc (W : write_results) (socket : guac_socket) (layer : guac_layer)
    (x : Int) (y : Int) (radius : Int) (startAngle : double) (endAngle : double)
    (negative : Int) :
    Int × guac_socket :=
  let socket := guac_socket_instruction_begin socket
  let message_builder :=
    GuacServerInstruction.initArc layer.index x y radius startAngle endAngle negative
  let (ret_val, socket) := call_write_handler W socket message_builder
  let socket := guac_socket_instruction_end socket
  (ret_val, socket)

/-- The function `guac_protocol_send_audio`. -/
def guac_protocol_send_audio (W : write_results) (socket : guac_socket)
    (stream : UserHandlers.guac_stream) (mimetype : String) :
    Int × guac_socket :=
  let socket := guac_socket_instruction_begin socket
  let message_builder :=
    GuacServerInstruction.initAudio stream.index mimetype
  let (ret_val, socket) := call_write_handler W socket message_builder
  let socket := guac_socket_instruction_end socket
  (ret_val, socket)

/-- The function `guac_protocol_send_blob`. -/
def guac_protocol_send_blob (W : write_results) (socket : guac_socket)
    (stream : UserHandlers.guac_stream) (data : List Nat) (count : Int) :
    Int × guac_socket :=
  let socket := guac_socket_instruction_begin socket
  let message_builder :=
    GuacServerInstruction.initBlob stream.index (data.take count.toNat)
  let (ret_val, socket) := call_write_handler W socket message_builder
  let socket := guac_socket_instruction_end socket
  (ret_val, socket)

/-- The function `guac_protocol_send_body`. -/
def guac_protocol_send_body (W : write_results) (socket : guac_socket)
    (object : UserHandlers.guac_object) (stream : UserHandlers.guac_stream) (mimetype : String)
    (name : String) :
    Int × guac_socket :=
  let socket := guac_socket_instruction_begin socket
  let message_builder :=
    GuacServerInstruction.initBody object.index stream.index mimetype name
  let (ret_val, socket) := call_write_handler W socket message_builder
  let socket := guac_socket_instruction_end socket
  (ret_val, socket)

/-- The function `guac_protocol_send_cfill`. -/
def guac_protocol_send_cfill (W : write_results) (socket : guac_socket) (mode : Int)
    (layer : guac_layer) (r : Int) (g : Int) (b : Int) (a : Int) :
    Int × guac_socket :=
  let socket := guac_socket_instruction_begin socket
  let message_builder :=
    GuacServerInstruction.initCfill mode layer.index r g b a
  let (ret_val, socket) := call_write_handler W socket message_builder
  let socket := guac_socket_instruction_end socket
  (ret_val, socket)

/-- The function `guac_protocol_send_close`. -/
def guac_protocol_send_close (W : write_results) (socket : guac_socket) (layer : guac_layer) :
    Int × guac_socket :=
  let socket := guac_socket_instruction_begin socket
  let message_builder :=
    GuacServerInstruction.setClose layer.index
  let (ret_val, socket) := call_write_handler W socket message_builder
  let socket := guac_socket_instruction_end socket
  (ret_val, socket)

/-- The function `guac_protocol_send_clip`. -/
def guac_protocol_send_clip (W : write_results) (socket : guac_socket) (layer : guac_layer) :
    Int × guac_socket :=
  let socket := guac_socket_instruction_begin socket
  let message_builder :=
    GuacServerInstruction.setClip layer.index
  let (ret_val, socket) := call_write_handler W socket message_builder
  let socket := guac_socket_instruction_end socket
  (ret_val, socket)

/-- The function `guac_protocol_send_clipboard`. -/
def guac_protocol_send_clipboard (W : write_results) (socket : guac_socket)
    (stream : UserHandlers.guac_stream) (mimetype : String) :
    Int × guac_socket :=
  let socket := guac_socket_instruction_begin socket
  let message_builder :=
    GuacServerInstruction.initClipboard stream.index mimetype
  let (ret_val, socket) := call_write_handler W socket message_builder
  let socket := guac_socket_instruction_end socket
  (ret_val, socket)

/-- The function `guac_protocol_send_copy`. -/
def guac_protocol_send_copy (W : write_results) (socket : guac_socket) (srcl : guac_layer)
    (srcx : Int) (srcy : Int) (w : Int) (h : Int) (mode : Int) (dstl : guac_layer) (dstx : Int)
    (dsty : Int) :
    Int × guac_socket :=
  let socket := guac_socket_instruction_begin socket
  let message_builder :=
    GuacServerInstruction.initCopy srcl.index srcx srcy w h mode dstl.index dstx dsty
  let (ret_val, socket) := call_write_handler W socket message_builder
  let socket := guac_socket_instruction_end socket
  (ret_val, socket)

/-- The function `guac_protocol_send_cstroke`. -/
def guac_protocol_send_cstroke (W : write_results) (socket : guac_socket) (mode : Int)
    (layer : guac_layer) (cap : Int) (join : Int) (thickness : Int) (r : Int) (g : Int)
    (b : Int) (a : Int) :
    Int × guac_socket :=
  let socket := guac_socket_instruction_begin socket
  let message_builder :=
    GuacServerInstruction.initCstroke mode layer.index cap join thickness r g b a
  let (ret_val, socket) := call_write_handler W socket message_builder
  let socket := guac_socket_instruction_end socket
  (ret_val, socket)

/-- The function `guac_protocol_send_cursor`. -/
def guac_protocol_send_cursor (W : write_results) (socket : guac_socket) (x : Int) (y : Int)
    (srcl : guac_layer) (srcx : Int) (srcy : Int) (w : Int) (h : Int) :
    Int × guac_socket :=
  let socket := guac_socket_instruction_begin socket
  let message_builder :=
    GuacServerInstruction.initCursor x y srcl.index srcx srcy w h
  let (ret_val, socket) := call_write_handler W socket message_builder
  let socket := guac_socket_instruction_end socket
  (ret_val, socket)

/-- The function `guac_protocol_send_curve`. -/
def guac_protocol_send_curve (W : write_results) (socket : guac_socket) (layer : guac_layer)
    (cp1x : Int) (cp1y : Int) (cp2x : Int) (cp2y : Int) (x : Int) (y : Int) :
    Int × guac_socket :=
  let socket := guac_socket_instruction_begin socket
  let message_builder :=
    GuacServerInstruction.initCurve layer.index cp1x cp1y cp2x cp2y x y
  let (ret_val, socket) := call_write_handler W socket message_builder
  let socket := guac_socket_instruction_end socket
  (ret_val, socket)

/-- The function `guac_protocol_send_disconnect`. -/
def guac_protocol_send_disconnect (W : write_results) (socket : guac_socket) :
    Int × guac_socket :=
  let socket := guac_socket_instruction_begin socket
  let message_builder :=
    GuacServerInstruction.setDisconnect
  let (ret_val, socket) := call_write_handler W socket message_builder
  let socket := guac_socket_instruction_end socket
  (ret_val, socket)

/-- The function `guac_protocol_send_dispose`. -/
def guac_protocol_send_dispose (W : write_results) (socket : guac_socket) (layer : guac_layer) :
    Int × guac_socket :=
  let socket := guac_socket_instruction_begin socket
  let message_builder :=
    GuacServerInstruction.setDispose layer.index
  let (ret_val, socket) := call_write_handler W socket message_builder
  let socket := guac_socket_instruction_end socket
  (ret_val, socket)

/-- The function `guac_protocol_send_distort`. -/
def guac_protocol_send_distort (W : write_results) (socket : guac_socket) (layer : guac_layer)
    (a : double) (b : double) (c : double) (d : double) (e : double) (f : double) :
    Int × guac_socket :=
  let socket := guac_socket_instruction_begin socket
  let message_builder :=
    GuacServerInstruction.initDistort layer.index a b c d e f
  let (ret_val, socket) := call_write_handler W socket message_builder
  let socket := guac_socket_instruction_end socket
  (ret_val, socket)

/-- The function `guac_protocol_send_end`. -/
def guac_protocol_send_end (W : write_results) (socket : guac_socket)
    (stream : UserHandlers.guac_stream) :
    Int × guac_socket :=
  let socket := guac_socket_instruction_begin socket
  let message_builder :=
    GuacServerInstruction.setEnd stream.index
  let (ret_val, socket) := call_write_handler W socket message_builder
  let socket := guac_socket_instruction_end socket
  (ret_val, socket)

/-- The function `guac_protocol_send_error`. -/
def guac_protocol_send_error (W : write_results) (socket : guac_socket) (error : String)
    (status : Int) :
    Int × guac_socket :=
  let socket := guac_socket_instruction_begin socket
  let message_builder :=
    GuacServerInstruction.initError error status
  let (ret_val, socket) := call_write_handler W socket message_builder
  let socket := guac_socket_instruction_end socket
  (ret_val, socket)

/-- The function `vguac_protocol_send_log`.  `formatted` is the text that
`format` and `args` denote; `vsnprintf` keeps at most 4095 characters of it in
the buffer `message`. -/
def vguac_protocol_send_log (W : write_results) (socket : guac_socket) (formatted : String) :
    Int × guac_socket :=
  let message := formatted.take 4095
  let socket := guac_socket_instruction_begin socket
  let message_builder := GuacServerInstruction.setLog message
  let (ret_val, socket) := call_write_handler W socket message_builder
  let socket := guac_socket_instruction_end socket
  (ret_val, socket)

/-- The function `guac_protocol_send_log`. -/
def guac_protocol_send_log (W : write_results) (socket : guac_socket) (formatted : String) :
    Int × guac_socket :=
  let ret_val := vguac_protocol_send_log W socket formatted
  ret_val

/-- The function `guac_protocol_send_file`. -/
def guac_protocol_send_file (W : write_results) (socket : guac_socket)
    (stream : UserHandlers.guac_stream) (mimetype : String) (name : String) :
    Int × guac_socket :=
  let socket := guac_socket_instruction_begin socket
  let message_builder :=
    GuacServerInstruction.initFile stream.index mimetype name
  let (ret_val, socket) := call_write_handler W socket message_builder
  let socket := guac_socket_instruction_end socket
  (ret_val, socket)

/-- The function `guac_protocol_send_filesystem`. -/
def guac_protocol_send_filesystem (W : write_results) (socket : guac_socket)
    (object : UserHandlers.guac_object) (name : String) :
    Int × guac_socket :=
  let socket := guac_socket_instruction_begin socket
  let message_builder :=
    GuacServerInstruction.initFilesystem object.index name
  let (ret_val, socket) := call_write_handler W socket message_builder
  let socket := guac_socket_instruction_end socket
  (ret_val, socket)

/-- The function `guac_protocol_send_identity`. -/
def guac_protocol_send_identity (W : write_results) (socket : guac_socket) (layer : guac_layer)
    :
    Int × guac_socket :=
  let socket := guac_socket_instruction_begin socket
  let message_builder :=
    GuacServerInstruction.setIdentity layer.index
  let (ret_val, socket) := call_write_handler W socket message_builder
  let socket := guac_socket_instruction_end socket
  (ret_val, socket)

/-- The function `guac_protocol_send_key`. -/
def guac_protocol_send_key (W : write_results) (socket : guac_socket) (keysym : Int)
    (pressed : Int) (timestamp : Int) :
    Int × guac_socket :=
  let socket := guac_socket_instruction_begin socket
  let message_builder :=
    GuacServerInstruction.initKey keysym pressed timestamp
  let (ret_val, socket) := call_write_handler W socket message_builder
  let socket := guac_socket_instruction_end socket
  (ret_val, socket)

/-- The function `guac_protocol_send_lfill`. -/
def guac_protocol_send_lfill (W : write_results) (socket : guac_socket) (mode : Int)
    (layer : guac_layer) (srcl : guac_layer) :
    Int × guac_socket :=
  let socket := guac_socket_instruction_begin socket
  let message_builder :=
    GuacServerInstruction.initLfill mode layer.index srcl.index
  let (ret_val, socket) := call_write_handler W socket message_builder
  let socket := guac_socket_instruction_end socket
  (ret_val, socket)

/-- The function `guac_protocol_send_line`. -/
def guac_protocol_send_line (W : write_results) (socket : guac_socket) (layer : guac_layer)
    (x : Int) (y : Int) :
    Int × guac_socket :=
  let socket := guac_socket_instruction_begin socket
  let message_builder :=
    GuacServerInstruction.initLine layer.index x y
  let (ret_val, socket) := call_write_handler W socket message_builder
  let socket := guac_socket_instruction_end socket
  (ret_val, socket)

/-- The function `guac_protocol_send_lstroke`. -/
def guac_protocol_send_lstroke (W : write_results) (socket : guac_socket) (mode : Int)
    (layer : guac_layer) (cap : Int) (join : Int) (thickness : Int) (srcl : guac_layer) :
    Int × guac_socket :=
  let socket := guac_socket_instruction_begin socket
  let message_builder :=
    GuacServerInstruction.initLstroke mode layer.index cap join thickness srcl.index
  let (ret_val, socket) := call_write_handler W socket message_builder
  let socket := guac_socket_instruction_end socket
  (ret_val, socket)

/-- The function `guac_protocol_send_mouse`. -/
def guac_protocol_send_mouse (W : write_results) (socket : guac_socket) (x : Int) (y : Int)
    (button_mask : Int) (timestamp : Int) :
    Int × guac_socket :=
  let socket := guac_socket_instruction_begin socket
  let message_builder :=
    GuacServerInstruction.initMouse x y button_mask timestamp
  let (ret_val, socket) := call_write_handler W socket message_builder
  let socket := guac_socket_instruction_end socket
  (ret_val, socket)

/-- The function `guac_protocol_send_move`. -/
def guac_protocol_send_move (W : write_results) (socket : guac_socket) (layer : guac_layer)
    (parent : guac_layer) (x : Int) (y : Int) (z : Int) :
    Int × guac_socket :=
  let socket := guac_socket_instruction_begin socket
  let message_builder :=
    GuacServerInstruction.initMove layer.index parent.index x y z
  let (ret_val, socket) := call_write_handler W socket message_builder
  let socket := guac_socket_instruction_end socket
  (ret_val, socket)

/-- The function `guac_protocol_send_name`. -/
def guac_protocol_send_name (W : write_results) (socket : guac_socket) (name : String) :
    Int × guac_socket :=
  let socket := guac_socket_instruction_begin socket
  let message_builder :=
    GuacServerInstruction.setName name
  let (ret_val, socket) := call_write_handler W socket message_builder
  let socket := guac_socket_instruction_end socket
  (ret_val, socket)

/-- The function `guac_protocol_send_nop`. -/
def guac_protocol_send_nop (W : write_results) (socket : guac_socket) :
    Int × guac_socket :=
  let socket := guac_socket_instruction_begin socket
  let message_builder :=
    GuacServerInstruction.setNop
  let (ret_val, socket) := call_write_handler W socket message_builder
  let socket := guac_socket_instruction_end socket
  (ret_val, socket)

/-- The function `guac_protocol_send_pipe`. -/
def guac_protocol_send_pipe (W : write_results) (socket : guac_socket)
    (stream : UserHandlers.guac_stream) (mimetype : String) (name : String) :
    Int × guac_socket :=
  let socket := guac_socket_instruction_begin socket
  let message_builder :=
    GuacServerInstruction.initPipe stream.index mimetype name
  let (ret_val, socket) := call_write_handler W socket message_builder
  let socket := guac_socket_instruction_end socket
  (ret_val, socket)

/-- The function `guac_protocol_send_img`. -/
def guac_protocol_send_img (W : write_results) (socket : guac_socket)
    (stream : UserHandlers.guac_stream) (mode : Int) (layer : guac_layer) (mimetype : String)
    (x : Int) (y : Int) :
    Int × guac_socket :=
  let socket := guac_socket_instruction_begin socket
  let message_builder :=
    GuacServerInstruction.initImg stream.index mode layer.index mimetype x y
  let (ret_val, socket) := call_write_handler W socket message_builder
  let socket := guac_socket_instruction_end socket
  (ret_val, socket)

/-- The function `guac_protocol_send_pop`. -/
def guac_protocol_send_pop (W : write_results) (socket : guac_socket) (layer : guac_layer) :
    Int × guac_socket :=
  let socket := guac_socket_instruction_begin socket
  let message_builder :=
    GuacServerInstruction.setPop layer.index
  let (ret_val, socket) := call_write_handler W socket message_builder
  let socket := guac_socket_instruction_end socket
  (ret_val, socket)

/-- The function `guac_protocol_send_push`. -/
def guac_protocol_send_push (W : write_results) (socket : guac_socket) (layer : guac_layer) :
    Int × guac_socket :=
  let socket := guac_socket_instruction_begin socket
  let message_builder :=
    GuacServerInstruction.setPush layer.index
  let (ret_val, socket) := call_write_handler W socket message_builder
  let socket := guac_socket_instruction_end socket
  (ret_val, socket)

/-- The function `guac_protocol_send_ready`. -/
def guac_protocol_send_ready (W : write_results) (socket : guac_socket) (id : String) :
    Int × guac_socket :=
  let socket := guac_socket_instruction_begin socket
  let message_builder :=
    GuacServerInstruction.setReady id
  let (ret_val, socket) := call_write_handler W socket message_builder
  let socket := guac_socket_instruction_end socket
  (ret_val, socket)

/-- The function `guac_protocol_send_rect`. -/
def guac_protocol_send_rect (W : write_results) (socket : guac_socket) (layer : guac_layer)
    (x : Int) (y : Int) (width : Int) (height : Int) :
    Int × guac_socket :=
  let socket := guac_socket_instruction_begin socket
  let message_builder :=
    GuacServerInstruction.initRect layer.index x y width height
  let (ret_val, socket) := call_write_handler W socket message_builder
  let socket := guac_socket_instruction_end socket
  (ret_val, socket)

/-- The function `guac_protocol_send_reset`. -/
def guac_protocol_send_reset (W : write_results) (socket : guac_socket) (layer : guac_layer) :
    Int × guac_socket :=
  let socket := guac_socket_instruction_begin socket
  let message_builder :=
    GuacServerInstruction.setReset layer.index
  let (ret_val, socket) := call_write_handler W socket message_builder
  let socket := guac_socket_instruction_end socket
  (ret_val, socket)

/-- The function `guac_protocol_send_set`. -/
def guac_protocol_send_set (W : write_results) (socket : guac_socket) (layer : guac_layer)
    (name : String) (value : String) :
    Int × guac_socket :=
  let socket := guac_socket_instruction_begin socket
  let message_builder :=
    GuacServerInstruction.initSet layer.index name value
  let (ret_val, socket) := call_write_handler W socket message_builder
  let socket := guac_socket_instruction_end socket
  (ret_val, socket)

/-- The function `guac_protocol_send_shade`. -/
def guac_protocol_send_shade (W : write_results) (socket : guac_socket) (layer : guac_layer)
    (a : Int) :
    Int × guac_socket :=
  let socket := guac_socket_instruction_begin socket
  let message_builder :=
    GuacServerInstruction.initShade layer.index a
  let (ret_val, socket) := call_write_handler W socket message_builder
  let socket := guac_socket_instruction_end socket
  (ret_val, socket)

/-- The function `guac_protocol_send_size`. -/
def guac_protocol_send_size (W : write_results) (socket : guac_socket) (layer : guac_layer)
    (w : Int) (h : Int) :
    Int × guac_socket :=
  let socket := guac_socket_instruction_begin socket
  let message_builder :=
    GuacServerInstruction.initSize layer.index w h
  let (ret_val, socket) := call_write_handler W socket message_builder
  let socket := guac_socket_instruction_end socket
  (ret_val, socket)

/-- The function `guac_protocol_send_start`. -/
def guac_protocol_send_start (W : write_results) (socket : guac_socket) (layer : guac_layer)
    (x : Int) (y : Int) :
    Int × guac_socket :=
  let socket := guac_socket_instruction_begin socket
  let message_builder :=
    GuacServerInstruction.initStart layer.index x y
  let (ret_val, socket) := call_write_handler W socket message_builder
  let socket := guac_socket_instruction_end socket
  (ret_val, socket)

/-- The function `guac_protocol_send_sync`. -/
def guac_protocol_send_sync (W : write_results) (socket : guac_socket) (timestamp : Int) :
    Int × guac_socket :=
  let socket := guac_socket_instruction_begin socket
  let message_builder :=
    GuacServerInstruction.setSync timestamp
  let (ret_val, socket) := call_write_handler W socket message_builder
  let socket := guac_socket_instruction_end socket
  (ret_val, socket)

/-- The function `guac_protocol_send_transfer`. -/
def guac_protocol_send_transfer (W : write_results) (socket : guac_socket) (srcl : guac_layer)
    (srcx : Int) (srcy : Int) (w : Int) (h : Int) (fn : Int) (dstl : guac_layer) (dstx : Int)
    (dsty : Int) :
    Int × guac_socket :=
  let socket := guac_socket_instruction_begin socket
  let message_builder :=
    GuacServerInstruction.initTransfer srcl.index srcx srcy w h fn dstl.index dstx dsty
  let (ret_val, socket) := call_write_handler W socket message_builder
  let socket := guac_socket_instruction_end socket
  (ret_val, socket)

/-- The function `guac_protocol_send_transform`. -/
def guac_protocol_send_transform (W : write_results) (socket : guac_socket) (layer : guac_layer)
    (a : double) (b : double) (c : double) (d : double) (e : double) (f : double) :
    Int × guac_socket :=
  let socket := guac_socket_instruction_begin socket
  let message_builder :=
    GuacServerInstruction.initTransform layer.index a b c d e f
  let (ret_val, socket) := call_write_handler W socket message_builder
  let socket := guac_socket_instruction_end socket
  (ret_val, socket)

/-- The function `guac_protocol_send_undefine`. -/
def guac_protocol_send_undefine (W : write_results) (socket : guac_socket)
    (object : UserHandlers.guac_object) :
    Int × guac_socket :=
  let socket := guac_socket_instruction_begin socket
  let message_builder :=
    GuacServerInstruction.setUndefine object.index
  let (ret_val, socket) := call_write_handler W socket message_builder
  let socket := guac_socket_instruction_end socket
  (ret_val, socket)

/-- The function `guac_protocol_send_video`. -/
def guac_protocol_send_video (W : write_results) (socket : guac_socket)
    (stream : UserHandlers.guac_stream) (layer : guac_layer) (mimetype : String) :
    Int × guac_socket :=
  let socket := guac_socket_instruction_begin socket
  let message_builder :=
    GuacServerInstruction.initVideo stream.index layer.index mimetype
  let (ret_val, socket) := call_write_handler W socket message_builder
  let socket := guac_socket_instruction_end socket
  (ret_val, socket)

/-! ## The discipline of one instruction -/

/-- What is asked of a sender that has `message` to send: take the lock, hand
`message` to `write_handler` once, release the lock whatever the write returned,
and return what the write returned. -/
def write_under_lock (W : write_results) (socket : guac_socket)
    (message : GuacServerInstruction) : Int × guac_socket :=
  let locked := guac_socket_instruction_begin socket
  let written := call_write_handler W locked message
  (written.1, guac_socket_instruction_end written.2)

/-- A socket with the three handlers set and no call made yet. -/
def locking_socket : guac_socket :=
  { write_handler := 100, lock_handler := some 200, unlock_handler := some 300, events := [] }

/-- A write handler that fails: it returns -1 for every message. -/
def write_fails : write_results := fun _ _ => -1

/-- A memory holding at address 4096 the array of the string "hostname"
followed by `NULL`. -/
def hostname_args_memory : Nat → Option (Option String) :=
  fun address =>
    if address = 4096 then some (some "hostname")
    else if address = 4104 then some none
    else none

end Protocol

namespace Guacamole

/-! ## The instructions as the encoder reads them -/

/-- Payload of `move`. -/
structure MoveReader where
  getLayer : Int
  getParent : Int
  getX : Int
  getY : Int
  getZ : Int
deriving DecidableEq, Repr

/-- Payload of `rect`. -/
structure RectReader where
  getLayer : Int
  getX : Int
  getY : Int
  getWidth : Int
  getHeight : Int
deriving DecidableEq, Repr

/-- Payload of `copy`. -/
structure CopyReader where
  getSrcLayer : Int
  getSrcX : Int
  getSrcY : Int
  getSrcWidth : Int
  getSrcHeight : Int
  getMask : Int
  getDstLayer : Int
  getDstX : Int
  getDstY : Int
deriving DecidableEq, Repr

/-- Payload of `cfill`. -/
structure CfillReader where
  getMask : Int
  getLayer : Int
  getR : Int
  getG : Int
  getB : Int
  getA : Int
deriving DecidableEq, Repr

/-- The accessor `getMove()`.  The dispatcher hands a handler the variant it is
bound to; applied to another variant the accessor yields an empty payload here. -/
def GuacServerInstruction.getMove : GuacServerInstruction → MoveReader
  | GuacServerInstruction.initMove layer parent x y z =>
    { getLayer := layer, getParent := parent, getX := x, getY := y, getZ := z }
  | _ => { getLayer := 0, getParent := 0, getX := 0, getY := 0, getZ := 0 }

/-- The accessor `getRect()`. -/
def GuacServerInstruction.getRect : GuacServerInstruction → RectReader
  | GuacServerInstruction.initRect layer x y width height =>
    { getLayer := layer, getX := x, getY := y, getWidth := width, getHeight := height }
  | _ => { getLayer := 0, getX := 0, getY := 0, getWidth := 0, getHeight := 0 }

/-- The accessor `getCopy()`. -/
def GuacServerInstruction.getCopy : GuacServerInstruction → CopyReader
  | GuacServerInstruction.initCopy srcLayer srcX srcY srcWidth srcHeight mask dstLayer dstX
      dstY =>
    { getSrcLayer := srcLayer, getSrcX := srcX, getSrcY := srcY, getSrcWidth := srcWidth,
      getSrcHeight := srcHeight, getMask := mask, getDstLayer := dstLayer, getDstX := dstX,
      getDstY := dstY }
  | _ =>
    { getSrcLayer := 0, getSrcX := 0, getSrcY := 0, getSrcWidth := 0, getSrcHeight := 0,
      getMask := 0, getDstLayer := 0, getDstX := 0, getDstY := 0 }

/-- The accessor `getCfill()`. -/
def GuacServerInstruction.getCfill : GuacServerInstruction → CfillReader
  | GuacServerInstruction.initCfill mask layer r g b a =>
    { getMask := mask, getLayer := layer, getR := r, getG := g, getB := b, getA := a }
  | _ => { getMask := 0, getLayer := 0, getR := 0, getG := 0, getB := 0, getA := 0 }

end Guacamole

namespace Guacenc

open Guacamole

/-! ## The cairo calls of the handlers

cairo is an external library.  A surface is an object at an address, with its
size and its pixels; a context is its drawing state, and a call is the function
from the state before to the state after that the documentation of cairo
describes, for paths made of rectangles with integer corners.  A source surface
is held by reference: a drawing whose source is the very surface it draws on
reads what it is writing, and its result is left open, as is what cairo computes
from colour values (`cairo_library`).  Surfaces that cairo cannot create (a
negative or too large size, no memory) are not part of the model. -/

/-- The type `cairo_operator_t`. -/
abbrev cairo_operator_t := Nat

/-- The operator `CAIRO_OPERATOR_SOURCE`. -/
def CAIRO_OPERATOR_SOURCE : cairo_operator_t := 1

/-- The operator `CAIRO_OPERATOR_OVER`. -/
def CAIRO_OPERATOR_OVER : cairo_operator_t := 2

/-- An image surface: the address of the object (two values with the same
address are the same surface, at different times), its size and the value of
each pixel. -/
structure cairo_surface_t where
  address : Nat
  width : Int
  height : Int
  data : Int → Int → Nat

/-- The pixel of a surface at `(x, y)`; outside the surface there is nothing,
which reads as the transparent pixel 0. -/
def surface_pixel (surface : cairo_surface_t) (x y : Int) : Nat :=
  if 0 ≤ x ∧ x < surface.width ∧ 0 ≤ y ∧ y < surface.height then surface.data x y else 0

/-- The source of a context: a colour (`r` stands for `r / 255.0`, and so on), or
a surface placed with its origin at `(x, y)`. -/
inductive cairo_source where
  | rgba (r g b a : Int)
  | surface (surface : cairo_surface_t) (x y : Int)

/-- A rectangle added to a path by `cairo_rectangle`. -/
structure cairo_path_rectangle where
  x : Int
  y : Int
  width : Int
  height : Int
deriving DecidableEq, Repr

/-- The drawing state of a context (`cairo_t`). -/
structure cairo_t where
  operator : cairo_operator_t
  source : cairo_source
  path : List cairo_path_rectangle

/-- What the model leaves to cairo: the pixel that results from composing a
source pixel onto a destination pixel with an operator other than
`CAIRO_OPERATOR_SOURCE`; the pixel of a colour; the address at which
`cairo_image_surface_create` places the surface it creates; and, for a drawing
on a surface whose source is that same surface placed with its origin at
`(ox, oy)`, the pixel that results at `(x, y)` (`self_source operator surface
ox oy x y`, the surface being as it was before the drawing). -/
structure cairo_library where
  blend : cairo_operator_t → Nat → Nat → Nat
  color : Int → Int → Int → Int → Nat
  allocation : Nat
  self_source : cairo_operator_t → cairo_surface_t → Int → Int → Int → Int → Nat

/-- Composition of a source pixel onto a destination pixel, inside the area
that is drawn: `CAIRO_OPERATOR_SOURCE` replaces the destination. -/
def cairo_compose (L : cairo_library) (op : cairo_operator_t) (src dst : Nat) : Nat :=
  if op = CAIRO_OPERATOR_SOURCE then src else L.blend op src dst

/-- The pixel a source has at `(x, y)`. -/
def source_pixel (L : cairo_library) : cairo_source → Int → Int → Nat
  | cairo_source.rgba r g b a, _, _ => L.color r g b a
  | cairo_source.surface surface ox oy, x, y => surface_pixel surface (x - ox) (y - oy)

/-- The winding number of a rectangle of a path around the pixel `(x, y)`. -/
def rectangle_winding (r : cairo_path_rectangle) (x y : Int) : Int :=
  if min r.x (r.x + r.width) ≤ x ∧ x < max r.x (r.x + r.width) ∧
      min r.y (r.y + r.height) ≤ y ∧ y < max r.y (r.y + r.height) then
    if (0 < r.width) = (0 < r.height) then 1 else -1
  else 0

/-- Tells whether the pixel `(x, y)` is inside a path, by the winding rule. -/
def inside_path (path : List cairo_path_rectangle) (x y : Int) : Bool :=
  decide ((path.map (fun r => rectangle_winding r x y)).sum ≠ 0)

/-- The call `cairo_image_surface_create(CAIRO_FORMAT_ARGB32, width, height)`:
a new surface of transparent pixels. -/
def cairo_image_surface_create (L : cairo_library) (width height : Int) : cairo_surface_t :=
  { address := L.allocation, width := width, height := height, data := fun _ _ => 0 }

/-- The state of the context that `cairo_create` returns. -/
def cairo_create : cairo_t :=
  { operator := CAIRO_OPERATOR_OVER, source := cairo_source.rgba 0 0 0 255, path := [] }

/-- The call `cairo_set_operator`. -/
def cairo_set_operator (cr : cairo_t) (op : cairo_operator_t) : cairo_t :=
  { cr with operator := op }

/-- The call `cairo_set_source_surface`. -/
def cairo_set_source_surface (cr : cairo_t) (surface : cairo_surface_t) (x y : Int) :
    cairo_t :=
  { cr with source := cairo_source.surface surface x y }

/-- The call `cairo_set_source_rgba`. -/
def cairo_set_source_rgba (cr : cairo_t) (r g b a : Int) : cairo_t :=
  { cr with source := cairo_source.rgba r g b a }

/-- The call `cairo_rectangle`. -/
def cairo_rectangle (cr : cairo_t) (x y width height : Int) : cairo_t :=
  { cr with path := cr.path ++ [{ x := x, y := y, width := width, height := height }] }

/-- The pixel that a drawing of the context leaves at `(x, y)` of its target,
where it draws: the pixel of the source composed onto the pixel of the target;
but when the source is the target itself (the surface at the same address), the
drawing reads the surface it writes, and the pixel is what cairo makes of
that. -/
def drawn_pixel (L : cairo_library) (cr : cairo_t) (target : cairo_surface_t) (x y : Int) :
    Nat :=
  match cr.source with
  | cairo_source.surface surface ox oy =>
    if surface.address = target.address then
      L.self_source cr.operator target ox oy x y
    else
      cairo_compose L cr.operator (source_pixel L cr.source x y) (target.data x y)
  | cairo_source.rgba _ _ _ _ =>
    cairo_compose L cr.operator (source_pixel L cr.source x y) (target.data x y)

/-- The call `cairo_paint` on a context whose target is `target`: every pixel of
the target is drawn. -/
def cairo_paint (L : cairo_library) (cr : cairo_t) (target : cairo_surface_t) :
    cairo_surface_t :=
  { target with data := fun x y => drawn_pixel L cr target x y }

/-- The pixels after `cairo_fill` on a context whose target is `target`: the
pixels inside the path are drawn. -/
def cairo_fill_target (L : cairo_library) (cr : cairo_t) (target : cairo_surface_t) :
    cairo_surface_t :=
  { target with
    data := fun x y =>
      if inside_path cr.path x y then drawn_pixel L cr target x y
      else target.data x y }

/-! ## The display of the encoder -/

/-- The part of `guacenc_buffer` the handlers use.  `cairo` is the context that
draws on `surface`. -/
structure guacenc_buffer where
  autosize : Bool
  width : Int
  height : Int
  surface : Option cairo_surface_t
  cairo : Option cairo_t

/-- The part of `guacenc_layer` the handlers use. -/
structure guacenc_layer where
  parent_index : Int
  x : Int
  y : Int
  z : Int
deriving DecidableEq, Repr

/-- The layers and the buffers of a display, each by its address. -/
structure guacenc_display where
  layers : Nat → guacenc_layer
  buffers : Nat → guacenc_buffer

/-- The functions of the encoder that the handlers call and that are defined
outside this development: the two lookups, which yield the address of a layer
or of a buffer (`none` for `NULL`), the translation of a composite mode into an
operator of cairo, and `guacenc_buffer_fit`.  A lookup that creates an object on
its first reference is seen as yielding an object that was there with its
initial contents. -/
structure guacenc_display_functions where
  guacenc_display_get_layer : guacenc_display → Int → Option Nat
  guacenc_display_get_related_buffer : guacenc_display → Int → Option Nat
  guacenc_display_cairo_operator : Int → cairo_operator_t
  guacenc_buffer_fit : guacenc_buffer → Int → Int → guacenc_buffer

/-- Assignment through a pointer to a layer. -/
def set_layer (display : guacenc_display) (layer : Nat) (value : guacenc_layer) :
    guacenc_display :=
  { display with layers := Function.update display.layers layer value }

/-- Assignment through a pointer to a buffer. -/
def set_buffer (display : guacenc_display) (buffer : Nat) (value : guacenc_buffer) :
    guacenc_display :=
  { display with buffers := Function.update display.buffers buffer value }

/-- The call `cairo_fill(buffer->cairo)`: the surface of the buffer is drawn on
and the path of the context is emptied. -/
def buffer_cairo_fill (L : cairo_library) (buffer : guacenc_buffer) (cairo : cairo_t) :
    guacenc_buffer :=
  { buffer with
    surface := buffer.surface.map (cairo_fill_target L cairo),
    cairo := some { cairo with path := [] } }

/-! ## Handlers of `instruction-*.cpp` -/

/-- The function `guacenc_handle_move`. -/
def guacenc_handle_move (F : guacenc_display_functions) (display : guacenc_display)
    (instr : GuacServerInstruction) : Int × guacenc_display :=
  let move := instr.getMove
  let layer_index := move.getLayer
  let parent_index := move.getParent
  let x := move.getX
  let y := move.getY
  let z := move.getZ
  match F.guacenc_display_get_layer display layer_index with
  | none => (1, display)
  | some layer =>
    match F.guacenc_display_get_layer display parent_index with
    | none => (1, display)
    | some _ =>
      (0, set_layer display layer
        { display.layers layer with parent_index := parent_index, x := x, y := y, z := z })

/-- The function `guacenc_handle_rect`. -/
def guacenc_handle_rect (F : guacenc_display_functions) (display : guacenc_display)
    (instr : GuacServerInstruction) : Int × guacenc_display :=
  let rect := instr.getRect
  let index := rect.getLayer
  let x := rect.getX
  let y := rect.getY
  let width := rect.getWidth
  let height := rect.getHeight
  match F.guacenc_display_get_related_buffer display index with
  | none => (1, display)
  | some buffer =>
    let display :=
      if (display.buffers buffer).autosize then
        set_buffer display buffer
          (F.guacenc_buffer_fit (display.buffers buffer) (UserHandlers.toInt32 (x + width))
            (UserHandlers.toInt32 (y + height)))
      else display
    let display :=
      match (display.buffers buffer).cairo with
      | some cairo =>
        set_buffer display buffer
          { display.buffers buffer with cairo := some (cairo_rectangle cairo x y width height) }
      | none => display
    (0, display)

/-- The function `guacenc_handle_copy`. -/
def guacenc_handle_copy (F : guacenc_display_functions) (L : cairo_library)
    (display : guacenc_display) (instr : GuacServerInstruction) : Int × guacenc_display :=
  let copy := instr.getCopy
  let sindex := copy.getSrcLayer
  let sx := copy.getSrcX
  let sy := copy.getSrcY
  let width := copy.getSrcWidth
  let height := copy.getSrcHeight
  let mask := copy.getMask
  let dindex := copy.getDstLayer
  let dx := copy.getDstX
  let dy := copy.getDstY
  match F.guacenc_display_get_related_buffer display sindex with
  | none => (1, display)
  | some src =>
    match F.guacenc_display_get_related_buffer display dindex with
    | none => (1, display)
    | some dst =>
      let display :=
        if (display.buffers dst).autosize then
          set_buffer display dst
            (F.guacenc_buffer_fit (display.buffers dst) (UserHandlers.toInt32 (dx + width))
              (UserHandlers.toInt32 (dy + height)))
        else display
      match (display.buffers src).surface, (display.buffers dst).cairo with
      | some src_surface, some dst_cairo =>
        let (surface, sx, sy) :=
          if src ≠ dst then
            (src_surface, sx, sy)
          else
            let surface := cairo_image_surface_create L width height
            let cairo := cairo_create
            let cairo := cairo_set_operator cairo CAIRO_OPERATOR_SOURCE
            let cairo :=
              cairo_set_source_surface cairo src_surface (UserHandlers.toInt32 (-sx))
                (UserHandlers.toInt32 (-sy))
            let surface := cairo_paint L cairo surface
            (surface, 0, 0)
        let dst_cairo := cairo_set_operator dst_cairo (F.guacenc_display_cairo_operator mask)
        let dst_cairo :=
          cairo_set_source_surface dst_cairo surface (UserHandlers.toInt32 (dx - sx))
            (UserHandlers.toInt32 (dy - sy))
        let dst_cairo := cairo_rectangle dst_cairo dx dy width height
        (0, set_buffer display dst (buffer_cairo_fill L (display.buffers dst) dst_cairo))
      | _, _ => (0, display)

/-- The function `guacenc_handle_cfill`. -/
def guacenc_handle_cfill (F : guacenc_display_functions) (L : cairo_library)
    (display : guacenc_display) (instr : GuacServerInstruction) : Int × guacenc_display :=
  let cfill := instr.getCfill
  let mask := cfill.getMask
  let index := cfill.getLayer
  let r := cfill.getR
  let g := cfill.getG
  let b := cfill.getB
  let a := cfill.getA
  match F.guacenc_display_get_related_buffer display index with
  | none => (1, display)
  | some buffer =>
    match (display.buffers buffer).cairo with
    | some cairo =>
      let cairo := cairo_set_operator cairo (F.guacenc_display_cairo_operator mask)
      let cairo := cairo_set_source_rgba cairo r g b a
      (0, set_buffer display buffer (buffer_cairo_fill L (display.buffers buffer) cairo))
    | none => (0, display)

/-! ## The growth of a buffer -/

/-- Modelled from the spec: the function `guacenc_buffer_fit`, which `buffer.c`
defines outside this development.  The spec has an autosize buffer grow "to at
least fit that rectangle (monotonic growth only)", to "the union of existing
content and the bounding box" of the draw: each dimension becomes the larger of
what it was and what is asked, the pixels that were there stay, the new ones
are transparent, and the buffer can be drawn on afterwards. -/
def guacenc_buffer_fit (buffer : guacenc_buffer) (x y : Int) : guacenc_buffer :=
  let new_width := max buffer.width x
  let new_height := max buffer.height y
  if new_width = buffer.width ∧ new_height = buffer.height then
    buffer
  else
    { autosize := buffer.autosize,
      width := new_width,
      height := new_height,
      surface := some
        { address :=
            match buffer.surface with
            | some surface => surface.address
            | none => 0,
          width := new_width, height := new_height,
          data := fun px py =>
            match buffer.surface with
            | some surface => surface_pixel surface px py
            | none => 0 },
      cairo := some
        (match buffer.cairo with
          | some cairo => cairo
          | none => cairo_create) }

/-! ## The copy through a staging surface, in the words of the spec -/

/-- A choice of what is left to cairo: an operator other than
`CAIRO_OPERATOR_SOURCE` adds the two pixels and the operator; a colour is
packed as the bytes a, r, g, b; a surface is created at the address 1000000; a
drawing of a surface onto itself proceeds pixel by pixel through the rows, so
that a pixel whose source pixel lies before it in its row, inside the surface,
is composed from what has been written there, here the pixel one more shift
back. -/
def example_cairo : cairo_library :=
  { blend := fun op src dst => src + dst + op,
    color := fun r g b a => a.toNat * 16777216 + r.toNat * 65536 + g.toNat * 256 + b.toNat,
    allocation := 1000000,
    self_source := fun op surface ox oy x y =>
      let source :=
        if 0 < ox ∧ oy = 0 ∧ 0 ≤ x - ox - ox then
          surface_pixel surface (x - ox - ox) (y - oy)
        else surface_pixel surface (x - ox) (y - oy)
      if op = CAIRO_OPERATOR_SOURCE then source else source + surface.data x y + op }

/-- A choice of the functions of the encoder: the display holds the layers 0
to 63, each at the address that is its index, with its buffer at the same
address, and the buffers -1 to -64 at the addresses 64 to 127; the composite
mode 12 is drawn with `CAIRO_OPERATOR_SOURCE` and every other value with
`CAIRO_OPERATOR_OVER`; buffers grow as `guacenc_buffer_fit` has it. -/
def example_functions : guacenc_display_functions :=
  { guacenc_display_get_layer := fun _ index =>
      if 0 ≤ index ∧ index < 64 then some index.toNat else none,
    guacenc_display_get_related_buffer := fun _ index =>
      if 0 ≤ index ∧ index < 64 then some index.toNat
      else if -64 ≤ index ∧ index < 0 then some (63 - index).toNat
      else none,
    guacenc_display_cairo_operator := fun mask =>
      if mask = 12 then CAIRO_OPERATOR_SOURCE else CAIRO_OPERATOR_OVER,
    guacenc_buffer_fit := guacenc_buffer_fit }

/-- A display: the parent of layer 2 is layer 1 and the parent of every other
layer is layer 0; the buffer of a layer is 64 by 48, not autosize, its pixel at
`(x, y)` being `x + 100 * y`; the other buffers are 10 by 10, autosize and
transparent; the surface of a buffer is at the address of the buffer; every
context is as `cairo_create` leaves it. -/
def example_display : guacenc_display :=
  { layers := fun address =>
      { parent_index := if address = 2 then 1 else 0, x := 0, y := 0, z := 0 },
    buffers := fun address =>
      if address < 64 then
        { autosize := false, width := 64, height := 48,
          surface := some
            { address := address, width := 64, height := 48,
              data := fun x y => (x + 100 * y).toNat },
          cairo := some cairo_create }
      else
        { autosize := true, width := 10, height := 10,
          surface := some
            { address := address, width := 10, height := 10, data := fun _ _ => 0 },
          cairo := some cairo_create } }

end Guacenc

namespace UserHandlers

/-! ## A sequence of `sync` instructions -/

/-- What the handling of one `sync` of a connection meets: the value that
`client->last_sent_timestamp` has by then, the value of
`guac_timestamp_current()`, and the instruction. -/
structure sync_step where
  last_sent_timestamp : Int
  current : Int
  instr : Reader

/-- The user after a sequence of `sync` instructions has been handled, each by
`__guac_handle_sync`, the server having moved `client->last_sent_timestamp` to
the value of the step before the instruction is handled. -/
def handle_sync_steps (H : handler_results) : guac_user → List sync_step → guac_user
  | user, [] => user
  | user, step :: rest =>
    handle_sync_steps H
      (__guac_handle_sync H step.current
        { user with client := { last_sent_timestamp := step.last_sent_timestamp } }
        step.instr).2
      rest

end UserHandlers

namespace UserHandlers

/-- Tells whether `client->last_sent_timestamp` never decreases along a
sequence of steps that starts when it is `last_sent`. -/
def last_sent_never_decreases : Int → List sync_step → Bool
  | _, [] => true
  | last_sent, step :: rest =>
    decide (last_sent ≤ step.last_sent_timestamp) &&
      last_sent_never_decreases step.last_sent_timestamp rest

/-- Four `sync` instructions of a connection: the acknowledgement of frame 1000,
the one of frame 1100, a late one of a frame 1050, and one of a frame 1300 that
was never sent. -/
def example_sync_steps : List sync_step :=
  [{ last_sent_timestamp := 1000, current := 1050, instr := sync_instruction 1000 },
    { last_sent_timestamp := 1100, current := 1170, instr := sync_instruction 1100 },
    { last_sent_timestamp := 1100, current := 1180, instr := sync_instruction 1050 },
    { last_sent_timestamp := 1200, current := 1190, instr := sync_instruction 1300 }]

end UserHandlers

namespace Protocol

/-- A memory that holds, from the address `args` on, the array of the pointers
to the strings of `strings`, followed by `NULL`. -/
def args_memory (args : Nat) (strings : List String) : Nat → Option (Option String) :=
  fun address =>
    if args ≤ address ∧ (address - args) % sizeof_pointer = 0 then
      if (address - args) / sizeof_pointer < strings.length then
        some (strings.get? ((address - args) / sizeof_pointer))
      else if (address - args) / sizeof_pointer = strings.length then some none
      else none
    else none

end Protocol

namespace RdpStream

/-! ## `rdp_stream.c`: the path of an upload

A `char` is its code: 0 is NUL, 47 is the slash, 92 is the backslash, 95 is the
underscore.  The string at `filename` is the list of the characters from the
pointer on; what lies beyond the list reads as NUL, as the terminator of the
string does.  The result is the list of the characters written through `path`,
the first at `path[0]`, the next at `path[1]`, and so on. -/

/-- The constant of `rdp_fs.h`, a header outside this development. -/
structure rdp_fs_constants where
  GUAC_RDP_FS_MAX_PATH : Int

/-- The value the header of the RDP support gives the constant. -/
def guac_rdp_fs_constants : rdp_fs_constants :=
  { GUAC_RDP_FS_MAX_PATH := 4096 }

/-- A small value of the constant, for concrete inputs. -/
def short_path_constants : rdp_fs_constants :=
  { GUAC_RDP_FS_MAX_PATH := 8 }

/-- The `for` loop of `__generate_upload_path` and the statement after it: `i`
is the counter, `filename` what the pointer `filename` has before it, `path`
what has been written; `none` when the loop has not ended within `fuel` tests
of its condition. -/
def __generate_upload_path_loop (K : rdp_fs_constants) :
    Nat → Int → List Nat → List Nat → Option (List Nat)
  | 0, _, _, _ => none
  | fuel + 1, i, filename, path =>
    if i < K.GUAC_RDP_FS_MAX_PATH then
      let c := filename.headD 0
      let filename := filename.tail
      if c = 0 then
        some (path ++ [0])
      else
        let c := if c = 47 ∨ c = 92 then 95 else c
        __generate_upload_path_loop K fuel (i + 1) filename (path ++ [c])
    else
      some (path ++ [0])

/-- The function `__generate_upload_path`: the characters written through
`path`.  The loop tests its condition at most `GUAC_RDP_FS_MAX_PATH` times. -/
def __generate_upload_path (K : rdp_fs_constants) (filename : List Nat) :
    Option (List Nat) :=
  __generate_upload_path_loop K (K.GUAC_RDP_FS_MAX_PATH.toNat + 1) 1 filename [92]

/-- The characters of a filename in the path, in the words of the description:
the characters up to the first NUL, at most `GUAC_RDP_FS_MAX_PATH - 1` of them,
every slash and every backslash replaced by an underscore. -/
def sanitized_filename (K : rdp_fs_constants) (filename : List Nat) : List Nat :=
  ((filename.takeWhile (fun c => decide (c ≠ 0))).take
    (K.GUAC_RDP_FS_MAX_PATH - 1).toNat).map (fun c => if c = 47 ∨ c = 92 then 95 else c)

/-- The length of the string at `filename`, as `strlen` gives it. -/
def strlen (filename : List Nat) : Nat :=
  (filename.takeWhile (fun c => decide (c ≠ 0))).length

end RdpStream

namespace Socket

open Guacamole

/-! ## `socket.c`: flushing, freeing, and the keep-alive thread -/

/-- The values of `GUAC_SOCKET_OPEN` and `GUAC_SOCKET_CLOSED` and the constant
`GUAC_SOCKET_KEEP_ALIVE_INTERVAL`, which headers outside this development
define. -/
structure socket_constants where
  GUAC_SOCKET_OPEN : Int
  GUAC_SOCKET_CLOSED : Int
  GUAC_SOCKET_KEEP_ALIVE_INTERVAL : Int

/-- The values the headers of libguac give these constants. -/
def libguac_socket_constants : socket_constants :=
  { GUAC_SOCKET_OPEN := 0, GUAC_SOCKET_CLOSED := 1, GUAC_SOCKET_KEEP_ALIVE_INTERVAL := 5000 }

/-- What the functions of `socket.c` do besides sending instructions, in the
order in which they do it: a call through `flush_handler` or `free_handler`, a
call of `guac_timestamp_msleep`, the store to `socket->state`, the call of
`pthread_join` on the keep-alive thread, and `free(socket)`. -/
inductive socket_call where
  | flush_handler (fn : Nat)
  | free_handler (fn : Nat)
  | guac_timestamp_msleep (duration : Int)
  | store_state (state : Int)
  | pthread_join
  | free
deriving DecidableEq, Repr

/-- The socket as `socket.c` uses it: the part the senders use, the state, the
time of the last write, the keep-alive flag, the two other function pointers,
and what has been done so far. -/
structure guac_socket extends Protocol.guac_socket where
  state : Int
  last_write_timestamp : Int
  __keep_alive_enabled : Int
  flush_handler : Option Nat
  free_handler : Option Nat
  calls : List socket_call

/-- The value the external code behind `flush_handler` returns, given the
socket as it is at the call. -/
abbrev flush_results := guac_socket → Int

/-- The function `guac_socket_flush`. -/
def guac_socket_flush (R : flush_results) (socket : guac_socket) : Int × guac_socket :=
  match socket.flush_handler with
  | some fn =>
    (R socket, { socket with calls := socket.calls ++ [socket_call.flush_handler fn] })
  | none => (0, socket)

/-- The function `guac_socket_free`: the socket when `free(socket)` has been
called. -/
def guac_socket_free (K : socket_constants) (R : flush_results) (socket : guac_socket) :
    guac_socket :=
  let socket := (guac_socket_flush R socket).2
  let socket :=
    match socket.free_handler with
    | some fn => { socket with calls := socket.calls ++ [socket_call.free_handler fn] }
    | none => socket
  let socket :=
    { socket with
      state := K.GUAC_SOCKET_CLOSED,
      calls := socket.calls ++ [socket_call.store_state K.GUAC_SOCKET_CLOSED] }
  let socket :=
    if socket.__keep_alive_enabled ≠ 0 then
      { socket with calls := socket.calls ++ [socket_call.pthread_join] }
    else socket
  { socket with calls := socket.calls ++ [socket_call.free] }

/-- What an iteration of the keep-alive loop finds: the state and the time of
the last write as the other threads have left them, and the value of
`guac_timestamp_current()`. -/
structure keep_alive_environment where
  state : Int
  last_write_timestamp : Int
  guac_timestamp_current : Int

/-- The socket as the keep-alive thread reads it at the start of an
iteration. -/
def keep_alive_reads (environment : keep_alive_environment) (socket : guac_socket) :
    guac_socket :=
  { socket with
    state := environment.state,
    last_write_timestamp := environment.last_write_timestamp }

/-- The call `guac_protocol_send_nop(socket)`, the sender of `protocol.cpp`. -/
def guac_protocol_send_nop (W : Protocol.write_results) (socket : guac_socket) :
    Int × guac_socket :=
  let sent := Protocol.guac_protocol_send_nop W socket.toguac_socket
  (sent.1, { socket with toguac_socket := sent.2 })

/-- The call `guac_timestamp_msleep(duration)`. -/
def guac_timestamp_msleep (duration : Int) (socket : guac_socket) : guac_socket :=
  { socket with calls := socket.calls ++ [socket_call.guac_timestamp_msleep duration] }

/-- The function `__guac_socket_keep_alive_thread`, run on the environments of
its successive iterations.  The result tells whether the thread has returned,
and gives the socket as it is then; the thread has not returned when the
environments are used up. -/
def __guac_socket_keep_alive_thread (K : socket_constants) (W : Protocol.write_results)
    (R : flush_results) : List keep_alive_environment → guac_socket → Bool × guac_socket
  | [], socket => (false, socket)
  | environment :: rest, socket =>
    let socket := keep_alive_reads environment socket
    if socket.state = K.GUAC_SOCKET_OPEN then
      let timestamp := environment.guac_timestamp_current
      if timestamp - socket.last_write_timestamp > K.GUAC_SOCKET_KEEP_ALIVE_INTERVAL then
        let sent := guac_protocol_send_nop W socket
        if sent.1 ≠ 0 then
          (true, sent.2)
        else
          let flushed := guac_socket_flush R sent.2
          if flushed.1 ≠ 0 then
            (true, flushed.2)
          else
            __guac_socket_keep_alive_thread K W R rest
              (guac_timestamp_msleep K.GUAC_SOCKET_KEEP_ALIVE_INTERVAL flushed.2)
      else
        __guac_socket_keep_alive_thread K W R rest
          (guac_timestamp_msleep K.GUAC_SOCKET_KEEP_ALIVE_INTERVAL socket)
    else
      (true, socket)

/-- A socket with every handler set, open, with the keep-alive thread
started, and nothing done yet. -/
def kept_alive_socket : guac_socket :=
  { write_handler := 100, lock_handler := some 200, unlock_handler := some 300, events := [],
    state := 0, last_write_timestamp := 1000, __keep_alive_enabled := 1,
    flush_handler := some 400, free_handler := some 500, calls := [] }

/-- Handlers that succeed: they return 0. -/
def write_succeeds : Protocol.write_results := fun _ _ => 0

/-- A flush handler that succeeds. -/
def flush_succeeds : flush_results := fun _ => 0

/-- A flush handler that fails. -/
def flush_fails : flush_results := fun _ => -1

/-- Three iterations: the last write is 6001 ms old, then 1 ms old, then the
socket is closed. -/
def example_environments : List keep_alive_environment :=
  [{ state := 0, last_write_timestamp := 1000, guac_timestamp_current := 7001 },
    { state := 0, last_write_timestamp := 12000, guac_timestamp_current := 12001 },
    { state := 1, last_write_timestamp := 12000, guac_timestamp_current := 17001 }]

end Socket

namespace Protocols

/-! ## The frame loops of `vnc.c` and `rdp.c`

The loop `do ... while (wait_result > 0)` of `guac_vnc_client_thread` and the
one of `guac_rdp_handle_connection` build a frame.  A loop is run on what its
successive iterations find; the result tells whether it has ended, and gives
`wait_result` and the calls made. -/

/-- The constants of `vnc.h`, a header outside this development. -/
structure vnc_constants where
  GUAC_VNC_FRAME_DURATION : Int
  GUAC_VNC_FRAME_TIMEOUT : Int

/-- The constants of `rdp.h` and the value `WAIT_FAILED`, which headers outside
this development define. -/
structure rdp_constants where
  GUAC_RDP_FRAME_DURATION : Int
  GUAC_RDP_FRAME_TIMEOUT : Int
  WAIT_FAILED : Int

/-- Values of the constants, for concrete inputs. -/
def example_vnc_constants : vnc_constants :=
  { GUAC_VNC_FRAME_DURATION := 40, GUAC_VNC_FRAME_TIMEOUT := 0 }

/-- Values of the constants, for concrete inputs. -/
def example_rdp_constants : rdp_constants :=
  { GUAC_RDP_FRAME_DURATION := 60, GUAC_RDP_FRAME_TIMEOUT := 10, WAIT_FAILED := 4294967295 }

/-- A call that a frame loop makes: an abort of the client, or a wait for a
message of the remote desktop server, with its timeout. -/
inductive frame_call where
  | guac_client_abort (message : String)
  | guac_rdp_client_abort
  | WaitForMessage (timeout : Int)
  | WaitForMultipleObjects (timeout : Int)
deriving DecidableEq, Repr

/-- How far a frame loop has come: it is still running (the iterations given
are used up), it has ended, or the function has returned from inside it. -/
inductive frame_loop_status where
  | running
  | ended
  | returned (value : Int)
deriving DecidableEq, Repr

/-- The result of a frame loop. -/
structure frame_loop_state where
  status : frame_loop_status
  wait_result : Int
  calls : List frame_call
deriving DecidableEq, Repr

/-- What an iteration of the loop of `guac_vnc_client_thread` finds: the result
of `HandleRFBServerMessage`, the value of `guac_timestamp_current()`, and, for
the wait, `rfb_client->buffered` and the result of `WaitForMessage`. -/
structure vnc_iteration where
  HandleRFBServerMessage : Bool
  guac_timestamp_current : Int
  buffered : Int
  WaitForMessage : Int
deriving DecidableEq, Repr

/-- The function `guac_vnc_wait_for_messages`. -/
def guac_vnc_wait_for_messages (buffered : Int) (WaitForMessage : Int) (timeout : Int)
    (calls : List frame_call) : Int × List frame_call :=
  if buffered ≠ 0 then
    (1, calls)
  else
    (WaitForMessage, calls ++ [frame_call.WaitForMessage timeout])

/-- The loop `do ... while (wait_result > 0)` of `guac_vnc_client_thread`. -/
def guac_vnc_client_thread_frame_loop (K : vnc_constants)
    (processing_lag frame_start last_frame_end : Int) :
    List vnc_iteration → Int → List frame_call → frame_loop_state
  | [], wait_result, calls =>
    { status := frame_loop_status.running, wait_result := wait_result, calls := calls }
  | iteration :: rest, wait_result, calls =>
    if iteration.HandleRFBServerMessage = false then
      { status := frame_loop_status.ended, wait_result := wait_result,
        calls := calls ++
          [frame_call.guac_client_abort "Error handling message from VNC server."] }
    else
      let frame_end := iteration.guac_timestamp_current
      let frame_remaining :=
        UserHandlers.toInt32 (frame_start + K.GUAC_VNC_FRAME_DURATION - frame_end)
      let time_elapsed := UserHandlers.toInt32 (frame_end - last_frame_end)
      let required_wait := UserHandlers.toInt32 (processing_lag - time_elapsed)
      if required_wait > K.GUAC_VNC_FRAME_TIMEOUT then
        let waited :=
          guac_vnc_wait_for_messages iteration.buffered iteration.WaitForMessage
            (UserHandlers.toInt32 (required_wait * 1000)) calls
        if waited.1 > 0 then
          guac_vnc_client_thread_frame_loop K processing_lag frame_start last_frame_end rest
            waited.1 waited.2
        else
          { status := frame_loop_status.ended, wait_result := waited.1, calls := waited.2 }
      else if frame_remaining > 0 then
        let waited :=
          guac_vnc_wait_for_messages iteration.buffered iteration.WaitForMessage
            (UserHandlers.toInt32 (K.GUAC_VNC_FRAME_TIMEOUT * 1000)) calls
        if waited.1 > 0 then
          guac_vnc_client_thread_frame_loop K processing_lag frame_start last_frame_end rest
            waited.1 waited.2
        else
          { status := frame_loop_status.ended, wait_result := waited.1, calls := waited.2 }
      else
        { status := frame_loop_status.ended, wait_result := wait_result, calls := calls }

/-- What an iteration of the loop of `guac_rdp_handle_connection` finds: the
result of `freerdp_shall_disconnect`, the value of `guac_timestamp_current()`,
and, for the wait, the results of `freerdp_get_event_handles`, of
`WaitForMultipleObjects` and of `freerdp_check_event_handles`. -/
structure rdp_iteration where
  freerdp_shall_disconnect : Bool
  guac_timestamp_current : Int
  freerdp_get_event_handles : Int
  WaitForMultipleObjects : Int
  freerdp_check_event_handles : Bool
deriving DecidableEq, Repr

/-- The function `rdp_guac_client_wait_for_messages`. -/
def rdp_guac_client_wait_for_messages (K : rdp_constants) (iteration : rdp_iteration)
    (timeout_msecs : Int) (calls : List frame_call) : Int × List frame_call :=
  let nCount := iteration.freerdp_get_event_handles
  if nCount = 0 then
    (-1, calls ++ [frame_call.guac_client_abort "freerdp_get_event_handles failed"])
  else
    let calls := calls ++ [frame_call.WaitForMultipleObjects timeout_msecs]
    let status := iteration.WaitForMultipleObjects
    if status = K.WAIT_FAILED then
      (-1, calls ++ [frame_call.guac_client_abort "%s: WaitForMultipleObjects failed with %u"])
    else if iteration.freerdp_check_event_handles = false then
      (-1, calls ++ [frame_call.guac_client_abort "Failed to check FreeRDP file descriptor"])
    else
      (1, calls)

/-- The loop `do ... while (wait_result > 0)` of `guac_rdp_handle_connection`. -/
def guac_rdp_handle_connection_frame_loop (K : rdp_constants)
    (processing_lag frame_start last_frame_end : Int) :
    List rdp_iteration → Int → List frame_call → frame_loop_state
  | [], wait_result, calls =>
    { status := frame_loop_status.running, wait_result := wait_result, calls := calls }
  | iteration :: rest, wait_result, calls =>
    if iteration.freerdp_shall_disconnect then
      { status := frame_loop_status.returned 1, wait_result := wait_result,
        calls := calls ++ [frame_call.guac_rdp_client_abort] }
    else
      let frame_end := iteration.guac_timestamp_current
      let frame_remaining :=
        UserHandlers.toInt32 (frame_start + K.GUAC_RDP_FRAME_DURATION - frame_end)
      let time_elapsed := UserHandlers.toInt32 (frame_end - last_frame_end)
      let required_wait := UserHandlers.toInt32 (processing_lag - time_elapsed)
      if required_wait > K.GUAC_RDP_FRAME_TIMEOUT then
        let waited := rdp_guac_client_wait_for_messages K iteration required_wait calls
        if waited.1 > 0 then
          guac_rdp_handle_connection_frame_loop K processing_lag frame_start last_frame_end
            rest waited.1 waited.2
        else
          { status := frame_loop_status.ended, wait_result := waited.1, calls := waited.2 }
      else if frame_remaining > 0 then
        let waited :=
          rdp_guac_client_wait_for_messages K iteration K.GUAC_RDP_FRAME_TIMEOUT calls
        if waited.1 > 0 then
          guac_rdp_handle_connection_frame_loop K processing_lag frame_start last_frame_end
            rest waited.1 waited.2
        else
          { status := frame_loop_status.ended, wait_result := waited.1, calls := waited.2 }
      else
        { status := frame_loop_status.ended, wait_result := wait_result, calls := calls }

end Protocols
namespace Protocols

/-- An iteration of the VNC loop 100 ms after the start of the frame: the
message is handled, nothing is buffered, and a wait would find a message. -/
def late_vnc_iteration : vnc_iteration :=
  { HandleRFBServerMessage := true, guac_timestamp_current := 100100, buffered := 0,
    WaitForMessage := 1 }

/-- An iteration of the RDP loop 100 ms after the start of the frame: the
server does not disconnect, and a wait would succeed. -/
def late_rdp_iteration : rdp_iteration :=
  { freerdp_shall_disconnect := false, guac_timestamp_current := 100100,
    freerdp_get_event_handles := 2, WaitForMultipleObjects := 0,
    freerdp_check_event_handles := true }

end Protocols

namespace Guacamole

/-! ## More payloads read by the encoder

The schema `Guacamole.capnp` is outside this development.  A field of a payload
is taken to hold the value the builder was given for it: the integer fields
hold the values of an `int`. -/

/-- Payload of `cursor`. -/
structure CursorReader where
  getX : Int
  getY : Int
  getSrcLayer : Int
  getSrcX : Int
  getSrcY : Int
  getSrcWidth : Int
  getSrcHeight : Int
deriving DecidableEq, Repr

/-- Payload of `size`. -/
structure SizeReader where
  getLayer : Int
  getWidth : Int
  getHeight : Int
deriving DecidableEq, Repr

/-- Payload of `img`. -/
structure ImgReader where
  getStream : Int
  getMode : Int
  getLayer : Int
  getMimetype : String
  getX : Int
  getY : Int
deriving DecidableEq, Repr

/-- Payload of `transfer`. -/
structure TransferReader where
  getSrcLayer : Int
  getSrcX : Int
  getSrcY : Int
  getSrcWidth : Int
  getSrcHeight : Int
  getFunction : Int
  getDstLayer : Int
  getDstX : Int
  getDstY : Int
deriving DecidableEq, Repr

/-- The accessor `getCursor()`. -/
def GuacServerInstruction.getCursor : GuacServerInstruction → CursorReader
  | GuacServerInstruction.initCursor x y srcLayer srcX srcY srcWidth srcHeight =>
    { getX := x, getY := y, getSrcLayer := srcLayer, getSrcX := srcX, getSrcY := srcY,
      getSrcWidth := srcWidth, getSrcHeight := srcHeight }
  | _ =>
    { getX := 0, getY := 0, getSrcLayer := 0, getSrcX := 0, getSrcY := 0, getSrcWidth := 0,
      getSrcHeight := 0 }

/-- The accessor `getSize()`. -/
def GuacServerInstruction.getSize : GuacServerInstruction → SizeReader
  | GuacServerInstruction.initSize layer width height =>
    { getLayer := layer, getWidth := width, getHeight := height }
  | _ => { getLayer := 0, getWidth := 0, getHeight := 0 }

/-- The accessor `getImg()`. -/
def GuacServerInstruction.getImg : GuacServerInstruction → ImgReader
  | GuacServerInstruction.initImg stream mode layer mimetype x y =>
    { getStream := stream, getMode := mode, getLayer := layer, getMimetype := mimetype,
      getX := x, getY := y }
  | _ =>
    { getStream := 0, getMode := 0, getLayer := 0, getMimetype := "", getX := 0, getY := 0 }

/-- The accessor `getTransfer()`. -/
def GuacServerInstruction.getTransfer : GuacServerInstruction → TransferReader
  | GuacServerInstruction.initTransfer srcLayer srcX srcY srcWidth srcHeight function
      dstLayer dstX dstY =>
    { getSrcLayer := srcLayer, getSrcX := srcX, getSrcY := srcY, getSrcWidth := srcWidth,
      getSrcHeight := srcHeight, getFunction := function, getDstLayer := dstLayer,
      getDstX := dstX, getDstY := dstY }
  | _ =>
    { getSrcLayer := 0, getSrcX := 0, getSrcY := 0, getSrcWidth := 0, getSrcHeight := 0,
      getFunction := 0, getDstLayer := 0, getDstX := 0, getDstY := 0 }

end Guacamole

namespace Guacenc

open Guacamole

/-! ## The handlers of `cursor`, `img`, `size` and `transfer` -/

/-- The object `display->cursor` points to: the hotspot and the buffer of the
cursor, which is a buffer of its own. -/
structure guacenc_cursor where
  hotspot_x : Int
  hotspot_y : Int
  buffer : guacenc_buffer

/-- More functions of the encoder that the handlers call and that are defined
outside this development: `guacenc_buffer_resize`, which yields a value and the
buffer resized, and `guacenc_display_create_image_stream`. -/
structure guacenc_stream_functions where
  guacenc_buffer_resize : guacenc_buffer → Int → Int → Int × guacenc_buffer
  guacenc_display_create_image_stream :
    guacenc_display → Int → Int → Int → String → Int → Int → Int × guacenc_display

/-- The function `guacenc_handle_cursor`; `cursor` is the object
`display->cursor` points to, the only one the handler writes. -/
def guacenc_handle_cursor (F : guacenc_display_functions) (E : guacenc_stream_functions)
    (L : cairo_library) (display : guacenc_display) (cursor : guacenc_cursor)
    (instr : GuacServerInstruction) : Int × guacenc_cursor :=
  let cursor_instr := instr.getCursor
  let hotspot_x := cursor_instr.getX
  let hotspot_y := cursor_instr.getY
  let sindex := cursor_instr.getSrcLayer
  let sx := cursor_instr.getSrcX
  let sy := cursor_instr.getSrcY
  let width := cursor_instr.getSrcWidth
  let height := cursor_instr.getSrcHeight
  match F.guacenc_display_get_related_buffer display sindex with
  | none => (1, cursor)
  | some src =>
    let cursor := { cursor with hotspot_x := hotspot_x, hotspot_y := hotspot_y }
    let cursor :=
      { cursor with buffer := (E.guacenc_buffer_resize cursor.buffer width height).2 }
    let dst := cursor.buffer
    match (display.buffers src).surface, dst.cairo with
    | some src_surface, some dst_cairo =>
      let dst_cairo := cairo_set_operator dst_cairo CAIRO_OPERATOR_SOURCE
      let dst_cairo := cairo_set_source_surface dst_cairo src_surface sx sy
      (0, { cursor with
        buffer :=
          { dst with
            surface := dst.surface.map (cairo_paint L dst_cairo),
            cairo := some dst_cairo } })
    | _, _ => (0, cursor)

/-- The function `guacenc_handle_img`. -/
def guacenc_handle_img (E : guacenc_stream_functions) (display : guacenc_display)
    (instr : GuacServerInstruction) : Int × guacenc_display :=
  let img := instr.getImg
  let stream_index := img.getStream
  let mask := img.getMode
  let layer_index := img.getLayer
  let mimetype := img.getMimetype
  let x := img.getX
  let y := img.getY
  E.guacenc_display_create_image_stream display stream_index mask layer_index mimetype x y

/-- The function `guacenc_handle_size`. -/
def guacenc_handle_size (F : guacenc_display_functions) (E : guacenc_stream_functions)
    (display : guacenc_display) (instr : GuacServerInstruction) : Int × guacenc_display :=
  let size := instr.getSize
  let index := size.getLayer
  let width := size.getWidth
  let height := size.getHeight
  match F.guacenc_display_get_related_buffer display index with
  | none => (1, display)
  | some buffer =>
    let resized := E.guacenc_buffer_resize (display.buffers buffer) width height
    (resized.1, set_buffer display buffer resized.2)

/-- A line handed to `guacenc_log`: the level, the format, and the arguments
of the format. -/
structure guacenc_log_line where
  level : guac_client_log_level
  format : String
  arguments : List Int
deriving DecidableEq, Repr

/-- The function `guacenc_handle_transfer`: the value returned and the line it
hands to `guacenc_log`; the display is not touched. -/
def guacenc_handle_transfer (_display : guacenc_display) (instr : GuacServerInstruction) :
    Int × List guacenc_log_line :=
  let transfer := instr.getTransfer
  let src_index := transfer.getSrcLayer
  let src_x := transfer.getSrcX
  let src_y := transfer.getSrcY
  let src_w := transfer.getSrcWidth
  let src_h := transfer.getSrcHeight
  let function := transfer.getFunction
  let dst_index := transfer.getDstLayer
  let dst_x := transfer.getDstX
  let dst_y := transfer.getDstY
  (0,
    [{ level := guac_client_log_level.GUAC_LOG_DEBUG,
       format := "transform: src_layer=%i (%i, %i) %ix%i function=0x%X dst_layer=%i (%i, %i)",
       arguments := [src_index, src_x, src_y, src_w, src_h, function, dst_index, dst_x,
         dst_y] }])

/-- A choice of the two functions: a resize sets the size of the buffer and
returns 0; no image stream is created, and 0 is returned. -/
def example_stream_functions : guacenc_stream_functions :=
  { guacenc_buffer_resize := fun buffer width height =>
      (0, { buffer with width := width, height := height }),
    guacenc_display_create_image_stream := fun display _ _ _ _ _ _ => (0, display) }

end Guacenc

/-! # Theorems -/

namespace UserHandlers

/-! ## Machine integers -/

theorem toInt32_of_fits (x : Int) (h : fitsInt32 x) : toInt32 x = x := by
  unfold fitsInt32 at h
  unfold toInt32
  omega

/-! ## `__guac_handle_sync`: the three timing fields after the call -/

theorem handle_sync_processing_lag (H : handler_results) (current : Int) (user : guac_user)
    (instr : Reader) :
    (__guac_handle_sync H current user instr).2.processing_lag =
      if instr.getSync > user.client.last_sent_timestamp then user.processing_lag
      else if instr.getSync ≥ user.last_received_timestamp then
        if user.last_frame_duration ≠ 0 then
          if toInt32 (toInt32 (current - instr.getSync) - user.last_frame_duration) < 0 then 0
          else toInt32 (toInt32 (current - instr.getSync) - user.last_frame_duration)
        else user.processing_lag
      else user.processing_lag := by
  unfold __guac_handle_sync invoke
  dsimp only
  split_ifs <;> (cases user.sync_handler) <;> rfl

theorem handle_sync_last_frame_duration (H : handler_results) (current : Int)
    (user : guac_user) (instr : Reader) :
    (__guac_handle_sync H current user instr).2.last_frame_duration =
      if instr.getSync > user.client.last_sent_timestamp then user.last_frame_duration
      else if instr.getSync ≥ user.last_received_timestamp then
        toInt32 (toInt32 (current - instr.getSync) -
          (__guac_handle_sync H current user instr).2.processing_lag)
      else user.last_frame_duration := by
  rw [handle_sync_processing_lag]
  unfold __guac_handle_sync invoke
  dsimp only
  split_ifs <;> (cases user.sync_handler) <;> rfl

theorem handle_sync_last_received_timestamp (H : handler_results) (current : Int)
    (user : guac_user) (instr : Reader) :
    (__guac_handle_sync H current user instr).2.last_received_timestamp =
      if instr.getSync > user.client.last_sent_timestamp then user.last_received_timestamp
      else if instr.getSync ≥ user.last_received_timestamp then instr.getSync
      else user.last_received_timestamp := by
  unfold __guac_handle_sync invoke
  dsimp only
  split_ifs <;> (cases user.sync_handler) <;> rfl

/-! ## C1 -/

/-- C1: whatever the user state and the server time, a `sync` whose timestamp is
greater than `client.last_sent_timestamp` makes `__guac_handle_sync` return -1,
the connection-fatal result. -/
theorem C1_sync_from_future_is_fatal (H : handler_results) (current : Int) (user : guac_user)
    (instr : Reader) (h : instr.getSync > user.client.last_sent_timestamp) :
    (__guac_handle_sync H current user instr).1 = -1 := by
  unfold __guac_handle_sync
  simp [h]

theorem C1_sync_from_future_is_fatal_witness :
    (sync_instruction 1001).getSync > (idle_user 1000 900).client.last_sent_timestamp ∧
      (__guac_handle_sync handlers_return_zero 1050 (idle_user 1000 900)
        (sync_instruction 1001)).1 = -1 :=
  ⟨by decide, C1_sync_from_future_is_fatal _ _ _ _ (by decide)⟩

/-! ## C2 -/

/-- C2 as stated does not hold where `now - t` does not fit the `int`
variable `frame_duration`: a user without baseline receives the sync of the
last timestamp sent 2147483648 ms after it; the sync is accepted, and
`last_frame_duration` becomes -2147483648, whereas `now - t` minus the
resulting `processing_lag` is 2147483648. -/
theorem C2_counterexample_frame_duration_truncated :
    (sync_instruction 1700000000000).getSync ≤
        (idle_user 1700000000000 1700000000000).client.last_sent_timestamp ∧
      (sync_instruction 1700000000000).getSync ≥
        (idle_user 1700000000000 1700000000000).last_received_timestamp ∧
      (__guac_handle_sync handlers_return_zero 1702147483648
        (idle_user 1700000000000 1700000000000)
        (sync_instruction 1700000000000)).2.last_frame_duration = -2147483648 ∧
      1702147483648 - (sync_instruction 1700000000000).getSync -
        (__guac_handle_sync handlers_return_zero 1702147483648
          (idle_user 1700000000000 1700000000000)
          (sync_instruction 1700000000000)).2.processing_lag = 2147483648 ∧
      (__guac_handle_sync handlers_return_zero 1702147483648
        (idle_user 1700000000000 1700000000000)
        (sync_instruction 1700000000000)).2.last_frame_duration ≠
        1702147483648 - (sync_instruction 1700000000000).getSync -
          (__guac_handle_sync handlers_return_zero 1702147483648
            (idle_user 1700000000000 1700000000000)
            (sync_instruction 1700000000000)).2.processing_lag := by
  decide

/-- C2 (amended): for an accepted sync (`t ≤ last_sent_timestamp` and
`t ≥ last_received_timestamp`) handled at server time `current`, provided
`current - t`, the difference with the previous `last_frame_duration` (when
that is non-zero) and the difference with the resulting `processing_lag` are
representable in an `int`: `processing_lag` becomes
`max 0 (frame_duration - previous last_frame_duration)` if the previous
`last_frame_duration` is non-zero and keeps its value otherwise;
`last_frame_duration` becomes `frame_duration` minus the resulting
`processing_lag`; `last_received_timestamp` becomes `t`. -/
theorem C2_accepted_sync_updates_lag (H : handler_results) (current : Int) (user : guac_user)
    (instr : Reader)
    (hsent : instr.getSync ≤ user.client.last_sent_timestamp)
    (hrecv : instr.getSync ≥ user.last_received_timestamp)
    (hfd : fitsInt32 (current - instr.getSync))
    (hlag : user.last_frame_duration ≠ 0 →
      fitsInt32 (current - instr.getSync - user.last_frame_duration))
    (hbase : fitsInt32 (current - instr.getSync -
      (if user.last_frame_duration ≠ 0
        then max 0 (current - instr.getSync - user.last_frame_duration)
        else user.processing_lag))) :
    (__guac_handle_sync H current user instr).2.processing_lag =
        (if user.last_frame_duration ≠ 0
          then max 0 (current - instr.getSync - user.last_frame_duration)
          else user.processing_lag) ∧
      (__guac_handle_sync H current user instr).2.last_frame_duration =
        current - instr.getSync - (__guac_handle_sync H current user instr).2.processing_lag ∧
      (__guac_handle_sync H current user instr).2.last_received_timestamp = instr.getSync := by
  have hns : ¬ instr.getSync > user.client.last_sent_timestamp := by omega
  have hlagv : (__guac_handle_sync H current user instr).2.processing_lag =
        (if user.last_frame_duration ≠ 0
          then max 0 (current - instr.getSync - user.last_frame_duration)
          else user.processing_lag) := by
    rw [handle_sync_processing_lag, if_neg hns, if_pos hrecv, toInt32_of_fits _ hfd]
    by_cases hz : user.last_frame_duration = 0
    · simp [hz]
    · rw [if_pos hz, if_pos hz, toInt32_of_fits _ (hlag hz)]
      split_ifs <;> omega
  refine ⟨hlagv, ?_, ?_⟩
  · rw [handle_sync_last_frame_duration, if_neg hns, if_pos hrecv, toInt32_of_fits _ hfd,
      hlagv, toInt32_of_fits _ hbase]
  · rw [handle_sync_last_received_timestamp, if_neg hns, if_pos hrecv]


theorem C2_accepted_sync_updates_lag_witness :
    (sync_instruction 1100).getSync ≤ (measured_user 1100 1000 50 0).client.last_sent_timestamp ∧
      (sync_instruction 1100).getSync ≥ (measured_user 1100 1000 50 0).last_received_timestamp ∧
      (__guac_handle_sync handlers_return_zero 1170 (measured_user 1100 1000 50 0)
        (sync_instruction 1100)).2.processing_lag = 20 ∧
      (__guac_handle_sync handlers_return_zero 1170 (measured_user 1100 1000 50 0)
        (sync_instruction 1100)).2.last_frame_duration = 50 ∧
      (__guac_handle_sync handlers_return_zero 1170 (measured_user 1100 1000 50 0)
        (sync_instruction 1100)).2.last_received_timestamp = 1100 := by
  have h := C2_accepted_sync_updates_lag handlers_return_zero 1170 (measured_user 1100 1000 50 0)
    (sync_instruction 1100) (by decide) (by decide) (by decide) (by decide) (by decide)
  refine ⟨by decide, by decide, h.1.trans (by decide), ?_, h.2.2⟩
  rw [h.2.1, h.1]
  decide

/-! ## C3 -/

/-- C3 as stated does not hold, in two ways.  With `last_sent` still 1000,
the second sync, `sync(1100)`, is from the future: it is rejected with -1 and
`processing_lag` stays 0 instead of becoming 20.  And a user with
`processing_lag = 0` and `last_frame_duration = 0` whose
`last_received_timestamp` is above 1000 ignores `sync(1000)`:
`last_frame_duration` stays 0 instead of becoming 50. -/
theorem C3_counterexample_second_sync_rejected :
    ((__guac_handle_sync handlers_return_zero 1170
        (__guac_handle_sync handlers_return_zero 1050 (idle_user 1000 900)
          (sync_instruction 1000)).2
        (sync_instruction 1100)).1 = -1 ∧
      (__guac_handle_sync handlers_return_zero 1170
        (__guac_handle_sync handlers_return_zero 1050 (idle_user 1000 900)
          (sync_instruction 1000)).2
        (sync_instruction 1100)).2.processing_lag = 0 ∧
      (__guac_handle_sync handlers_return_zero 1170
        (__guac_handle_sync handlers_return_zero 1050 (idle_user 1000 900)
          (sync_instruction 1000)).2
        (sync_instruction 1100)).2.processing_lag ≠ 20) ∧
      ((idle_user 1000 1040).processing_lag = 0 ∧
        (idle_user 1000 1040).last_frame_duration = 0 ∧
        (__guac_handle_sync handlers_return_zero 1050 (idle_user 1000 1040)
          (sync_instruction 1000)).2.last_frame_duration = 0 ∧
        (__guac_handle_sync handlers_return_zero 1050 (idle_user 1000 1040)
          (sync_instruction 1000)).2.last_frame_duration ≠ 50) := by
  decide

/-- C3 (amended): a user with `processing_lag = 0`, `last_frame_duration = 0` and
`last_received_timestamp ≤ 1000`, `last_sent` being 1000, handles `sync(1000)`
at server time 1050: `processing_lag` stays 0 and `last_frame_duration` becomes
50.  Once `last_sent` has moved to a value of at least 1100, handling
`sync(1100)` at server time 1170 sets `processing_lag` to 20 and
`last_frame_duration` to 50. -/
theorem C3_lag_example (H : handler_results) (user : guac_user) (instr1 instr2 : Reader)
    (last_sent2 : Int)
    (hlag : user.processing_lag = 0) (hbase : user.last_frame_duration = 0)
    (hrecv : user.last_received_timestamp ≤ 1000)
    (hsent : user.client.last_sent_timestamp = 1000)
    (h1 : instr1.getSync = 1000) (h2 : instr2.getSync = 1100)
    (hsent2 : 1100 ≤ last_sent2) :
    (__guac_handle_sync H 1050 user instr1).2.processing_lag = 0 ∧
      (__guac_handle_sync H 1050 user instr1).2.last_frame_duration = 50 ∧
      (__guac_handle_sync H 1170
        { (__guac_handle_sync H 1050 user instr1).2 with
          client := { last_sent_timestamp := last_sent2 } } instr2).2.processing_lag = 20 ∧
      (__guac_handle_sync H 1170
        { (__guac_handle_sync H 1050 user instr1).2 with
          client := { last_sent_timestamp := last_sent2 } } instr2).2.last_frame_duration
        = 50 := by
  have e1 : (__guac_handle_sync H 1050 user instr1).2.processing_lag = 0 := by
    rw [handle_sync_processing_lag, h1, hsent, hbase, hlag]
    simp
  have e2 : (__guac_handle_sync H 1050 user instr1).2.last_frame_duration = 50 := by
    rw [handle_sync_last_frame_duration, e1, h1, hsent, if_neg (by decide), if_pos (by omega)]
    decide
  have e3 : (__guac_handle_sync H 1050 user instr1).2.last_received_timestamp = 1000 := by
    rw [handle_sync_last_received_timestamp, h1, hsent, if_neg (by decide), if_pos (by omega)]
  have hns : ¬ (1100 : Int) > last_sent2 := by omega
  have e4 : (__guac_handle_sync H 1170
        { (__guac_handle_sync H 1050 user instr1).2 with
          client := { last_sent_timestamp := last_sent2 } } instr2).2.processing_lag = 20 := by
    rw [handle_sync_processing_lag, h2]
    dsimp only
    rw [e2, e3, if_neg hns, if_pos (by decide), if_pos (by decide)]
    decide
  refine ⟨e1, e2, e4, ?_⟩
  rw [handle_sync_last_frame_duration, e4, h2]
  dsimp only
  rw [e3, if_neg hns, if_pos (by decide)]
  decide

theorem C3_lag_example_witness :
    (__guac_handle_sync handlers_return_zero 1050 (idle_user 1000 900)
        (sync_instruction 1000)).2.processing_lag = 0 ∧
      (__guac_handle_sync handlers_return_zero 1050 (idle_user 1000 900)
        (sync_instruction 1000)).2.last_frame_duration = 50 ∧
      (__guac_handle_sync handlers_return_zero 1170
        { (__guac_handle_sync handlers_return_zero 1050 (idle_user 1000 900)
            (sync_instruction 1000)).2 with
          client := { last_sent_timestamp := 1100 } }
        (sync_instruction 1100)).2.processing_lag = 20 ∧
      (__guac_handle_sync handlers_return_zero 1170
        { (__guac_handle_sync handlers_return_zero 1050 (idle_user 1000 900)
            (sync_instruction 1000)).2 with
          client := { last_sent_timestamp := 1100 } }
        (sync_instruction 1100)).2.last_frame_duration = 50 :=
  C3_lag_example handlers_return_zero (idle_user 1000 900) (sync_instruction 1000)
    (sync_instruction 1100) 1100 rfl rfl (by decide) rfl rfl rfl (by decide)

/-! ## C4 -/

/-- C4: if `processing_lag` is not negative before `__guac_handle_sync` handles
a sync, whatever its timestamp and the server time, it is not negative after. -/
theorem C4_processing_lag_stays_nonnegative (H : handler_results) (current : Int)
    (user : guac_user) (instr : Reader) (h : 0 ≤ user.processing_lag) :
    0 ≤ (__guac_handle_sync H current user instr).2.processing_lag := by
  rw [handle_sync_processing_lag]
  split_ifs <;> omega

theorem C4_processing_lag_stays_nonnegative_witness :
    0 ≤ (measured_user 1100 1000 50 7).processing_lag ∧
      0 ≤ (__guac_handle_sync handlers_return_zero 1120 (measured_user 1100 1000 50 7)
        (sync_instruction 1100)).2.processing_lag :=
  ⟨by decide, C4_processing_lag_stays_nonnegative _ _ _ _ (by decide)⟩

/-! ## C5 -/

/-- C5: a sync whose timestamp `t` satisfies `t ≤ last_sent_timestamp` and
`t < last_received_timestamp` leaves `last_received_timestamp`,
`last_frame_duration` and `processing_lag` as they were. -/
theorem C5_stale_sync_leaves_timing_unchanged (H : handler_results) (current : Int)
    (user : guac_user) (instr : Reader)
    (hsent : instr.getSync ≤ user.client.last_sent_timestamp)
    (hold : instr.getSync < user.last_received_timestamp) :
    (__guac_handle_sync H current user instr).2.last_received_timestamp =
        user.last_received_timestamp ∧
      (__guac_handle_sync H current user instr).2.last_frame_duration =
        user.last_frame_duration ∧
      (__guac_handle_sync H current user instr).2.processing_lag = user.processing_lag := by
  have hns : ¬ instr.getSync > user.client.last_sent_timestamp := by omega
  have hnr : ¬ instr.getSync ≥ user.last_received_timestamp := by omega
  refine ⟨?_, ?_, ?_⟩
  · rw [handle_sync_last_received_timestamp, if_neg hns, if_neg hnr]
  · rw [handle_sync_last_frame_duration, if_neg hns, if_neg hnr]
  · rw [handle_sync_processing_lag, if_neg hns, if_neg hnr]

theorem C5_stale_sync_leaves_timing_unchanged_witness :
    (sync_instruction 900).getSync ≤ (measured_user 1100 1000 50 7).client.last_sent_timestamp ∧
      (sync_instruction 900).getSync < (measured_user 1100 1000 50 7).last_received_timestamp ∧
      (__guac_handle_sync handlers_return_zero 1120 (measured_user 1100 1000 50 7)
        (sync_instruction 900)).2.last_received_timestamp = 1000 ∧
      (__guac_handle_sync handlers_return_zero 1120 (measured_user 1100 1000 50 7)
        (sync_instruction 900)).2.last_frame_duration = 50 ∧
      (__guac_handle_sync handlers_return_zero 1120 (measured_user 1100 1000 50 7)
        (sync_instruction 900)).2.processing_lag = 7 :=
  ⟨by decide, by decide,
    C5_stale_sync_leaves_timing_unchanged handlers_return_zero 1120
      (measured_user 1100 1000 50 7) (sync_instruction 900) (by decide) (by decide)⟩


/-! ## The check under `static_assert` -/

theorem handler_map_in_order_from_get {α : Type} (instr_map : List (Nat × α)) :
    ∀ (start : Nat), handler_map_in_order_from start instr_map = true →
      ∀ (i : Nat) (hi : i < instr_map.length), (instr_map.get ⟨i, hi⟩).1 = start + i := by
  induction instr_map with
  | nil => intro start _ i hi; exact absurd hi (Nat.not_lt_zero i)
  | cons entry rest ih =>
    intro start h i hi
    obtain ⟨opcode, handler⟩ := entry
    unfold handler_map_in_order_from at h
    by_cases hop : opcode = start
    · subst hop
      simp only [ne_eq, not_true_eq_false, if_false] at h
      cases i with
      | zero => rfl
      | succ j =>
        have hj : j < rest.length := Nat.lt_of_succ_lt_succ hi
        have := ih (opcode + 1) h j hj
        simp only [List.get_eq_getElem, List.getElem_cons_succ] at this ⊢
        omega
    · simp [hop] at h

end UserHandlers

namespace Guacenc

theorem guacenc_handler_map_in_order_from_get {α : Type} (instr_map : List (Nat × α)) :
    ∀ (start : Nat), handler_map_in_order_from start instr_map = true →
      ∀ (i : Nat) (hi : i < instr_map.length), (instr_map.get ⟨i, hi⟩).1 = start + i := by
  induction instr_map with
  | nil => intro start _ i hi; exact absurd hi (Nat.not_lt_zero i)
  | cons entry rest ih =>
    intro start h i hi
    obtain ⟨opcode, handler⟩ := entry
    unfold handler_map_in_order_from at h
    by_cases hop : opcode = start
    · subst hop
      simp only [ne_eq, not_true_eq_false, if_false] at h
      cases i with
      | zero => rfl
      | succ j =>
        have hj : j < rest.length := Nat.lt_of_succ_lt_succ hi
        have := ih (opcode + 1) h j hj
        simp only [List.get_eq_getElem, List.getElem_cons_succ] at this ⊢
        omega
    · simp [hop] at h

/-! ## C6 -/

/-- C6: when the two `static_assert`s hold, in `__guac_instruction_handler_map`
and in `guacenc_instruction_handler_map` the entry at every index `i` of the
table carries the discriminant whose enumeration value is `i`. -/
theorem C6_dispatch_tables_follow_enumeration {D R : Type}
    (Wc : UserHandlers.GuacClientInstruction_Which) (K : UserHandlers.guac_constants)
    (H : UserHandlers.handler_results) (current : Int)
    (Ws : GuacServerInstruction_Which) (h : guacenc_handlers D R)
    (hc : UserHandlers.handler_map_in_order
      (UserHandlers.__guac_instruction_handler_map Wc K H current) = true)
    (hs : handler_map_in_order (guacenc_instruction_handler_map Ws h) = true) :
    (∀ (i : Nat) (hi : i < (UserHandlers.__guac_instruction_handler_map Wc K H current).length),
        ((UserHandlers.__guac_instruction_handler_map Wc K H current).get ⟨i, hi⟩).1 = i) ∧
      (∀ (i : Nat) (hi : i < (guacenc_instruction_handler_map Ws h).length),
        ((guacenc_instruction_handler_map Ws h).get ⟨i, hi⟩).1 = i) := by
  constructor
  · intro i hi
    have := UserHandlers.handler_map_in_order_from_get _ 0 hc i hi
    omega
  · intro i hi
    have := guacenc_handler_map_in_order_from_get _ 0 hs i hi
    omega

theorem C6_dispatch_tables_follow_enumeration_witness :
    UserHandlers.handler_map_in_order
        (UserHandlers.__guac_instruction_handler_map UserHandlers.client_which_in_order
          UserHandlers.libguac_constants UserHandlers.handlers_return_zero 0) = true ∧
      handler_map_in_order
        (guacenc_instruction_handler_map server_which_in_order counting_handlers) = true ∧
      ((UserHandlers.__guac_instruction_handler_map UserHandlers.client_which_in_order
          UserHandlers.libguac_constants UserHandlers.handlers_return_zero 0).get
        ⟨13, by decide⟩).1 = 13 ∧
      ((guacenc_instruction_handler_map server_which_in_order counting_handlers).get
        ⟨47, by decide⟩).1 = 47 :=
  have w := C6_dispatch_tables_follow_enumeration UserHandlers.client_which_in_order
    UserHandlers.libguac_constants UserHandlers.handlers_return_zero 0 server_which_in_order
    counting_handlers rfl rfl
  ⟨rfl, rfl, w.1 13 (by decide), w.2 47 (by decide)⟩

/-! ## C7 -/

/-- C7: an instruction whose discriminant is at least the size of the dispatch
table makes `guac_call_instruction_handler` return 0 with the user as it was,
no effect and no call recorded, and makes `guacenc_handle_instruction` return 0
with the display as it was and nothing logged, whatever the handlers of the
table are. -/
theorem C7_discriminant_beyond_table_is_ignored {D R : Type}
    (Wc : UserHandlers.GuacClientInstruction_Which) (K : UserHandlers.guac_constants)
    (H : UserHandlers.handler_results) (current : Int) (user : UserHandlers.guac_user)
    (instr : UserHandlers.Reader)
    (Ws : GuacServerInstruction_Which) (h : guacenc_handlers D R) (which : R → Nat)
    (field_name : R → Option String) (display : D) (sinstr : R) :
    (instr.which ≥ (UserHandlers.__guac_instruction_handler_map Wc K H current).length →
        UserHandlers.guac_call_instruction_handler Wc K H current user instr = (0, user)) ∧
      (which sinstr ≥ (guacenc_instruction_handler_map Ws h).length →
        guacenc_handle_instruction Ws h which field_name display sinstr =
          { result := 0, display := display, log := [] }) := by
  constructor
  · intro hge
    unfold UserHandlers.guac_call_instruction_handler
    simp only [hge, dite_true]
  · intro hge
    unfold guacenc_handle_instruction
    simp only [hge, dite_true]

theorem C7_discriminant_beyond_table_is_ignored_witness :
    ((UserHandlers.empty_instruction 14).which ≥
          (UserHandlers.__guac_instruction_handler_map UserHandlers.client_which_in_order
            UserHandlers.libguac_constants UserHandlers.handlers_return_zero 0).length ∧
        UserHandlers.guac_call_instruction_handler UserHandlers.client_which_in_order
          UserHandlers.libguac_constants UserHandlers.handlers_return_zero 0
          (UserHandlers.idle_user 1000 900) (UserHandlers.empty_instruction 14) =
          (0, UserHandlers.idle_user 1000 900)) ∧
      ((48 : Nat) ≥ (guacenc_instruction_handler_map server_which_in_order
          counting_handlers).length ∧
        guacenc_handle_instruction server_which_in_order counting_handlers id
          (fun _ => none) 5 48 = { result := 0, display := 5, log := [] }) :=
  have w := C7_discriminant_beyond_table_is_ignored UserHandlers.client_which_in_order
    UserHandlers.libguac_constants UserHandlers.handlers_return_zero 0
    (UserHandlers.idle_user 1000 900) (UserHandlers.empty_instruction 14)
    server_which_in_order counting_handlers id (fun _ => none) 5 48
  ⟨⟨by decide, w.1 (by decide)⟩, ⟨by decide, w.2 (by decide)⟩⟩


/-! ## C8 -/

/-- C8: a server instruction whose discriminant is inside the table of guacenc
and whose entry has no handler (`nullptr`) makes `guacenc_handle_instruction`
return 0 and leaves the display as it was; when the table is in the order of
the enumeration this is the case of `ARC`, `CLIP` and `NOP`. -/
theorem C8_unbound_handler_is_noop {D R : Type} (Ws : GuacServerInstruction_Which)
    (h : guacenc_handlers D R) (which : R → Nat) (field_name : R → Option String)
    (display : D) (instr : R) :
    (∀ (hlt : which instr < (guacenc_instruction_handler_map Ws h).length),
        ((guacenc_instruction_handler_map Ws h).get ⟨which instr, hlt⟩).2 = none →
        (guacenc_handle_instruction Ws h which field_name display instr).result = 0 ∧
          (guacenc_handle_instruction Ws h which field_name display instr).display
            = display) ∧
      (handler_map_in_order (guacenc_instruction_handler_map Ws h) = true →
        (which instr = Ws.ARC ∨ which instr = Ws.CLIP ∨ which instr = Ws.NOP) →
        (guacenc_handle_instruction Ws h which field_name display instr).result = 0 ∧
          (guacenc_handle_instruction Ws h which field_name display instr).display
            = display) := by
  have key : ∀ (hlt : which instr < (guacenc_instruction_handler_map Ws h).length),
      ((guacenc_instruction_handler_map Ws h).get ⟨which instr, hlt⟩).2 = none →
      (guacenc_handle_instruction Ws h which field_name display instr).result = 0 ∧
        (guacenc_handle_instruction Ws h which field_name display instr).display
          = display := by
    intro hlt hnull
    unfold guacenc_handle_instruction
    have hge : ¬ which instr ≥ (guacenc_instruction_handler_map Ws h).length :=
      Nat.not_le.mpr hlt
    simp only [List.get_eq_getElem] at hnull
    simp [hge, hnull]
  refine ⟨key, ?_⟩
  intro hord hwhich
  have hlen : (guacenc_instruction_handler_map Ws h).length = 48 := rfl
  have harc := guacenc_handler_map_in_order_from_get _ 0 hord 0 (by rw [hlen]; omega)
  have hclip := guacenc_handler_map_in_order_from_get _ 0 hord 2 (by rw [hlen]; omega)
  have hnop := guacenc_handler_map_in_order_from_get _ 0 hord 44 (by rw [hlen]; omega)
  have harc2 : Ws.ARC = 0 := harc
  have hclip2 : Ws.CLIP = 2 := hclip
  have hnop2 : Ws.NOP = 44 := hnop
  rcases hwhich with hw | hw | hw
  · have hlt : which instr < (guacenc_instruction_handler_map Ws h).length := by
      rw [hw, harc2, hlen]; omega
    apply key hlt
    simp only [hw, harc2]
    rfl
  · have hlt : which instr < (guacenc_instruction_handler_map Ws h).length := by
      rw [hw, hclip2, hlen]; omega
    apply key hlt
    simp only [hw, hclip2]
    rfl
  · have hlt : which instr < (guacenc_instruction_handler_map Ws h).length := by
      rw [hw, hnop2, hlen]; omega
    apply key hlt
    simp only [hw, hnop2]
    rfl

theorem C8_unbound_handler_is_noop_witness :
    (((guacenc_instruction_handler_map server_which_in_order counting_handlers).get
          ⟨id 2, by decide⟩).2 = none ∧
        (guacenc_handle_instruction server_which_in_order counting_handlers id
          (fun _ => some "clip") 5 2).result = 0 ∧
        (guacenc_handle_instruction server_which_in_order counting_handlers id
          (fun _ => some "clip") 5 2).display = 5) ∧
      (handler_map_in_order
          (guacenc_instruction_handler_map server_which_in_order counting_handlers) = true ∧
        id 44 = server_which_in_order.NOP ∧
        (guacenc_handle_instruction server_which_in_order counting_handlers id
          (fun _ => some "nop") 5 44).result = 0 ∧
        (guacenc_handle_instruction server_which_in_order counting_handlers id
          (fun _ => some "nop") 5 44).display = 5) :=
  ⟨⟨rfl,
      (C8_unbound_handler_is_noop server_which_in_order counting_handlers id
        (fun _ => some "clip") 5 2).1 (by decide) rfl⟩,
    ⟨rfl, rfl,
      (C8_unbound_handler_is_noop server_which_in_order counting_handlers id
        (fun _ => some "nop") 5 44).2 rfl (Or.inr (Or.inr rfl))⟩⟩

end Guacenc

namespace UserHandlers

/-! ## The handlers that open a stream -/

theorem opening_handlers_effects (K : guac_constants) (H : handler_results)
    (user : guac_user) (stream_index : Int) (instr : Reader)
    (hrange : 0 ≤ stream_index ∧ stream_index < K.GUAC_USER_MAX_STREAMS) :
      (instr.getFile.getStream = stream_index →
        ∃ e, is_end_handler_call e = false ∧
          (__guac_handle_file K H user instr).2.effects =
            (__init_input_stream K H user stream_index).2.effects ++ [e]) ∧
      (instr.getPipe.getStream = stream_index →
        ∃ e, is_end_handler_call e = false ∧
          (__guac_handle_pipe K H user instr).2.effects =
            (__init_input_stream K H user stream_index).2.effects ++ [e]) ∧
      (instr.getClipboard.getStream = stream_index →
        ∃ e, is_end_handler_call e = false ∧
          (__guac_handle_clipboard K H user instr).2.effects =
            (__init_input_stream K H user stream_index).2.effects ++ [e]) ∧
      (instr.getAudio.getStream = stream_index →
        ∃ e, is_end_handler_call e = false ∧
          (__guac_handle_audio K H user instr).2.effects =
            (__init_input_stream K H user stream_index).2.effects ++ [e]) ∧
      (instr.getPut.getStream = stream_index →
        (0 ≤ instr.getPut.getObject ∧ instr.getPut.getObject < K.GUAC_USER_MAX_OBJECTS) →
        (user.__objects instr.getPut.getObject.toNat).index
          ≠ K.GUAC_USER_UNDEFINED_OBJECT_INDEX →
        ∃ e, is_end_handler_call e = false ∧
          (__guac_handle_put K H user instr).2.effects =
            (__init_input_stream K H user stream_index).2.effects ++ [e]) := by
  have hnr : ¬ (stream_index < 0 ∨ stream_index ≥ K.GUAC_USER_MAX_STREAMS) := by omega
  have h1 : (__init_input_stream K H user stream_index).1 = some stream_index.toNat := by
    unfold __init_input_stream __get_input_stream
    simp only [hnr, if_false]
  rcases hinit : __init_input_stream K H user stream_index with ⟨p, u⟩
  rw [hinit] at h1
  simp only at h1
  subst h1
  refine ⟨?_, ?_, ?_, ?_, ?_⟩
  · intro hi
    unfold __guac_handle_file
    simp only [hi, hinit]
    cases u.file_handler with
    | some fn => (refine ⟨_, ?_, rfl⟩; rfl)
    | none => (refine ⟨_, ?_, rfl⟩; rfl)
  · intro hi
    unfold __guac_handle_pipe
    simp only [hi, hinit]
    cases u.pipe_handler with
    | some fn => (refine ⟨_, ?_, rfl⟩; rfl)
    | none => (refine ⟨_, ?_, rfl⟩; rfl)
  · intro hi
    unfold __guac_handle_clipboard
    simp only [hi, hinit]
    cases u.clipboard_handler with
    | some fn => (refine ⟨_, ?_, rfl⟩; rfl)
    | none => (refine ⟨_, ?_, rfl⟩; rfl)
  · intro hi
    unfold __guac_handle_audio
    simp only [hi, hinit]
    cases u.audio_handler with
    | some fn => (refine ⟨_, ?_, rfl⟩; rfl)
    | none => (refine ⟨_, ?_, rfl⟩; rfl)
  · intro hi ho hd
    have hno : ¬ (instr.getPut.getObject < 0 ∨
        instr.getPut.getObject ≥ K.GUAC_USER_MAX_OBJECTS) := by omega
    unfold __guac_handle_put
    simp only [hi, hinit, hno, hd, if_false]
    cases (u.__objects instr.getPut.getObject.toNat).put_handler with
    | some fn => (refine ⟨_, ?_, rfl⟩; rfl)
    | none =>
      cases u.put_handler with
      | some fn => (refine ⟨_, ?_, rfl⟩; rfl)
      | none => (refine ⟨_, ?_, rfl⟩; rfl)

/-! ## C9 -/

/-- C9 as stated does not hold for an open slot that has no end handler
when the user has none either: stream 3 of a user without handlers is opened
(`__init_input_stream` leaves it open without end handler) and opened again;
the second opening calls no end handler at all. -/
theorem C9_counterexample_no_end_handler_bound :
    (0 : Int) ≤ 3 ∧ (3 : Int) < libguac_constants.GUAC_USER_MAX_STREAMS ∧
      (((__init_input_stream libguac_constants handlers_return_zero (idle_user 1000 900)
          3).2.__input_streams 3).index
        ≠ libguac_constants.GUAC_USER_CLOSED_STREAM_INDEX) ∧
      ((__init_input_stream libguac_constants handlers_return_zero
          (__init_input_stream libguac_constants handlers_return_zero (idle_user 1000 900)
            3).2 3).2.effects.filter is_end_handler_call).length = 0 ∧
      ((__init_input_stream libguac_constants handlers_return_zero
          (__init_input_stream libguac_constants handlers_return_zero (idle_user 1000 900)
            3).2 3).2.effects.filter is_end_handler_call).length ≠ 1 := by
  decide

/-- C9 (amended): for an in-range stream index `i` whose input stream slot is
open, `__init_input_stream` (which `file`, `pipe`, `clipboard`, `audio` and
`put` use to open a stream) makes exactly one call of an end handler when the
previous stream has one bound or the user has a user-wide one, the stream's own
one having precedence, and no call when neither is set; the call receives the
slot as it was, before `index`, `data` and the handlers are reinitialized; after
the call the slot holds `index = i`, no data and no handler.  The handlers of
`file`, `pipe`, `clipboard` and `audio`, and the one of `put` for a defined
object, have the effects of `__init_input_stream` followed by one effect that
is not a call of an end handler. -/
theorem C9_reopen_ends_previous_stream (K : guac_constants) (H : handler_results)
    (user : guac_user) (stream_index : Int) (instr : Reader)
    (hrange : 0 ≤ stream_index ∧ stream_index < K.GUAC_USER_MAX_STREAMS)
    (hopen : (user.__input_streams stream_index.toNat).index
      ≠ K.GUAC_USER_CLOSED_STREAM_INDEX) :
    (__init_input_stream K H user stream_index).1 = some stream_index.toNat ∧
      (__init_input_stream K H user stream_index).2.effects =
        user.effects ++
          (match (user.__input_streams stream_index.toNat).end_handler with
            | some fn =>
              [guac_effect.end_handler fn stream_index.toNat
                (user.__input_streams stream_index.toNat)]
            | none =>
              match user.end_handler with
              | some fn =>
                [guac_effect.end_handler fn stream_index.toNat
                  (user.__input_streams stream_index.toNat)]
              | none => []) ∧
      (__init_input_stream K H user stream_index).2.__input_streams stream_index.toNat =
        { index := stream_index, data := 0, ack_handler := none, blob_handler := none,
          end_handler := none } ∧
      (instr.getFile.getStream = stream_index →
        ∃ e, is_end_handler_call e = false ∧
          (__guac_handle_file K H user instr).2.effects =
            (__init_input_stream K H user stream_index).2.effects ++ [e]) ∧
      (instr.getPipe.getStream = stream_index →
        ∃ e, is_end_handler_call e = false ∧
          (__guac_handle_pipe K H user instr).2.effects =
            (__init_input_stream K H user stream_index).2.effects ++ [e]) ∧
      (instr.getClipboard.getStream = stream_index →
        ∃ e, is_end_handler_call e = false ∧
          (__guac_handle_clipboard K H user instr).2.effects =
            (__init_input_stream K H user stream_index).2.effects ++ [e]) ∧
      (instr.getAudio.getStream = stream_index →
        ∃ e, is_end_handler_call e = false ∧
          (__guac_handle_audio K H user instr).2.effects =
            (__init_input_stream K H user stream_index).2.effects ++ [e]) ∧
      (instr.getPut.getStream = stream_index →
        (0 ≤ instr.getPut.getObject ∧ instr.getPut.getObject < K.GUAC_USER_MAX_OBJECTS) →
        (user.__objects instr.getPut.getObject.toNat).index
          ≠ K.GUAC_USER_UNDEFINED_OBJECT_INDEX →
        ∃ e, is_end_handler_call e = false ∧
          (__guac_handle_put K H user instr).2.effects =
            (__init_input_stream K H user stream_index).2.effects ++ [e]) := by
  have hnr : ¬ (stream_index < 0 ∨ stream_index ≥ K.GUAC_USER_MAX_STREAMS) := by omega
  refine ⟨?_, ?_, ?_, opening_handlers_effects K H user stream_index instr hrange⟩ <;>
    unfold __init_input_stream __get_input_stream <;>
    simp only [hnr, if_false] <;>
    cases hs : (user.__input_streams stream_index.toNat).end_handler with
  | some fn => simp [hopen, hs, invoke, set_input_stream]
  | none =>
    cases hu : user.end_handler with
    | some fn => simp [hopen, hs, hu, invoke, set_input_stream]
    | none => simp [hopen, hs, hu, set_input_stream]

theorem C9_reopen_ends_previous_stream_witness :
    ((0 : Int) ≤ 3 ∧ (3 : Int) < libguac_constants.GUAC_USER_MAX_STREAMS) ∧
      (user_with_open_stream.__input_streams (3 : Int).toNat).index
        ≠ libguac_constants.GUAC_USER_CLOSED_STREAM_INDEX ∧
      (__init_input_stream libguac_constants handlers_return_zero user_with_open_stream
        3).2.effects =
        [guac_effect.end_handler stream_end_fn 3
          { index := 3, data := 77, ack_handler := none, blob_handler := some 8192,
            end_handler := some stream_end_fn }] ∧
      (__init_input_stream libguac_constants handlers_return_zero user_with_open_stream
        3).2.__input_streams 3 =
        { index := 3, data := 0, ack_handler := none, blob_handler := none,
          end_handler := none } :=
  have w := C9_reopen_ends_previous_stream libguac_constants handlers_return_zero
    user_with_open_stream 3 (empty_instruction 6) (by decide) (by decide)
  ⟨by decide, by decide, w.2.1.trans (by decide), w.2.2.1⟩

/-! ## C10 -/

/-- C10: for an in-range stream index `i` whose input stream slot is closed,
`__guac_handle_blob` returns 0 and its only effect is one `ack` for stream `i`
with the status `GUAC_PROTOCOL_STATUS_CLIENT_BAD_REQUEST`: no blob handler is
called and the table of input streams is as it was. -/
theorem C10_blob_on_closed_stream_is_acked (K : guac_constants) (H : handler_results)
    (user : guac_user) (instr : Reader)
    (hrange : 0 ≤ instr.getBlob.getStream ∧
      instr.getBlob.getStream < K.GUAC_USER_MAX_STREAMS)
    (hclosed : (user.__input_streams instr.getBlob.getStream.toNat).index
      = K.GUAC_USER_CLOSED_STREAM_INDEX) :
    __guac_handle_blob K H user instr =
        (0, { user with
          effects := user.effects ++
            [guac_effect.send_ack instr.getBlob.getStream "Invalid stream index"
              K.GUAC_PROTOCOL_STATUS_CLIENT_BAD_REQUEST] }) ∧
      (__guac_handle_blob K H user instr).2.__input_streams = user.__input_streams ∧
      ((__guac_handle_blob K H user instr).2.effects.filter is_blob_handler_call).length =
        (user.effects.filter is_blob_handler_call).length := by
  have hnr : ¬ (instr.getBlob.getStream < 0 ∨
      instr.getBlob.getStream ≥ K.GUAC_USER_MAX_STREAMS) := by omega
  have e : __guac_handle_blob K H user instr =
      (0, { user with
        effects := user.effects ++
          [guac_effect.send_ack instr.getBlob.getStream "Invalid stream index"
            K.GUAC_PROTOCOL_STATUS_CLIENT_BAD_REQUEST] }) := by
    unfold __guac_handle_blob __get_open_input_stream __get_input_stream
    simp [hnr, hclosed, guac_protocol_send_ack, dummy_stream]
  rw [e]
  refine ⟨rfl, rfl, ?_⟩
  simp [List.filter_append, is_blob_handler_call]

theorem C10_blob_on_closed_stream_is_acked_witness :
    ((0 : Int) ≤ (blob_instruction 5 [1, 2, 3]).getBlob.getStream ∧
        (blob_instruction 5 [1, 2, 3]).getBlob.getStream
          < libguac_constants.GUAC_USER_MAX_STREAMS) ∧
      (__guac_handle_blob libguac_constants handlers_return_zero user_with_open_stream
        (blob_instruction 5 [1, 2, 3])).1 = 0 ∧
      (__guac_handle_blob libguac_constants handlers_return_zero user_with_open_stream
        (blob_instruction 5 [1, 2, 3])).2.effects =
        [guac_effect.send_ack 5 "Invalid stream index" 768] :=
  have w := C10_blob_on_closed_stream_is_acked libguac_constants handlers_return_zero
    user_with_open_stream (blob_instruction 5 [1, 2, 3]) (by decide) (by decide)
  ⟨by decide, congrArg Prod.fst w.1, congrArg (fun r => r.2.effects) w.1⟩

end UserHandlers

namespace UserHandlers

/-! ## The lookup of an input stream slot -/

theorem get_input_stream_out_of_range (K : guac_constants) (user : guac_user)
    (stream_index : Int)
    (hout : stream_index < 0 ∨ stream_index ≥ K.GUAC_USER_MAX_STREAMS) :
    __get_input_stream K user stream_index =
      (none, guac_protocol_send_ack user (dummy_stream stream_index) "Invalid stream index"
        K.GUAC_PROTOCOL_STATUS_CLIENT_BAD_REQUEST) := by
  unfold __get_input_stream
  rw [if_pos hout]

theorem get_input_stream_in_range (K : guac_constants) (user : guac_user)
    (stream_index : Int)
    (hrange : 0 ≤ stream_index ∧ stream_index < K.GUAC_USER_MAX_STREAMS) :
    __get_input_stream K user stream_index = (some stream_index.toNat, user) := by
  have hnr : ¬ (stream_index < 0 ∨ stream_index ≥ K.GUAC_USER_MAX_STREAMS) := by omega
  unfold __get_input_stream
  rw [if_neg hnr]

theorem get_open_input_stream_out_of_range (K : guac_constants) (user : guac_user)
    (stream_index : Int)
    (hout : stream_index < 0 ∨ stream_index ≥ K.GUAC_USER_MAX_STREAMS) :
    __get_open_input_stream K user stream_index =
      (none, guac_protocol_send_ack user (dummy_stream stream_index) "Invalid stream index"
        K.GUAC_PROTOCOL_STATUS_CLIENT_BAD_REQUEST) := by
  unfold __get_open_input_stream
  rw [get_input_stream_out_of_range K user stream_index hout]

theorem get_open_input_stream_open (K : guac_constants) (user : guac_user)
    (stream_index : Int)
    (hrange : 0 ≤ stream_index ∧ stream_index < K.GUAC_USER_MAX_STREAMS)
    (hopen : (user.__input_streams stream_index.toNat).index
      ≠ K.GUAC_USER_CLOSED_STREAM_INDEX) :
    __get_open_input_stream K user stream_index = (some stream_index.toNat, user) := by
  unfold __get_open_input_stream
  rw [get_input_stream_in_range K user stream_index hrange]
  simp only [hopen, if_false]

theorem init_input_stream_out_of_range (K : guac_constants) (H : handler_results)
    (user : guac_user) (stream_index : Int)
    (hout : stream_index < 0 ∨ stream_index ≥ K.GUAC_USER_MAX_STREAMS) :
    __init_input_stream K H user stream_index =
      (none, guac_protocol_send_ack user (dummy_stream stream_index) "Invalid stream index"
        K.GUAC_PROTOCOL_STATUS_CLIENT_BAD_REQUEST) := by
  unfold __init_input_stream
  rw [get_input_stream_out_of_range K user stream_index hout]

/-! ## C11 -/

/-- C11: for a stream index `i` with `i < 0` or `i ≥ GUAC_USER_MAX_STREAMS`,
each of the handlers of `file`, `pipe`, `clipboard`, `audio`, `blob` and `end`
returns 0 with the user changed in one way only: the `ack` for index `i` with
status `GUAC_PROTOCOL_STATUS_CLIENT_BAD_REQUEST` is appended to the effects.
The result is written without any stream slot (none is read), and the table of
input streams is the same afterwards (none is written). -/
theorem C11_out_of_range_index_is_rejected (K : guac_constants) (H : handler_results)
    (user : guac_user) (instr : Reader) (i : Int)
    (hout : i < 0 ∨ i ≥ K.GUAC_USER_MAX_STREAMS) :
    (instr.getFile.getStream = i → __guac_handle_file K H user instr =
        (0, guac_protocol_send_ack user (dummy_stream i) "Invalid stream index"
          K.GUAC_PROTOCOL_STATUS_CLIENT_BAD_REQUEST)) ∧
      (instr.getPipe.getStream = i → __guac_handle_pipe K H user instr =
        (0, guac_protocol_send_ack user (dummy_stream i) "Invalid stream index"
          K.GUAC_PROTOCOL_STATUS_CLIENT_BAD_REQUEST)) ∧
      (instr.getClipboard.getStream = i → __guac_handle_clipboard K H user instr =
        (0, guac_protocol_send_ack user (dummy_stream i) "Invalid stream index"
          K.GUAC_PROTOCOL_STATUS_CLIENT_BAD_REQUEST)) ∧
      (instr.getAudio.getStream = i → __guac_handle_audio K H user instr =
        (0, guac_protocol_send_ack user (dummy_stream i) "Invalid stream index"
          K.GUAC_PROTOCOL_STATUS_CLIENT_BAD_REQUEST)) ∧
      (instr.getBlob.getStream = i → __guac_handle_blob K H user instr =
        (0, guac_protocol_send_ack user (dummy_stream i) "Invalid stream index"
          K.GUAC_PROTOCOL_STATUS_CLIENT_BAD_REQUEST)) ∧
      (instr.getEnd = i → __guac_handle_end K H user instr =
        (0, guac_protocol_send_ack user (dummy_stream i) "Invalid stream index"
          K.GUAC_PROTOCOL_STATUS_CLIENT_BAD_REQUEST)) ∧
      (guac_protocol_send_ack user (dummy_stream i) "Invalid stream index"
          K.GUAC_PROTOCOL_STATUS_CLIENT_BAD_REQUEST).effects =
        user.effects ++ [guac_effect.send_ack i "Invalid stream index"
          K.GUAC_PROTOCOL_STATUS_CLIENT_BAD_REQUEST] ∧
      (guac_protocol_send_ack user (dummy_stream i) "Invalid stream index"
          K.GUAC_PROTOCOL_STATUS_CLIENT_BAD_REQUEST).__input_streams =
        user.__input_streams := by
  refine ⟨?_, ?_, ?_, ?_, ?_, ?_, rfl, rfl⟩
  · intro hi
    unfold __guac_handle_file
    simp only [hi, init_input_stream_out_of_range K H user i hout]
  · intro hi
    unfold __guac_handle_pipe
    simp only [hi, init_input_stream_out_of_range K H user i hout]
  · intro hi
    unfold __guac_handle_clipboard
    simp only [hi, init_input_stream_out_of_range K H user i hout]
  · intro hi
    unfold __guac_handle_audio
    simp only [hi, init_input_stream_out_of_range K H user i hout]
  · intro hi
    unfold __guac_handle_blob
    simp only [hi, get_open_input_stream_out_of_range K user i hout]
  · intro hi
    unfold __guac_handle_end
    simp only [hi, get_open_input_stream_out_of_range K user i hout]

theorem C11_out_of_range_index_is_rejected_witness :
    ((64 : Int) < 0 ∨ (64 : Int) ≥ libguac_constants.GUAC_USER_MAX_STREAMS) ∧
      (__guac_handle_file libguac_constants handlers_return_seven user_with_open_stream
        (file_instruction 64 "text/plain" "a.txt")).1 = 0 ∧
      (__guac_handle_file libguac_constants handlers_return_seven user_with_open_stream
        (file_instruction 64 "text/plain" "a.txt")).2.effects =
        [guac_effect.send_ack 64 "Invalid stream index" 768] ∧
      (__guac_handle_end libguac_constants handlers_return_seven user_with_open_stream
        (end_instruction (-1))).1 = 0 ∧
      (__guac_handle_end libguac_constants handlers_return_seven user_with_open_stream
        (end_instruction (-1))).2.effects =
        [guac_effect.send_ack (-1) "Invalid stream index" 768] :=
  have w := C11_out_of_range_index_is_rejected libguac_constants handlers_return_seven
    user_with_open_stream (file_instruction 64 "text/plain" "a.txt") 64 (by decide)
  have v := C11_out_of_range_index_is_rejected libguac_constants handlers_return_seven
    user_with_open_stream (end_instruction (-1)) (-1) (by decide)
  ⟨by decide, congrArg Prod.fst (w.1 rfl), congrArg (fun r => r.2.effects) (w.1 rfl),
    congrArg Prod.fst (v.2.2.2.2.2.1 rfl), congrArg (fun r => r.2.effects) (v.2.2.2.2.2.1 rfl)⟩

end UserHandlers

namespace UserHandlers

/-! ## C12 -/

/-- C12 as stated does not hold for an index at or beyond the capacity: with a
capacity of 64, index 67 would use slot `67 mod 64 = 3`, but the index is
rejected instead.  Opening 67 leaves slot 3 as it was and returns no stream;
`blob` and `end` on 67, while slot 3 is open with its handlers bound, call no
handler and leave slot 3 open. -/
theorem C12_counterexample_index_not_reduced :
    (67 : Int) % libguac_constants.GUAC_USER_MAX_STREAMS = 3 ∧
      (__init_input_stream libguac_constants handlers_return_zero user_with_open_stream
        67).1 = none ∧
      (__init_input_stream libguac_constants handlers_return_zero user_with_open_stream
        67).2.__input_streams 3 = user_with_open_stream.__input_streams 3 ∧
      (__guac_handle_blob libguac_constants handlers_return_zero user_with_open_stream
        (blob_instruction 67 [1])).2.effects =
        [guac_effect.send_ack 67 "Invalid stream index" 768] ∧
      (__guac_handle_end libguac_constants handlers_return_zero user_with_open_stream
        (end_instruction 67)).2.effects =
        [guac_effect.send_ack 67 "Invalid stream index" 768] ∧
      ((__guac_handle_end libguac_constants handlers_return_zero user_with_open_stream
        (end_instruction 67)).2.__input_streams 3).index = 3 := by
  decide

/-- C12 (amended): for a stream index `i` with `0 ≤ i < GUAC_USER_MAX_STREAMS`
the slot used is the one at position `i`, which is `i mod GUAC_USER_MAX_STREAMS`:
the lookup yields it, opening writes it and no other slot, `blob` on an open
stream hands it to the blob handler and writes no slot, `end` on an open stream
closes it and writes no other slot.  An index outside that range is not reduced
modulo the capacity: the lookup yields no slot for it. -/
theorem C12_slot_of_stream_index (K : guac_constants) (H : handler_results)
    (user : guac_user) (instr : Reader) (i : Int)
    (hrange : 0 ≤ i ∧ i < K.GUAC_USER_MAX_STREAMS) :
    (i % K.GUAC_USER_MAX_STREAMS).toNat = i.toNat ∧
      __get_input_stream K user i = (some (i % K.GUAC_USER_MAX_STREAMS).toNat, user) ∧
      ((__init_input_stream K H user i).1 = some (i % K.GUAC_USER_MAX_STREAMS).toNat ∧
        (__init_input_stream K H user i).2.__input_streams
            (i % K.GUAC_USER_MAX_STREAMS).toNat =
          { index := i, data := 0, ack_handler := none, blob_handler := none,
            end_handler := none } ∧
        ∀ q : Nat, q ≠ (i % K.GUAC_USER_MAX_STREAMS).toNat →
          (__init_input_stream K H user i).2.__input_streams q = user.__input_streams q) ∧
      (instr.getBlob.getStream = i →
        (user.__input_streams (i % K.GUAC_USER_MAX_STREAMS).toNat).index
          ≠ K.GUAC_USER_CLOSED_STREAM_INDEX →
        (__guac_handle_blob K H user instr).2.__input_streams = user.__input_streams ∧
          ∀ fn : Nat,
            (user.__input_streams (i % K.GUAC_USER_MAX_STREAMS).toNat).blob_handler = some fn →
            (__guac_handle_blob K H user instr).2.effects = user.effects ++
              [guac_effect.blob_handler fn (i % K.GUAC_USER_MAX_STREAMS).toNat
                (user.__input_streams (i % K.GUAC_USER_MAX_STREAMS).toNat)
                instr.getBlob.getData]) ∧
      (instr.getEnd = i →
        (user.__input_streams (i % K.GUAC_USER_MAX_STREAMS).toNat).index
          ≠ K.GUAC_USER_CLOSED_STREAM_INDEX →
        (__guac_handle_end K H user instr).2.__input_streams =
          Function.update user.__input_streams (i % K.GUAC_USER_MAX_STREAMS).toNat
            { user.__input_streams (i % K.GUAC_USER_MAX_STREAMS).toNat with
              index := K.GUAC_USER_CLOSED_STREAM_INDEX }) ∧
      (∀ j : Int, (j < 0 ∨ j ≥ K.GUAC_USER_MAX_STREAMS) →
        (__get_input_stream K user j).1 = none) := by
  have hmod : i % K.GUAC_USER_MAX_STREAMS = i := Int.emod_eq_of_lt hrange.1 hrange.2
  rw [hmod]
  have hnr : ¬ (i < 0 ∨ i ≥ K.GUAC_USER_MAX_STREAMS) := by omega
  refine ⟨rfl, get_input_stream_in_range K user i hrange, ⟨?_, ?_, ?_⟩, ?_, ?_, ?_⟩
  · unfold __init_input_stream
    rw [get_input_stream_in_range K user i hrange]
  · unfold __init_input_stream
    rw [get_input_stream_in_range K user i hrange]
    simp [set_input_stream]
  · intro q hq
    unfold __init_input_stream
    rw [get_input_stream_in_range K user i hrange]
    simp only [set_input_stream, Function.update_noteq hq]
    split_ifs
    · cases (user.__input_streams i.toNat).end_handler with
      | some fn => rfl
      | none =>
        cases user.end_handler with
        | some fn => rfl
        | none => rfl
    · rfl
  · intro hi hopen
    subst hi
    unfold __guac_handle_blob
    dsimp only
    rw [get_open_input_stream_open K user _ hrange hopen]
    constructor
    · cases hb : (user.__input_streams instr.getBlob.getStream.toNat).blob_handler with
      | some fn => simp [hb, invoke]
      | none =>
        cases hu : user.blob_handler with
        | some fn => simp [hb, hu, invoke]
        | none => simp [hb, hu, guac_protocol_send_ack]
    · intro fn hfn
      simp [hfn, invoke]
  · intro hi hopen
    subst hi
    unfold __guac_handle_end
    dsimp only
    rw [get_open_input_stream_open K user _ hrange hopen]
    cases hs : (user.__input_streams instr.getEnd.toNat).end_handler with
    | some fn => simp [hs, invoke, set_input_stream]
    | none =>
      cases hu : user.end_handler with
      | some fn => simp [hs, hu, invoke, set_input_stream]
      | none => simp [hs, hu, set_input_stream]
  · intro j hj
    rw [get_input_stream_out_of_range K user j hj]

theorem C12_slot_of_stream_index_witness :
    ((0 : Int) ≤ 3 ∧ (3 : Int) < libguac_constants.GUAC_USER_MAX_STREAMS) ∧
      __get_input_stream libguac_constants user_with_open_stream 3 =
        (some ((3 : Int) % libguac_constants.GUAC_USER_MAX_STREAMS).toNat,
          user_with_open_stream) ∧
      (__guac_handle_end libguac_constants handlers_return_zero user_with_open_stream
        (end_instruction 3)).2.__input_streams 3 =
        { index := -1, data := 77, ack_handler := none, blob_handler := some 8192,
          end_handler := some stream_end_fn } :=
  have w := C12_slot_of_stream_index libguac_constants handlers_return_zero
    user_with_open_stream (end_instruction 3) 3 (by decide)
  ⟨by decide, w.2.1, (congrFun (w.2.2.2.2.1 rfl (by decide)) 3).trans (by decide)⟩

/-! ## C13 -/

/-- C13: for an in-range index whose input stream is open, `__guac_handle_end`
calls the end handler of the stream if one is bound, otherwise the end handler
of the user if one is set, and nothing otherwise (so never both); it returns
what the called handler returns, or 0 when none is called; afterwards the index
stored in the slot is `GUAC_USER_CLOSED_STREAM_INDEX`. -/
theorem C13_end_calls_one_handler_and_closes (K : guac_constants) (H : handler_results)
    (user : guac_user) (instr : Reader)
    (hrange : 0 ≤ instr.getEnd ∧ instr.getEnd < K.GUAC_USER_MAX_STREAMS)
    (hopen : (user.__input_streams instr.getEnd.toNat).index
      ≠ K.GUAC_USER_CLOSED_STREAM_INDEX) :
    (__guac_handle_end K H user instr).1 =
        (match (user.__input_streams instr.getEnd.toNat).end_handler with
          | some fn =>
            H user (guac_effect.end_handler fn instr.getEnd.toNat
              (user.__input_streams instr.getEnd.toNat))
          | none =>
            match user.end_handler with
            | some fn =>
              H user (guac_effect.end_handler fn instr.getEnd.toNat
                (user.__input_streams instr.getEnd.toNat))
            | none => 0) ∧
      (__guac_handle_end K H user instr).2.effects =
        user.effects ++
          (match (user.__input_streams instr.getEnd.toNat).end_handler with
            | some fn =>
              [guac_effect.end_handler fn instr.getEnd.toNat
                (user.__input_streams instr.getEnd.toNat)]
            | none =>
              match user.end_handler with
              | some fn =>
                [guac_effect.end_handler fn instr.getEnd.toNat
                  (user.__input_streams instr.getEnd.toNat)]
              | none => []) ∧
      ((__guac_handle_end K H user instr).2.__input_streams instr.getEnd.toNat).index =
        K.GUAC_USER_CLOSED_STREAM_INDEX := by
  unfold __guac_handle_end
  dsimp only
  rw [get_open_input_stream_open K user instr.getEnd hrange hopen]
  cases hs : (user.__input_streams instr.getEnd.toNat).end_handler with
  | some fn => simp [hs, invoke, set_input_stream]
  | none =>
    cases hu : user.end_handler with
    | some fn => simp [hs, hu, invoke, set_input_stream]
    | none => simp [hs, hu, set_input_stream]

theorem C13_end_calls_one_handler_and_closes_witness :
    ((0 : Int) ≤ (end_instruction 3).getEnd ∧
        (end_instruction 3).getEnd < libguac_constants.GUAC_USER_MAX_STREAMS) ∧
      (user_with_open_stream.__input_streams (end_instruction 3).getEnd.toNat).index
        ≠ libguac_constants.GUAC_USER_CLOSED_STREAM_INDEX ∧
      (__guac_handle_end libguac_constants handlers_return_seven user_with_open_stream
        (end_instruction 3)).1 = 7 ∧
      (__guac_handle_end libguac_constants handlers_return_seven user_with_open_stream
        (end_instruction 3)).2.effects =
        [guac_effect.end_handler stream_end_fn 3
          { index := 3, data := 77, ack_handler := none, blob_handler := some 8192,
            end_handler := some stream_end_fn }] ∧
      ((__guac_handle_end libguac_constants handlers_return_seven user_with_open_stream
        (end_instruction 3)).2.__input_streams 3).index = -1 :=
  have w := C13_end_calls_one_handler_and_closes libguac_constants handlers_return_seven
    user_with_open_stream (end_instruction 3) (by decide) (by decide)
  ⟨by decide, by decide, w.1.trans (by decide), w.2.1.trans (by decide), w.2.2⟩

end UserHandlers

namespace UserHandlers

/-! ## C14 -/

theorem tmod_two_ne_zero_of_odd (s : Int) (h : Odd s) : Int.tmod s 2 ≠ 0 := by
  intro h0
  have hd : (2 : Int) ∣ s := Int.dvd_iff_tmod_eq_zero.mpr h0
  exact (Int.not_even_iff_odd.mpr h) (even_iff_two_dvd.mpr hd)

theorem tmod_two_eq_zero_of_even (s : Int) (h : Even s) : Int.tmod s 2 = 0 :=
  Int.dvd_iff_tmod_eq_zero.mp (even_iff_two_dvd.mp h)

theorem tdiv_two_of_even (s : Int) (h : Even s) : Int.tdiv s 2 = s / 2 :=
  Int.tdiv_eq_ediv_of_dvd (even_iff_two_dvd.mp h)

/-- C14: an `ack` whose stream index `s` is odd makes `__guac_handle_ack`
return 0 with the user as it was.  For an even `s` the slot is the output
stream at position `s / 2`: when `0 ≤ s / 2 < GUAC_USER_MAX_STREAMS` and that
slot is open, the ack handler of the stream is called, or else the one of the
user, or else nothing is called and 0 is returned; in every other case 0 is
returned with the user as it was, nothing called and nothing sent. -/
theorem C14_ack_resolved_to_output_stream (K : guac_constants) (H : handler_results)
    (user : guac_user) (instr : Reader) :
    (Odd instr.getAck.getStream → __guac_handle_ack K H user instr = (0, user)) ∧
      (Even instr.getAck.getStream →
        __guac_handle_ack K H user instr =
          if 0 ≤ instr.getAck.getStream / 2 ∧
              instr.getAck.getStream / 2 < K.GUAC_USER_MAX_STREAMS ∧
              (user.__output_streams (instr.getAck.getStream / 2).toNat).index
                ≠ K.GUAC_USER_CLOSED_STREAM_INDEX then
            match (user.__output_streams (instr.getAck.getStream / 2).toNat).ack_handler with
            | some fn =>
              invoke H user
                (guac_effect.ack_handler fn (instr.getAck.getStream / 2).toNat
                  (user.__output_streams (instr.getAck.getStream / 2).toNat)
                  instr.getAck.getMessage instr.getAck.getStatus)
            | none =>
              match user.ack_handler with
              | some fn =>
                invoke H user
                  (guac_effect.ack_handler fn (instr.getAck.getStream / 2).toNat
                    (user.__output_streams (instr.getAck.getStream / 2).toNat)
                    instr.getAck.getMessage instr.getAck.getStatus)
              | none => (0, user)
          else (0, user)) := by
  constructor
  · intro hodd
    unfold __guac_handle_ack
    dsimp only
    rw [if_pos (tmod_two_ne_zero_of_odd _ hodd)]
  · intro heven
    unfold __guac_handle_ack
    dsimp only
    rw [if_neg (not_not.mpr (tmod_two_eq_zero_of_even _ heven)), tdiv_two_of_even _ heven]
    by_cases hr : instr.getAck.getStream / 2 < 0 ∨
        instr.getAck.getStream / 2 ≥ K.GUAC_USER_MAX_STREAMS
    · rw [if_pos hr, if_neg (by omega)]
    · rw [if_neg hr]
      by_cases hc : (user.__output_streams (instr.getAck.getStream / 2).toNat).index
          = K.GUAC_USER_CLOSED_STREAM_INDEX
      · rw [if_pos hc, if_neg (by simp [hc])]
      · rw [if_neg hc, if_pos ⟨by omega, by omega, hc⟩]

theorem C14_ack_resolved_to_output_stream_witness :
    (Odd (ack_instruction 5 "OK" 0).getAck.getStream ∧
        __guac_handle_ack libguac_constants handlers_return_seven user_with_output_stream
          (ack_instruction 5 "OK" 0) = (0, user_with_output_stream)) ∧
      (Even (ack_instruction 4 "OK" 0).getAck.getStream ∧
        (__guac_handle_ack libguac_constants handlers_return_seven user_with_output_stream
          (ack_instruction 4 "OK" 0)).1 = 7 ∧
        (__guac_handle_ack libguac_constants handlers_return_seven user_with_output_stream
          (ack_instruction 4 "OK" 0)).2.effects =
          [guac_effect.ack_handler 16384 2
            { index := 4, data := 0, ack_handler := some 16384, blob_handler := none,
              end_handler := none } "OK" 0]) :=
  have w := C14_ack_resolved_to_output_stream libguac_constants handlers_return_seven
    user_with_output_stream (ack_instruction 5 "OK" 0)
  have v := C14_ack_resolved_to_output_stream libguac_constants handlers_return_seven
    user_with_output_stream (ack_instruction 4 "OK" 0)
  ⟨⟨by decide, w.1 (by decide)⟩,
    ⟨by decide, (congrArg Prod.fst (v.2 (by decide))).trans (by decide),
      (congrArg (fun r => r.2.effects) (v.2 (by decide))).trans (by decide)⟩⟩

end UserHandlers

namespace Protocol

open Guacamole

/-! ## The loop of `__array_len` -/

theorem array_len_loop_of_nonnull (fuel : Nat) :
    ∀ (array size : Nat), array ≠ 0 → __array_len_loop fuel array size = none := by
  induction fuel with
  | zero => intro array size _; rfl
  | succ n ih =>
    intro array size h
    unfold __array_len_loop
    rw [if_pos h]
    exact ih _ _ (by unfold sizeof_pointer; omega)

/-! ## C20 -/

/-- C20: what the code does.  Every sender of `protocol.cpp` other than
`guac_protocol_send_args` takes the lock, hands the one message it builds to
`write_handler` once, releases the lock whatever the write returned, and
returns what the write returned: it is `write_under_lock` of its message, whose
calls are, in this order, the lock handler if set, the write handler, the
unlock handler if set.  `guac_protocol_send_args` does so for a null `args`
only: for every other address the loop of `__array_len` tests the pointer and
not the element, so it does not stop; the lock is taken, and nothing is
written, released or returned, however many iterations are allowed. -/
theorem C20_senders_write_under_lock (W : write_results) (socket : guac_socket) :
    ((∀ (message : GuacServerInstruction),
        (write_under_lock W socket message).1 =
            W (guac_socket_instruction_begin socket) message ∧
          (write_under_lock W socket message).2.events =
            socket.events ++
              (match socket.lock_handler with
                | some fn => [guac_socket_event.lock_handler fn]
                | none => []) ++
              [guac_socket_event.write_handler socket.write_handler message] ++
              (match socket.unlock_handler with
                | some fn => [guac_socket_event.unlock_handler fn]
                | none => [])) ∧
      (∀ (stream : UserHandlers.guac_stream) (error : String) (status : Int),
        guac_protocol_send_ack W socket stream error status =
          write_under_lock W socket
            (GuacServerInstruction.initAck stream.index error status)) ∧
      (∀ (layer : guac_layer) (x : Int) (y : Int) (radius : Int) (startAngle : double)
          (endAngle : double) (negative : Int),
        guac_protocol_send_arc W socket layer x y radius startAngle endAngle negative =
          write_under_lock W socket
            (GuacServerInstruction.initArc layer.index x y radius startAngle endAngle negative)) ∧
      (∀ (stream : UserHandlers.guac_stream) (mimetype : String),
        guac_protocol_send_audio W socket stream mimetype =
          write_under_lock W socket
            (GuacServerInstruction.initAudio stream.index mimetype)) ∧
      (∀ (stream : UserHandlers.guac_stream) (data : List Nat) (count : Int),
        guac_protocol_send_blob W socket stream data count =
          write_under_lock W socket
            (GuacServerInstruction.initBlob stream.index (data.take count.toNat))) ∧
      (∀ (object : UserHandlers.guac_object) (stream : UserHandlers.guac_stream) (mimetype : String)
          (name : String),
        guac_protocol_send_body W socket object stream mimetype name =
          write_under_lock W socket
            (GuacServerInstruction.initBody object.index stream.index mimetype name)) ∧
      (∀ (mode : Int) (layer : guac_layer) (r : Int) (g : Int) (b : Int) (a : Int),
        guac_protocol_send_cfill W socket mode layer r g b a =
          write_under_lock W socket
            (GuacServerInstruction.initCfill mode layer.index r g b a)) ∧
      (∀ (layer : guac_layer),
        guac_protocol_send_close W socket layer =
          write_under_lock W socket
            (GuacServerInstruction.setClose layer.index)) ∧
      (∀ (layer : guac_layer),
        guac_protocol_send_clip W socket layer =
          write_under_lock W socket
            (GuacServerInstruction.setClip layer.index)) ∧
      (∀ (stream : UserHandlers.guac_stream) (mimetype : String),
        guac_protocol_send_clipboard W socket stream mimetype =
          write_under_lock W socket
            (GuacServerInstruction.initClipboard stream.index mimetype)) ∧
      (∀ (srcl : guac_layer) (srcx : Int) (srcy : Int) (w : Int) (h : Int) (mode : Int)
          (dstl : guac_layer) (dstx : Int) (dsty : Int),
        guac_protocol_send_copy W socket srcl srcx srcy w h mode dstl dstx dsty =
          write_under_lock W socket
            (GuacServerInstruction.initCopy srcl.index srcx srcy w h mode dstl.index dstx dsty)) ∧
      (∀ (mode : Int) (layer : guac_layer) (cap : Int) (join : Int) (thickness : Int) (r : Int)
          (g : Int) (b : Int) (a : Int),
        guac_protocol_send_cstroke W socket mode layer cap join thickness r g b a =
          write_under_lock W socket
            (GuacServerInstruction.initCstroke mode layer.index cap join thickness r g b a)) ∧
      (∀ (x : Int) (y : Int) (srcl : guac_layer) (srcx : Int) (srcy : Int) (w : Int) (h : Int),
        guac_protocol_send_cursor W socket x y srcl srcx srcy w h =
          write_under_lock W socket
            (GuacServerInstruction.initCursor x y srcl.index srcx srcy w h)) ∧
      (∀ (layer : guac_layer) (cp1x : Int) (cp1y : Int) (cp2x : Int) (cp2y : Int) (x : Int) (y : Int),
        guac_protocol_send_curve W socket layer cp1x cp1y cp2x cp2y x y =
          write_under_lock W socket
            (GuacServerInstruction.initCurve layer.index cp1x cp1y cp2x cp2y x y)) ∧
      (guac_protocol_send_disconnect W socket =
        write_under_lock W socket GuacServerInstruction.setDisconnect) ∧
      (∀ (layer : guac_layer),
        guac_protocol_send_dispose W socket layer =
          write_under_lock W socket
            (GuacServerInstruction.setDispose layer.index)) ∧
      (∀ (layer : guac_layer) (a : double) (b : double) (c : double) (d : double) (e : double)
          (f : double),
        guac_protocol_send_distort W socket layer a b c d e f =
          write_under_lock W socket
            (GuacServerInstruction.initDistort layer.index a b c d e f)) ∧
      (∀ (stream : UserHandlers.guac_stream),
        guac_protocol_send_end W socket stream =
          write_under_lock W socket
            (GuacServerInstruction.setEnd stream.index)) ∧
      (∀ (error : String) (status : Int),
        guac_protocol_send_error W socket error status =
          write_under_lock W socket
            (GuacServerInstruction.initError error status)) ∧
      (∀ (formatted : String),
        vguac_protocol_send_log W socket formatted =
          write_under_lock W socket (GuacServerInstruction.setLog (formatted.take 4095))) ∧
      (∀ (formatted : String),
        guac_protocol_send_log W socket formatted =
          write_under_lock W socket (GuacServerInstruction.setLog (formatted.take 4095))) ∧
      (∀ (stream : UserHandlers.guac_stream) (mimetype : String) (name : String),
        guac_protocol_send_file W socket stream mimetype name =
          write_under_lock W socket
            (GuacServerInstruction.initFile stream.index mimetype name)) ∧
      (∀ (object : UserHandlers.guac_object) (name : String),
        guac_protocol_send_filesystem W socket object name =
          write_under_lock W socket
            (GuacServerInstruction.initFilesystem object.index name)) ∧
      (∀ (layer : guac_layer),
        guac_protocol_send_identity W socket layer =
          write_under_lock W socket
            (GuacServerInstruction.setIdentity layer.index)) ∧
      (∀ (keysym : Int) (pressed : Int) (timestamp : Int),
        guac_protocol_send_key W socket keysym pressed timestamp =
          write_under_lock W socket
            (GuacServerInstruction.initKey keysym pressed timestamp)) ∧
      (∀ (mode : Int) (layer : guac_layer) (srcl : guac_layer),
        guac_protocol_send_lfill W socket mode layer srcl =
          write_under_lock W socket
            (GuacServerInstruction.initLfill mode layer.index srcl.index)) ∧
      (∀ (layer : guac_layer) (x : Int) (y : Int),
        guac_protocol_send_line W socket layer x y =
          write_under_lock W socket
            (GuacServerInstruction.initLine layer.index x y)) ∧
      (∀ (mode : Int) (layer : guac_layer) (cap : Int) (join : Int) (thickness : Int) (srcl : guac_layer),
        guac_protocol_send_lstroke W socket mode layer cap join thickness srcl =
          write_under_lock W socket
            (GuacServerInstruction.initLstroke mode layer.index cap join thickness srcl.index)) ∧
      (∀ (x : Int) (y : Int) (button_mask : Int) (timestamp : Int),
        guac_protocol_send_mouse W socket x y button_mask timestamp =
          write_under_lock W socket
            (GuacServerInstruction.initMouse x y button_mask timestamp)) ∧
      (∀ (layer : guac_layer) (parent : guac_layer) (x : Int) (y : Int) (z : Int),
        guac_protocol_send_move W socket layer parent x y z =
          write_under_lock W socket
            (GuacServerInstruction.initMove layer.index parent.index x y z)) ∧
      (∀ (name : String),
        guac_protocol_send_name W socket name =
          write_under_lock W socket
            (GuacServerInstruction.setName name)) ∧
      (guac_protocol_send_nop W socket =
        write_under_lock W socket GuacServerInstruction.setNop) ∧
      (∀ (stream : UserHandlers.guac_stream) (mimetype : String) (name : String),
        guac_protocol_send_pipe W socket stream mimetype name =
          write_under_lock W socket
            (GuacServerInstruction.initPipe stream.index mimetype name)) ∧
      (∀ (stream : UserHandlers.guac_stream) (mode : Int) (layer : guac_layer) (mimetype : String)
          (x : Int) (y : Int),
        guac_protocol_send_img W socket stream mode layer mimetype x y =
          write_under_lock W socket
            (GuacServerInstruction.initImg stream.index mode layer.index mimetype x y)) ∧
      (∀ (layer : guac_layer),
        guac_protocol_send_pop W socket layer =
          write_under_lock W socket
            (GuacServerInstruction.setPop layer.index)) ∧
      (∀ (layer : guac_layer),
        guac_protocol_send_push W socket layer =
          write_under_lock W socket
            (GuacServerInstruction.setPush layer.index)) ∧
      (∀ (id : String),
        guac_protocol_send_ready W socket id =
          write_under_lock W socket
            (GuacServerInstruction.setReady id)) ∧
      (∀ (layer : guac_layer) (x : Int) (y : Int) (width : Int) (height : Int),
        guac_protocol_send_rect W socket layer x y width height =
          write_under_lock W socket
            (GuacServerInstruction.initRect layer.index x y width height)) ∧
      (∀ (layer : guac_layer),
        guac_protocol_send_reset W socket layer =
          write_under_lock W socket
            (GuacServerInstruction.setReset layer.index)) ∧
      (∀ (layer : guac_layer) (name : String) (value : String),
        guac_protocol_send_set W socket layer name value =
          write_under_lock W socket
            (GuacServerInstruction.initSet layer.index name value)) ∧
      (∀ (layer : guac_layer) (a : Int),
        guac_protocol_send_shade W socket layer a =
          write_under_lock W socket
            (GuacServerInstruction.initShade layer.index a)) ∧
      (∀ (layer : guac_layer) (w : Int) (h : Int),
        guac_protocol_send_size W socket layer w h =
          write_under_lock W socket
            (GuacServerInstruction.initSize layer.index w h)) ∧
      (∀ (layer : guac_layer) (x : Int) (y : Int),
        guac_protocol_send_start W socket layer x y =
          write_under_lock W socket
            (GuacServerInstruction.initStart layer.index x y)) ∧
      (∀ (timestamp : Int),
        guac_protocol_send_sync W socket timestamp =
          write_under_lock W socket
            (GuacServerInstruction.setSync timestamp)) ∧
      (∀ (srcl : guac_layer) (srcx : Int) (srcy : Int) (w : Int) (h : Int) (fn : Int)
          (dstl : guac_layer) (dstx : Int) (dsty : Int),
        guac_protocol_send_transfer W socket srcl srcx srcy w h fn dstl dstx dsty =
          write_under_lock W socket
            (GuacServerInstruction.initTransfer srcl.index srcx srcy w h fn dstl.index dstx dsty)) ∧
      (∀ (layer : guac_layer) (a : double) (b : double) (c : double) (d : double) (e : double)
          (f : double),
        guac_protocol_send_transform W socket layer a b c d e f =
          write_under_lock W socket
            (GuacServerInstruction.initTransform layer.index a b c d e f)) ∧
      (∀ (object : UserHandlers.guac_object),
        guac_protocol_send_undefine W socket object =
          write_under_lock W socket
            (GuacServerInstruction.setUndefine object.index)) ∧
      (∀ (stream : UserHandlers.guac_stream) (layer : guac_layer) (mimetype : String),
        guac_protocol_send_video W socket stream layer mimetype =
          write_under_lock W socket
            (GuacServerInstruction.initVideo stream.index layer.index mimetype))) ∧
      (∀ (memory : Nat → Option (Option String)) (fuel : Nat) (args : Nat), args ≠ 0 →
        guac_protocol_send_args W memory fuel socket args =
          (none, guac_socket_instruction_begin socket)) ∧
      (∀ (memory : Nat → Option (Option String)) (fuel : Nat),
        guac_protocol_send_args W memory (fuel + 1) socket 0 =
          (some (write_under_lock W socket (GuacServerInstruction.initArgs [])).1,
            (write_under_lock W socket (GuacServerInstruction.initArgs [])).2)) := by
  refine ⟨⟨?_, ?_, ?_, ?_, ?_, ?_, ?_, ?_, ?_, ?_, ?_, ?_, ?_, ?_, ?_, ?_, ?_, ?_, ?_, ?_, ?_, ?_, ?_, ?_, ?_, ?_, ?_, ?_, ?_, ?_, ?_, ?_, ?_, ?_, ?_, ?_, ?_, ?_, ?_, ?_, ?_, ?_, ?_, ?_, ?_, ?_, ?_, ?_⟩, ?_, ?_⟩
  · intro message
    obtain ⟨w, l, u, ev⟩ := socket
    cases l <;> cases u <;>
      simp [write_under_lock, call_write_handler, guac_socket_instruction_begin,
        guac_socket_instruction_end]
  all_goals first
    | (intros; rfl)
    | skip
  · intro memory fuel args hargs
    unfold guac_protocol_send_args __array_len
    simp only [array_len_loop_of_nonnull fuel args 0 hargs]

theorem C20_senders_write_under_lock_witness :
    (guac_protocol_send_sync write_fails locking_socket 1000).1 = -1 ∧
      (guac_protocol_send_sync write_fails locking_socket 1000).2.events =
        [guac_socket_event.lock_handler 200,
          guac_socket_event.write_handler 100 (GuacServerInstruction.setSync 1000),
          guac_socket_event.unlock_handler 300] ∧
      (4096 ≠ 0 ∧
        guac_protocol_send_args write_fails hostname_args_memory 1000000 locking_socket 4096 =
          (none,
            { locking_socket with events := [guac_socket_event.lock_handler 200] })) :=
  have w := C20_senders_write_under_lock write_fails locking_socket
  ⟨rfl, rfl, by decide, (w.2.1 hostname_args_memory 1000000 4096 (by decide)).trans rfl⟩

end Protocol

namespace Guacenc

open Guacamole

/-! ## C15 -/

/-- C15 as stated does not hold: `guacenc_handle_move` looks at no parent
chain.  In a display where the parent of layer 2 is layer 1, the move of layer
1 under itself is accepted (0 is returned and layer 1 becomes its own parent),
and so is the move of layer 1 under layer 2 (0 is returned, and then the parent
of layer 1 is layer 2 while the parent of layer 2 is layer 1). -/
theorem C15_counterexample_cycle_accepted :
    ((guacenc_handle_move example_functions example_display
        (GuacServerInstruction.initMove 1 1 0 0 0)).1 = 0 ∧
      ((guacenc_handle_move example_functions example_display
        (GuacServerInstruction.initMove 1 1 0 0 0)).2.layers 1).parent_index = 1) ∧
      ((example_display.layers 2).parent_index = 1 ∧
        (guacenc_handle_move example_functions example_display
          (GuacServerInstruction.initMove 1 2 0 0 0)).1 = 0 ∧
        ((guacenc_handle_move example_functions example_display
          (GuacServerInstruction.initMove 1 2 0 0 0)).2.layers 1).parent_index = 2 ∧
        ((guacenc_handle_move example_functions example_display
          (GuacServerInstruction.initMove 1 2 0 0 0)).2.layers 2).parent_index = 1) := by
  decide

/-- C15 (amended): `guacenc_handle_move` does not examine ancestry.  For every
display and every move instruction whose layer and whose parent the display
yields, the move is applied, also when the new parent is the layer itself or a
layer whose parent chain reaches the layer: 0 is returned and the
`parent_index` of the layer is the parent index of the instruction.  A move is
rejected only when the display yields no layer for one of the two indices, and
then `parent_index` is unchanged. -/
theorem C15_move_checks_no_ancestry (F : guacenc_display_functions)
    (display : guacenc_display) (instr : GuacServerInstruction) :
    (∀ layer parent : Nat,
        F.guacenc_display_get_layer display instr.getMove.getLayer = some layer →
        F.guacenc_display_get_layer display instr.getMove.getParent = some parent →
        (guacenc_handle_move F display instr).1 = 0 ∧
          ((guacenc_handle_move F display instr).2.layers layer).parent_index =
            instr.getMove.getParent) ∧
      ((guacenc_handle_move F display instr).1 ≠ 0 →
        (F.guacenc_display_get_layer display instr.getMove.getLayer = none ∨
            F.guacenc_display_get_layer display instr.getMove.getParent = none) ∧
          (guacenc_handle_move F display instr).2 = display) := by
  constructor
  · intro layer parent hl hp
    unfold guacenc_handle_move
    simp [hl, hp, set_layer]
  · intro hne
    unfold guacenc_handle_move at hne ⊢
    cases hl : F.guacenc_display_get_layer display instr.getMove.getLayer with
    | none => simp [hl]
    | some layer =>
      cases hp : F.guacenc_display_get_layer display instr.getMove.getParent with
      | none => simp [hl, hp]
      | some parent => simp [hl, hp] at hne

theorem C15_move_checks_no_ancestry_witness :
    (example_functions.guacenc_display_get_layer example_display
          (GuacServerInstruction.initMove 1 1 5 6 7).getMove.getLayer = some 1 ∧
        (guacenc_handle_move example_functions example_display
          (GuacServerInstruction.initMove 1 1 5 6 7)).1 = 0 ∧
        ((guacenc_handle_move example_functions example_display
          (GuacServerInstruction.initMove 1 1 5 6 7)).2.layers 1).parent_index = 1) ∧
      ((guacenc_handle_move example_functions example_display
          (GuacServerInstruction.initMove 1 64 5 6 7)).1 ≠ 0 ∧
        example_functions.guacenc_display_get_layer example_display
          (GuacServerInstruction.initMove 1 64 5 6 7).getMove.getParent = none) :=
  have w := C15_move_checks_no_ancestry example_functions example_display
    (GuacServerInstruction.initMove 1 1 5 6 7)
  have v := C15_move_checks_no_ancestry example_functions example_display
    (GuacServerInstruction.initMove 1 64 5 6 7)
  ⟨⟨rfl, w.1 1 1 rfl rfl⟩, ⟨by decide, ((v.2 (by decide)).1).resolve_left (by decide)⟩⟩

/-! ## C16 -/

/-- C16: if the display yields no layer for the layer index or for the parent
index of a move instruction, `guacenc_handle_move` returns 1 and the display,
so the four fields of every layer, is as it was; if it yields both, 0 is
returned, `parent_index`, `x`, `y` and `z` of the layer are the values of the
instruction, and every other layer is as it was. -/
theorem C16_move_needs_both_layers (F : guacenc_display_functions)
    (display : guacenc_display) (instr : GuacServerInstruction) :
    ((F.guacenc_display_get_layer display instr.getMove.getLayer = none ∨
          F.guacenc_display_get_layer display instr.getMove.getParent = none) →
        guacenc_handle_move F display instr = (1, display)) ∧
      (∀ layer parent : Nat,
        F.guacenc_display_get_layer display instr.getMove.getLayer = some layer →
        F.guacenc_display_get_layer display instr.getMove.getParent = some parent →
        (guacenc_handle_move F display instr).1 = 0 ∧
          (guacenc_handle_move F display instr).2.layers layer =
            { parent_index := instr.getMove.getParent, x := instr.getMove.getX,
              y := instr.getMove.getY, z := instr.getMove.getZ } ∧
          (∀ other : Nat, other ≠ layer →
            (guacenc_handle_move F display instr).2.layers other = display.layers other) ∧
          (guacenc_handle_move F display instr).2.buffers = display.buffers) := by
  constructor
  · intro h
    unfold guacenc_handle_move
    cases hl : F.guacenc_display_get_layer display instr.getMove.getLayer with
    | none => simp [hl]
    | some layer =>
      rcases h with h | h
      · rw [hl] at h; cases h
      · simp [hl, h]
  · intro layer parent hl hp
    refine ⟨?_, ?_, ?_, ?_⟩
    · simp [guacenc_handle_move, hl, hp]
    · simp [guacenc_handle_move, hl, hp, set_layer]
    · intro other hother
      simp [guacenc_handle_move, hl, hp, set_layer, Function.update_noteq hother]
    · simp [guacenc_handle_move, hl, hp, set_layer]

theorem C16_move_needs_both_layers_witness :
    (example_functions.guacenc_display_get_layer example_display
          (GuacServerInstruction.initMove 3 64 5 6 7).getMove.getParent = none ∧
        guacenc_handle_move example_functions example_display
          (GuacServerInstruction.initMove 3 64 5 6 7) = (1, example_display)) ∧
      ((guacenc_handle_move example_functions example_display
          (GuacServerInstruction.initMove 3 2 5 6 7)).1 = 0 ∧
        (guacenc_handle_move example_functions example_display
          (GuacServerInstruction.initMove 3 2 5 6 7)).2.layers 3 =
          { parent_index := 2, x := 5, y := 6, z := 7 }) :=
  have w := C16_move_needs_both_layers example_functions example_display
    (GuacServerInstruction.initMove 3 64 5 6 7)
  have v := C16_move_needs_both_layers example_functions example_display
    (GuacServerInstruction.initMove 3 2 5 6 7)
  ⟨⟨rfl, w.1 (Or.inr rfl)⟩, ⟨(v.2 3 2 rfl rfl).1, (v.2 3 2 rfl rfl).2.1⟩⟩

end Guacenc

namespace Guacenc

open Guacamole

/-! ## The size of a buffer after `guacenc_buffer_fit` -/

theorem buffer_fit_size (buffer : guacenc_buffer) (x y : Int) :
    (guacenc_buffer_fit buffer x y).width = max buffer.width x ∧
      (guacenc_buffer_fit buffer x y).height = max buffer.height y ∧
      (guacenc_buffer_fit buffer x y).autosize = buffer.autosize := by
  unfold guacenc_buffer_fit
  dsimp only
  split_ifs with h
  · exact ⟨h.1.symm, h.2.symm, rfl⟩
  · exact ⟨rfl, rfl, rfl⟩

theorem buffer_cairo_fill_size (L : cairo_library) (buffer : guacenc_buffer) (cairo : cairo_t) :
    (buffer_cairo_fill L buffer cairo).width = buffer.width ∧
      (buffer_cairo_fill L buffer cairo).height = buffer.height :=
  ⟨rfl, rfl⟩

theorem handle_rect_buffer_size (F : guacenc_display_functions) (display : guacenc_display)
    (instr : GuacServerInstruction) (buffer : Nat)
    (hb : F.guacenc_display_get_related_buffer display instr.getRect.getLayer = some buffer) :
    ((guacenc_handle_rect F display instr).2.buffers buffer).width =
        (if (display.buffers buffer).autosize then
          F.guacenc_buffer_fit (display.buffers buffer)
            (UserHandlers.toInt32 (instr.getRect.getX + instr.getRect.getWidth))
            (UserHandlers.toInt32 (instr.getRect.getY + instr.getRect.getHeight))
        else display.buffers buffer).width ∧
      ((guacenc_handle_rect F display instr).2.buffers buffer).height =
        (if (display.buffers buffer).autosize then
          F.guacenc_buffer_fit (display.buffers buffer)
            (UserHandlers.toInt32 (instr.getRect.getX + instr.getRect.getWidth))
            (UserHandlers.toInt32 (instr.getRect.getY + instr.getRect.getHeight))
        else display.buffers buffer).height := by
  unfold guacenc_handle_rect
  simp only [hb]
  by_cases ha : (display.buffers buffer).autosize = true
  · simp only [ha, if_true, set_buffer, Function.update_same]
    cases hc : (F.guacenc_buffer_fit (display.buffers buffer)
        (UserHandlers.toInt32 (instr.getRect.getX + instr.getRect.getWidth))
        (UserHandlers.toInt32 (instr.getRect.getY + instr.getRect.getHeight))).cairo with
    | some cairo => simp [hc]
    | none => simp [hc]
  · simp only [ha, if_false, set_buffer]
    cases hc : (display.buffers buffer).cairo with
    | some cairo => simp [hc]
    | none => simp [hc]

end Guacenc

namespace Guacenc

open Guacamole

theorem handle_copy_buffer_size (F : guacenc_display_functions) (L : cairo_library)
    (display : guacenc_display) (instr : GuacServerInstruction) (src dst : Nat)
    (hs : F.guacenc_display_get_related_buffer display instr.getCopy.getSrcLayer = some src)
    (hd : F.guacenc_display_get_related_buffer display instr.getCopy.getDstLayer = some dst) :
    ((guacenc_handle_copy F L display instr).2.buffers dst).width =
        (if (display.buffers dst).autosize then
          F.guacenc_buffer_fit (display.buffers dst)
            (UserHandlers.toInt32 (instr.getCopy.getDstX + instr.getCopy.getSrcWidth))
            (UserHandlers.toInt32 (instr.getCopy.getDstY + instr.getCopy.getSrcHeight))
        else display.buffers dst).width ∧
      ((guacenc_handle_copy F L display instr).2.buffers dst).height =
        (if (display.buffers dst).autosize then
          F.guacenc_buffer_fit (display.buffers dst)
            (UserHandlers.toInt32 (instr.getCopy.getDstX + instr.getCopy.getSrcWidth))
            (UserHandlers.toInt32 (instr.getCopy.getDstY + instr.getCopy.getSrcHeight))
        else display.buffers dst).height := by
  unfold guacenc_handle_copy
  simp only [hs, hd]
  by_cases ha : (display.buffers dst).autosize = true
  · simp only [ha, if_true]
    split
    · simp [set_buffer, buffer_cairo_fill]
    · simp [set_buffer]
  · simp only [ha, if_false]
    split
    · simp [set_buffer, buffer_cairo_fill]
    · simp

/-! ## C17 -/

/-- C17: with buffers growing as `guacenc_buffer_fit` has it, for the buffer
that `guacenc_handle_rect` draws on and for the destination buffer of
`guacenc_handle_copy` (the lookups of the handler having yielded their
buffers): if the buffer is autosize, then after the instruction its width is
at least `x + width` and its height at least `y + height`, these sums being
representable in an `int`, and neither dimension is smaller than before; if the
buffer is not autosize, its dimensions are what they were. -/
theorem C17_autosize_buffer_grows_to_fit (F : guacenc_display_functions) (L : cairo_library)
    (display : guacenc_display) (instr : GuacServerInstruction)
    (hfit : F.guacenc_buffer_fit = guacenc_buffer_fit) :
    (∀ buffer : Nat,
        F.guacenc_display_get_related_buffer display instr.getRect.getLayer = some buffer →
        ((display.buffers buffer).autosize = true →
          (display.buffers buffer).width ≤
              ((guacenc_handle_rect F display instr).2.buffers buffer).width ∧
            (display.buffers buffer).height ≤
              ((guacenc_handle_rect F display instr).2.buffers buffer).height ∧
            (UserHandlers.fitsInt32 (instr.getRect.getX + instr.getRect.getWidth) →
              instr.getRect.getX + instr.getRect.getWidth ≤
                ((guacenc_handle_rect F display instr).2.buffers buffer).width) ∧
            (UserHandlers.fitsInt32 (instr.getRect.getY + instr.getRect.getHeight) →
              instr.getRect.getY + instr.getRect.getHeight ≤
                ((guacenc_handle_rect F display instr).2.buffers buffer).height)) ∧
          ((display.buffers buffer).autosize = false →
            ((guacenc_handle_rect F display instr).2.buffers buffer).width =
                (display.buffers buffer).width ∧
              ((guacenc_handle_rect F display instr).2.buffers buffer).height =
                (display.buffers buffer).height)) ∧
      (∀ src dst : Nat,
        F.guacenc_display_get_related_buffer display instr.getCopy.getSrcLayer = some src →
        F.guacenc_display_get_related_buffer display instr.getCopy.getDstLayer = some dst →
        ((display.buffers dst).autosize = true →
          (display.buffers dst).width ≤
              ((guacenc_handle_copy F L display instr).2.buffers dst).width ∧
            (display.buffers dst).height ≤
              ((guacenc_handle_copy F L display instr).2.buffers dst).height ∧
            (UserHandlers.fitsInt32 (instr.getCopy.getDstX + instr.getCopy.getSrcWidth) →
              instr.getCopy.getDstX + instr.getCopy.getSrcWidth ≤
                ((guacenc_handle_copy F L display instr).2.buffers dst).width) ∧
            (UserHandlers.fitsInt32 (instr.getCopy.getDstY + instr.getCopy.getSrcHeight) →
              instr.getCopy.getDstY + instr.getCopy.getSrcHeight ≤
                ((guacenc_handle_copy F L display instr).2.buffers dst).height)) ∧
          ((display.buffers dst).autosize = false →
            ((guacenc_handle_copy F L display instr).2.buffers dst).width =
                (display.buffers dst).width ∧
              ((guacenc_handle_copy F L display instr).2.buffers dst).height =
                (display.buffers dst).height)) := by
  constructor
  · intro buffer hb
    have hsize := handle_rect_buffer_size F display instr buffer hb
    rw [hfit] at hsize
    constructor
    · intro ha
      rw [ha] at hsize
      simp only [if_true] at hsize
      have hf := buffer_fit_size (display.buffers buffer)
        (UserHandlers.toInt32 (instr.getRect.getX + instr.getRect.getWidth))
        (UserHandlers.toInt32 (instr.getRect.getY + instr.getRect.getHeight))
      rw [hsize.1, hsize.2, hf.1, hf.2.1]
      refine ⟨le_max_left _ _, le_max_left _ _, ?_, ?_⟩
      · intro hx
        rw [UserHandlers.toInt32_of_fits _ hx]
        exact le_max_right _ _
      · intro hy
        rw [UserHandlers.toInt32_of_fits _ hy]
        exact le_max_right _ _
    · intro ha
      rw [ha] at hsize
      simpa using hsize
  · intro src dst hs hd
    have hsize := handle_copy_buffer_size F L display instr src dst hs hd
    rw [hfit] at hsize
    constructor
    · intro ha
      rw [ha] at hsize
      simp only [if_true] at hsize
      have hf := buffer_fit_size (display.buffers dst)
        (UserHandlers.toInt32 (instr.getCopy.getDstX + instr.getCopy.getSrcWidth))
        (UserHandlers.toInt32 (instr.getCopy.getDstY + instr.getCopy.getSrcHeight))
      rw [hsize.1, hsize.2, hf.1, hf.2.1]
      refine ⟨le_max_left _ _, le_max_left _ _, ?_, ?_⟩
      · intro hx
        rw [UserHandlers.toInt32_of_fits _ hx]
        exact le_max_right _ _
      · intro hy
        rw [UserHandlers.toInt32_of_fits _ hy]
        exact le_max_right _ _
    · intro ha
      rw [ha] at hsize
      simpa using hsize

theorem C17_autosize_buffer_grows_to_fit_witness :
    (example_functions.guacenc_display_get_related_buffer example_display
          (GuacServerInstruction.initRect (-1) 100 100 50 50).getRect.getLayer = some 64 ∧
        (example_display.buffers 64).autosize = true ∧
        (example_display.buffers 64).width = 10 ∧
        (example_display.buffers 64).height = 10 ∧
        (150 : Int) ≤
          ((guacenc_handle_rect example_functions example_display
            (GuacServerInstruction.initRect (-1) 100 100 50 50)).2.buffers 64).width ∧
        (150 : Int) ≤
          ((guacenc_handle_rect example_functions example_display
            (GuacServerInstruction.initRect (-1) 100 100 50 50)).2.buffers 64).height) ∧
      ((example_display.buffers 5).autosize = false ∧
        ((guacenc_handle_copy example_functions example_cairo example_display
          (GuacServerInstruction.initCopy 4 0 0 50 50 12 5 100 100)).2.buffers 5).width = 64 ∧
        ((guacenc_handle_copy example_functions example_cairo example_display
          (GuacServerInstruction.initCopy 4 0 0 50 50 12 5 100 100)).2.buffers 5).height
          = 48) :=
  have w := (C17_autosize_buffer_grows_to_fit example_functions example_cairo example_display
    (GuacServerInstruction.initRect (-1) 100 100 50 50) rfl).1 64 (by decide)
  have v := (C17_autosize_buffer_grows_to_fit example_functions example_cairo example_display
    (GuacServerInstruction.initCopy 4 0 0 50 50 12 5 100 100) rfl).2 4 5 (by decide)
      (by decide)
  ⟨⟨by decide, rfl, rfl, rfl, (w.1 rfl).2.2.1 (by decide), (w.1 rfl).2.2.2 (by decide)⟩,
    ⟨rfl, (v.2 rfl).1, (v.2 rfl).2⟩⟩

end Guacenc


namespace Guacenc

open Guacamole

/-! ## The same-buffer copy -/

end Guacenc

namespace Guacenc

open Guacamole

/-! ## C19 -/

theorem handle_cfill_result (F : guacenc_display_functions) (L : cairo_library)
    (display : guacenc_display) (instr : GuacServerInstruction) (buffer : Nat)
    (hb : F.guacenc_display_get_related_buffer display instr.getCfill.getLayer = some buffer) :
    guacenc_handle_cfill F L display instr =
      (0, match (display.buffers buffer).cairo with
        | some cairo =>
          set_buffer display buffer (buffer_cairo_fill L (display.buffers buffer)
            (cairo_set_source_rgba
              (cairo_set_operator cairo
                (F.guacenc_display_cairo_operator instr.getCfill.getMask))
              instr.getCfill.getR instr.getCfill.getG instr.getCfill.getB
              instr.getCfill.getA))
        | none => display) := by
  unfold guacenc_handle_cfill
  dsimp only
  rw [hb]
  cases hc : (display.buffers buffer).cairo <;> simp [hc]

theorem handle_copy_status (F : guacenc_display_functions) (L : cairo_library)
    (display : guacenc_display) (instr : GuacServerInstruction) :
    (guacenc_handle_copy F L display instr).1 =
      if F.guacenc_display_get_related_buffer display instr.getCopy.getSrcLayer = none ∨
          F.guacenc_display_get_related_buffer display instr.getCopy.getDstLayer = none
      then 1 else 0 := by
  unfold guacenc_handle_copy
  dsimp only
  cases hs : F.guacenc_display_get_related_buffer display instr.getCopy.getSrcLayer with
  | none => simp
  | some src =>
    cases hd : F.guacenc_display_get_related_buffer display instr.getCopy.getDstLayer with
    | none => simp
    | some dst =>
      simp only [reduceCtorEq, or_self, if_false]
      split <;> rfl

theorem handle_copy_distinct_buffers (F : guacenc_display_functions) (L : cairo_library)
    (display : guacenc_display) (instr : GuacServerInstruction) (src dst : Nat)
    (surface : cairo_surface_t) (cairo : cairo_t)
    (hs : F.guacenc_display_get_related_buffer display instr.getCopy.getSrcLayer = some src)
    (hd : F.guacenc_display_get_related_buffer display instr.getCopy.getDstLayer = some dst)
    (hne : src ≠ dst) (hauto : (display.buffers dst).autosize = false)
    (hsurface : (display.buffers src).surface = some surface)
    (hcairo : (display.buffers dst).cairo = some cairo) :
    (guacenc_handle_copy F L display instr).2 =
      set_buffer display dst (buffer_cairo_fill L (display.buffers dst)
        (cairo_rectangle
          (cairo_set_source_surface
            (cairo_set_operator cairo (F.guacenc_display_cairo_operator instr.getCopy.getMask))
            surface
            (UserHandlers.toInt32 (instr.getCopy.getDstX - instr.getCopy.getSrcX))
            (UserHandlers.toInt32 (instr.getCopy.getDstY - instr.getCopy.getSrcY)))
          instr.getCopy.getDstX instr.getCopy.getDstY instr.getCopy.getSrcWidth
          instr.getCopy.getSrcHeight)) := by
  unfold guacenc_handle_copy
  dsimp only
  rw [hs, hd]
  simp [hauto, hsurface, hcairo, hne]

/-- C19 as stated does not hold: the handlers test no composite mode.  The
composite modes of the protocol are values of four bits; 255 is none of them.
On a buffer that holds a pending rectangle, `cfill` with mask 255 returns 0 and
the pixel (3, 3) of the buffer, which was 303, is drawn over; `copy` with mask
255 from another buffer returns 0 as well and the pixel (13, 3) of the
destination, which was 313, is drawn over. -/
theorem C19_counterexample_unknown_mask_is_drawn :
    ((guacenc_handle_cfill example_functions example_cairo
        (guacenc_handle_rect example_functions example_display
          (GuacServerInstruction.initRect 5 0 0 10 10)).2
        (GuacServerInstruction.initCfill 255 5 255 0 0 255)).1 = 0 ∧
      (example_display.buffers 5).surface.map (fun s => s.data 3 3) = some 303 ∧
      ((guacenc_handle_cfill example_functions example_cairo
        (guacenc_handle_rect example_functions example_display
          (GuacServerInstruction.initRect 5 0 0 10 10)).2
        (GuacServerInstruction.initCfill 255 5 255 0 0 255)).2.buffers 5).surface.map
          (fun s => s.data 3 3) = some 4294902065) ∧
      ((guacenc_handle_copy example_functions example_cairo example_display
        (GuacServerInstruction.initCopy 4 0 0 20 20 255 5 10 0)).1 = 0 ∧
      (example_display.buffers 5).surface.map (fun s => s.data 13 3) = some 313 ∧
      ((guacenc_handle_copy example_functions example_cairo example_display
        (GuacServerInstruction.initCopy 4 0 0 20 20 255 5 10 0)).2.buffers 5).surface.map
          (fun s => s.data 13 3) = some 618) := by
  decide

/-- C19 (amended): `guacenc_handle_cfill` and `guacenc_handle_copy` do not
validate the composite mode.  For every value of the mask, inside or outside the
enumeration of composite modes: `cfill` returns non-zero exactly when the
display yields no buffer for the index, and `copy` exactly when the display
yields no buffer for the source index or for the destination index; when the
buffers are there, 0 is returned and the drawing is done with the operator that
`guacenc_display_cairo_operator` gives for the mask, whatever the mask is
(`cfill` on a buffer with a context; `copy` between two distinct buffers, the
source with a surface and the destination, not autosize, with a context). -/
theorem C19_mask_is_never_validated (F : guacenc_display_functions) (L : cairo_library)
    (display : guacenc_display) (mask : Int) :
    (∀ layer r g b a : Int,
      ((guacenc_handle_cfill F L display
            (GuacServerInstruction.initCfill mask layer r g b a)).1 ≠ 0 ↔
          F.guacenc_display_get_related_buffer display layer = none) ∧
        ∀ (buffer : Nat) (cairo : cairo_t),
          F.guacenc_display_get_related_buffer display layer = some buffer →
          (display.buffers buffer).cairo = some cairo →
          guacenc_handle_cfill F L display
              (GuacServerInstruction.initCfill mask layer r g b a) =
            (0, set_buffer display buffer (buffer_cairo_fill L (display.buffers buffer)
              (cairo_set_source_rgba
                (cairo_set_operator cairo (F.guacenc_display_cairo_operator mask))
                r g b a)))) ∧
      (∀ srcLayer srcX srcY srcWidth srcHeight dstLayer dstX dstY : Int,
        ((guacenc_handle_copy F L display
              (GuacServerInstruction.initCopy srcLayer srcX srcY srcWidth srcHeight mask
                dstLayer dstX dstY)).1 ≠ 0 ↔
            (F.guacenc_display_get_related_buffer display srcLayer = none ∨
              F.guacenc_display_get_related_buffer display dstLayer = none)) ∧
          ∀ (src dst : Nat) (surface : cairo_surface_t) (cairo : cairo_t),
            F.guacenc_display_get_related_buffer display srcLayer = some src →
            F.guacenc_display_get_related_buffer display dstLayer = some dst →
            src ≠ dst → (display.buffers dst).autosize = false →
            (display.buffers src).surface = some surface →
            (display.buffers dst).cairo = some cairo →
            guacenc_handle_copy F L display
                (GuacServerInstruction.initCopy srcLayer srcX srcY srcWidth srcHeight mask
                  dstLayer dstX dstY) =
              (0, set_buffer display dst (buffer_cairo_fill L (display.buffers dst)
                (cairo_rectangle
                  (cairo_set_source_surface
                    (cairo_set_operator cairo (F.guacenc_display_cairo_operator mask))
                    surface (UserHandlers.toInt32 (dstX - srcX))
                    (UserHandlers.toInt32 (dstY - srcY)))
                  dstX dstY srcWidth srcHeight)))) := by
  constructor
  · intro layer r g b a
    constructor
    · cases hb : F.guacenc_display_get_related_buffer display layer with
      | none => simp [guacenc_handle_cfill, GuacServerInstruction.getCfill, hb]
      | some buffer =>
        rw [handle_cfill_result F L display
          (GuacServerInstruction.initCfill mask layer r g b a) buffer hb]
        simp
    · intro buffer cairo hb hc
      rw [handle_cfill_result F L display
        (GuacServerInstruction.initCfill mask layer r g b a) buffer hb, hc]
      rfl
  · intro srcLayer srcX srcY srcWidth srcHeight dstLayer dstX dstY
    constructor
    · rw [handle_copy_status]
      simp only [GuacServerInstruction.getCopy]
      split_ifs with h
      · simp [h]
      · simp [h]
    · intro src dst surface cairo hs hd hne hauto hsurface hcairo
      have hstatus := handle_copy_status F L display
        (GuacServerInstruction.initCopy srcLayer srcX srcY srcWidth srcHeight mask
          dstLayer dstX dstY)
      have hdisplay := handle_copy_distinct_buffers F L display
        (GuacServerInstruction.initCopy srcLayer srcX srcY srcWidth srcHeight mask
          dstLayer dstX dstY) src dst surface cairo hs hd hne hauto hsurface hcairo
      simp only [GuacServerInstruction.getCopy] at hstatus hdisplay
      simp only [hs, hd, reduceCtorEq, or_self, if_false] at hstatus
      exact Prod.ext hstatus hdisplay

theorem C19_mask_is_never_validated_witness :
    example_functions.guacenc_display_get_related_buffer
        (guacenc_handle_rect example_functions example_display
          (GuacServerInstruction.initRect 5 0 0 10 10)).2 5 = some 5 ∧
      (guacenc_handle_cfill example_functions example_cairo
        (guacenc_handle_rect example_functions example_display
          (GuacServerInstruction.initRect 5 0 0 10 10)).2
        (GuacServerInstruction.initCfill 255 5 255 0 0 255)).1 = 0 ∧
      ((guacenc_handle_cfill example_functions example_cairo
        (guacenc_handle_rect example_functions example_display
          (GuacServerInstruction.initRect 5 0 0 10 10)).2
        (GuacServerInstruction.initCfill 255 5 255 0 0 255)).1 ≠ 0 ↔
        example_functions.guacenc_display_get_related_buffer
          (guacenc_handle_rect example_functions example_display
            (GuacServerInstruction.initRect 5 0 0 10 10)).2 5 = none) :=
  have w := (C19_mask_is_never_validated example_functions example_cairo
    (guacenc_handle_rect example_functions example_display
      (GuacServerInstruction.initRect 5 0 0 10 10)).2 255).1 5 255 0 0 255
  ⟨by decide,
    (congrArg Prod.fst (w.2 5
      (cairo_rectangle cairo_create 0 0 10 10) (by decide) rfl)).trans rfl,
    w.1⟩

end Guacenc

namespace UserHandlers

/-! ## C26 -/

/-- C26: a `sync` whose timestamp is greater than `client.last_sent_timestamp`
is rejected by `__guac_handle_sync` with the user left as it was:
`last_received_timestamp`, `last_frame_duration` and `processing_lag` keep
their values, and nothing is added to the calls and writes of the user, so the
sync handler is not called, whether one is set or not. -/
theorem C26_rejected_sync_changes_nothing (H : handler_results) (current : Int)
    (user : guac_user) (instr : Reader)
    (h : instr.getSync > user.client.last_sent_timestamp) :
    __guac_handle_sync H current user instr = (-1, user) ∧
      (__guac_handle_sync H current user instr).2.last_received_timestamp =
        user.last_received_timestamp ∧
      (__guac_handle_sync H current user instr).2.last_frame_duration =
        user.last_frame_duration ∧
      (__guac_handle_sync H current user instr).2.processing_lag = user.processing_lag ∧
      (__guac_handle_sync H current user instr).2.effects = user.effects ∧
      ∀ fn : Nat, user.effects.count (guac_effect.sync_handler fn instr.getSync) =
        (__guac_handle_sync H current user instr).2.effects.count
          (guac_effect.sync_handler fn instr.getSync) := by
  have hres : __guac_handle_sync H current user instr = (-1, user) := by
    unfold __guac_handle_sync
    simp [h]
  rw [hres]
  exact ⟨rfl, rfl, rfl, rfl, rfl, fun _ => rfl⟩

theorem C26_rejected_sync_changes_nothing_witness :
    (sync_instruction 1100).getSync >
        ({ measured_user 1000 900 50 20 with sync_handler := some 4096 } :
          guac_user).client.last_sent_timestamp ∧
      (__guac_handle_sync handlers_return_seven 1170
        { measured_user 1000 900 50 20 with sync_handler := some 4096 }
        (sync_instruction 1100)).1 = -1 ∧
      (__guac_handle_sync handlers_return_seven 1170
        { measured_user 1000 900 50 20 with sync_handler := some 4096 }
        (sync_instruction 1100)).2.last_received_timestamp = 900 ∧
      (__guac_handle_sync handlers_return_seven 1170
        { measured_user 1000 900 50 20 with sync_handler := some 4096 }
        (sync_instruction 1100)).2.last_frame_duration = 50 ∧
      (__guac_handle_sync handlers_return_seven 1170
        { measured_user 1000 900 50 20 with sync_handler := some 4096 }
        (sync_instruction 1100)).2.processing_lag = 20 ∧
      (__guac_handle_sync handlers_return_seven 1170
        { measured_user 1000 900 50 20 with sync_handler := some 4096 }
        (sync_instruction 1100)).2.effects = [] :=
  have w := C26_rejected_sync_changes_nothing handlers_return_seven 1170
    { measured_user 1000 900 50 20 with sync_handler := some 4096 }
    (sync_instruction 1100) (by decide)
  ⟨by decide, congrArg Prod.fst w.1, w.2.1, w.2.2.1, w.2.2.2.1, w.2.2.2.2.1⟩

/-! ## C27 -/

end UserHandlers

namespace UserHandlers

/-! ## C28 -/

theorem handle_sync_client (H : handler_results) (current : Int) (user : guac_user)
    (instr : Reader) : (__guac_handle_sync H current user instr).2.client = user.client := by
  unfold __guac_handle_sync invoke
  dsimp only
  split_ifs <;> (cases user.sync_handler) <;> rfl

theorem handle_sync_step_invariant (H : handler_results) (user : guac_user) (step : sync_step)
    (hinv : user.last_received_timestamp ≤ user.client.last_sent_timestamp)
    (hsent : user.client.last_sent_timestamp ≤ step.last_sent_timestamp) :
    (handle_sync_steps H user [step]).last_received_timestamp ≤
        (handle_sync_steps H user [step]).client.last_sent_timestamp ∧
      user.last_received_timestamp ≤
        (handle_sync_steps H user [step]).last_received_timestamp ∧
      (handle_sync_steps H user [step]).client.last_sent_timestamp =
        step.last_sent_timestamp := by
  unfold handle_sync_steps handle_sync_steps
  rw [handle_sync_client, handle_sync_last_received_timestamp]
  dsimp only
  split_ifs <;> (refine ⟨?_, ?_, rfl⟩ <;> omega)

theorem handle_sync_steps_cons (H : handler_results) (user : guac_user) (step : sync_step)
    (rest : List sync_step) :
    handle_sync_steps H user (step :: rest) =
      handle_sync_steps H (handle_sync_steps H user [step]) rest := by
  rfl

/-- C28: sync handling keeps `last_received_timestamp ≤
client.last_sent_timestamp` and never lowers `last_received_timestamp`.  For
every user for which the inequality holds and every sequence of `sync`
instructions, each handled when `client.last_sent_timestamp` is not smaller than
it was at the instruction before (and, for the first, than it is in the user):
after each number `k` of instructions handled the inequality holds, and the
next instruction leaves `last_received_timestamp` at least what it was after
these `k`. -/
theorem C28_received_timestamp_invariant (H : handler_results) (steps : List sync_step)
    (user : guac_user)
    (hinv : user.last_received_timestamp ≤ user.client.last_sent_timestamp)
    (hsent : last_sent_never_decreases user.client.last_sent_timestamp steps = true)
    (k : Nat) :
    (handle_sync_steps H user (steps.take k)).last_received_timestamp ≤
        (handle_sync_steps H user (steps.take k)).client.last_sent_timestamp ∧
      (handle_sync_steps H user (steps.take k)).last_received_timestamp ≤
        (handle_sync_steps H user (steps.take (k + 1))).last_received_timestamp := by
  induction steps generalizing user k with
  | nil => simpa [handle_sync_steps] using hinv
  | cons step rest ih =>
    rw [last_sent_never_decreases, Bool.and_eq_true, decide_eq_true_eq] at hsent
    have hstep := handle_sync_step_invariant H user step hinv hsent.1
    cases k with
    | zero =>
      rw [List.take_zero]
      refine ⟨hinv, ?_⟩
      rw [Nat.zero_add, List.take_succ_cons, List.take_zero]
      exact hstep.2.1
    | succ k =>
      rw [List.take_succ_cons, List.take_succ_cons, handle_sync_steps_cons H user step,
        handle_sync_steps_cons H user step]
      refine ih (handle_sync_steps H user [step]) hstep.1 ?_ k
      rw [hstep.2.2]
      exact hsent.2

theorem C28_received_timestamp_invariant_witness :
    ((idle_user 1000 900).last_received_timestamp ≤
        (idle_user 1000 900).client.last_sent_timestamp ∧
      last_sent_never_decreases (idle_user 1000 900).client.last_sent_timestamp
        example_sync_steps = true) ∧
      ((handle_sync_steps handlers_return_zero (idle_user 1000 900)
          (example_sync_steps.take 2)).last_received_timestamp ≤
        (handle_sync_steps handlers_return_zero (idle_user 1000 900)
          (example_sync_steps.take 2)).client.last_sent_timestamp ∧
        (handle_sync_steps handlers_return_zero (idle_user 1000 900)
          (example_sync_steps.take 2)).last_received_timestamp ≤
          (handle_sync_steps handlers_return_zero (idle_user 1000 900)
            (example_sync_steps.take (2 + 1))).last_received_timestamp) ∧
      (handle_sync_steps handlers_return_zero (idle_user 1000 900)
        example_sync_steps).last_received_timestamp = 1100 ∧
      (handle_sync_steps handlers_return_zero (idle_user 1000 900)
        example_sync_steps).client.last_sent_timestamp = 1200 :=
  ⟨⟨by decide, by decide⟩,
    C28_received_timestamp_invariant handlers_return_zero example_sync_steps
      (idle_user 1000 900) (by decide) (by decide) 2,
    by decide, by decide⟩

end UserHandlers

namespace Protocol

open Guacamole

/-! ## C29 -/

theorem copy_args_to_list_loop_of_nonnull (memory : Nat → Option (Option String))
    (fuel : Nat) :
    ∀ (arg i : Nat) (list : List String), arg ≠ 0 →
      __copy_args_to_list_loop memory fuel arg i list = none := by
  induction fuel with
  | zero => intros; rfl
  | succ fuel ih =>
    intro arg i list harg
    unfold __copy_args_to_list_loop
    rw [if_pos harg]
    dsimp only
    cases hm : memory (arg + sizeof_pointer) with
    | none => rfl
    | some element =>
      cases element with
      | none => rfl
      | some s =>
        dsimp only
        split_ifs
        · exact ih _ _ _ (by unfold sizeof_pointer; omega)
        · rfl

/-- C29: what the code does with an array of argument strings.  For every
array at a non-null address, whatever its `n` strings, and however many
iterations are allowed: the loop of `__array_len` tests the pointer, which the
increment never makes null, and not the element, so `__array_len` yields no
length (not `n`); the loop of `__copy_args_to_list` does the same, reads each
element after the increment, and yields no list; and `guac_protocol_send_args`
returns nothing and writes no instruction.  Only for the null pointer does
`__array_len` return, with 0.  The memory holds the array as `args_memory`
has it: string `k` at index `k` for `k < n`, then `NULL`. -/
theorem C29_args_loops_do_not_stop (W : write_results) (socket : guac_socket)
    (strings : List String) (args : Nat) (hargs : args ≠ 0) (fuel : Nat) :
    (args_memory args strings (args + sizeof_pointer * strings.length) = some none ∧
        ∀ k : Nat, k < strings.length →
          args_memory args strings (args + sizeof_pointer * k) = some (strings.get? k)) ∧
      __array_len fuel args = none ∧
      __array_len fuel args ≠ some strings.length ∧
      (∀ list : List String,
        __copy_args_to_list (args_memory args strings) fuel args list = none) ∧
      guac_protocol_send_args W (args_memory args strings) fuel socket args =
        (none, guac_socket_instruction_begin socket) ∧
      __array_len (fuel + 1) 0 = some 0 := by
  have hlen : __array_len fuel args = none := array_len_loop_of_nonnull fuel args 0 hargs
  refine ⟨⟨?_, ?_⟩, hlen, ?_, ?_, ?_, rfl⟩
  · unfold args_memory sizeof_pointer
    simp
  · intro k hk
    unfold args_memory sizeof_pointer
    simp [hk]
  · rw [hlen]
    exact Option.noConfusion
  · intro list
    exact copy_args_to_list_loop_of_nonnull _ fuel args 0 list hargs
  · unfold guac_protocol_send_args
    simp only [hlen]

theorem C29_args_loops_do_not_stop_witness :
    (4096 ≠ 0 ∧
        args_memory 4096 ["hostname", "port"] 4096 = some (some "hostname") ∧
        args_memory 4096 ["hostname", "port"] 4104 = some (some "port") ∧
        args_memory 4096 ["hostname", "port"] 4112 = some none) ∧
      __array_len 1000000 4096 = none ∧
      __copy_args_to_list (args_memory 4096 ["hostname", "port"]) 1000000 4096 ["", ""] =
        none ∧
      (guac_protocol_send_args write_fails (args_memory 4096 ["hostname", "port"]) 1000000
        locking_socket 4096).1 = none :=
  have w := C29_args_loops_do_not_stop write_fails locking_socket ["hostname", "port"] 4096
    (by decide) 1000000
  ⟨⟨by decide, by decide, by decide, by decide⟩, w.2.1, w.2.2.2.1 ["", ""],
    congrArg Prod.fst w.2.2.2.2.1⟩

end Protocol

namespace RdpStream

/-! ## `__generate_upload_path` -/

theorem generate_upload_path_loop_eq (K : rdp_fs_constants) (fuel : Nat) :
    ∀ (i : Int) (filename path : List Nat),
      (K.GUAC_RDP_FS_MAX_PATH - i).toNat < fuel →
      __generate_upload_path_loop K fuel i filename path =
        some (path ++
          ((filename.takeWhile (fun c => decide (c ≠ 0))).take
            (K.GUAC_RDP_FS_MAX_PATH - i).toNat).map
              (fun c => if c = 47 ∨ c = 92 then 95 else c) ++ [0]) := by
  induction fuel with
  | zero => intro i filename path h; omega
  | succ fuel ih =>
    intro i filename path h
    unfold __generate_upload_path_loop
    by_cases hi : i < K.GUAC_RDP_FS_MAX_PATH
    · rw [if_pos hi]
      have hstep : (K.GUAC_RDP_FS_MAX_PATH - i).toNat =
          (K.GUAC_RDP_FS_MAX_PATH - (i + 1)).toNat + 1 := by omega
      cases filename with
      | nil => simp
      | cons c rest =>
        dsimp only [List.headD_cons, List.tail_cons]
        by_cases hc : c = 0
        · rw [if_pos hc]
          subst hc
          simp
        · rw [if_neg hc, ih (i + 1) rest _ (by omega), hstep]
          simp [List.takeWhile_cons, hc]
    · rw [if_neg hi]
      have hzero : (K.GUAC_RDP_FS_MAX_PATH - i).toNat = 0 := by omega
      rw [hzero]
      simp

theorem generate_upload_path_eq (K : rdp_fs_constants) (filename : List Nat) :
    __generate_upload_path K filename = some (92 :: sanitized_filename K filename ++ [0]) := by
  unfold __generate_upload_path sanitized_filename
  rw [generate_upload_path_loop_eq K _ 1 filename [92] (by omega)]
  rfl

theorem sanitized_filename_length (K : rdp_fs_constants) (filename : List Nat) :
    (sanitized_filename K filename).length =
      min (K.GUAC_RDP_FS_MAX_PATH - 1).toNat (strlen filename) := by
  unfold sanitized_filename strlen
  simp

end RdpStream

namespace RdpStream

theorem strlen_replicate (n c : Nat) (hc : c ≠ 0) : strlen (List.replicate n c) = n := by
  unfold strlen
  induction n with
  | zero => rfl
  | succ n ih => simp [List.replicate_succ, List.takeWhile_cons, hc, ih]

/-! ## C25 -/

/-- C25: for every filename `__generate_upload_path` ends and the characters it
writes are a backslash, then the characters of the filename in order, up to the
first NUL and at most `GUAC_RDP_FS_MAX_PATH - 1` of them, each slash and each
backslash replaced by an underscore, then a NUL; so no slash and no backslash
stands after the first character of what is written. -/
theorem C25_upload_path_is_sanitized (K : rdp_fs_constants) (filename : List Nat) :
    __generate_upload_path K filename = some (92 :: sanitized_filename K filename ++ [0]) ∧
      (sanitized_filename K filename).length ≤ (K.GUAC_RDP_FS_MAX_PATH - 1).toNat ∧
      ∀ path : List Nat, __generate_upload_path K filename = some path →
        path.head? = some 92 ∧ path.getLast? = some 0 ∧
          ∀ c ∈ path.tail, c ≠ 47 ∧ c ≠ 92 := by
  refine ⟨generate_upload_path_eq K filename, ?_, ?_⟩
  · rw [sanitized_filename_length]
    exact min_le_left _ _
  · intro path hpath
    rw [generate_upload_path_eq] at hpath
    cases hpath
    refine ⟨rfl, ?_, ?_⟩
    · exact List.getLast?_concat _
    intro c hc
    simp only [List.cons_append, List.tail_cons, List.mem_append, List.mem_singleton] at hc
    rcases hc with hc | hc
    · unfold sanitized_filename at hc
      rw [List.mem_map] at hc
      obtain ⟨d, _, hd⟩ := hc
      subst hd
      split_ifs with hsep
      · exact ⟨by decide, by decide⟩
      · exact ⟨fun h => hsep (Or.inl h), fun h => hsep (Or.inr h)⟩
    · subst hc
      exact ⟨by decide, by decide⟩

theorem C25_upload_path_is_sanitized_witness :
    __generate_upload_path short_path_constants [97, 47, 98, 92, 99] =
        some [92, 97, 95, 98, 95, 99, 0] ∧
      __generate_upload_path short_path_constants [97, 47, 0, 98, 92, 99] =
        some [92, 97, 95, 0] ∧
      __generate_upload_path short_path_constants [47, 47, 97, 98, 99, 100, 101, 102, 103, 104] =
        some [92, 95, 95, 97, 98, 99, 100, 101, 0] ∧
      sanitized_filename short_path_constants [97, 47, 98, 92, 99] = [97, 95, 98, 95, 99] :=
  ⟨(C25_upload_path_is_sanitized short_path_constants [97, 47, 98, 92, 99]).1.trans
      (by decide),
    by decide, by decide, by decide⟩

/-! ## C30 -/

/-- C30 as stated does not hold for a long filename.  With
`GUAC_RDP_FS_MAX_PATH` equal to 8, a filename of 7 characters makes
`__generate_upload_path` write 9 characters: the backslash, the 7 characters,
and the terminator, which is the ninth.  With the constant equal to 4096, a
filename of 4095 characters makes it write 4097. -/
theorem C30_counterexample_one_byte_too_many :
    __generate_upload_path short_path_constants [97, 98, 99, 100, 101, 102, 103] =
        some [92, 97, 98, 99, 100, 101, 102, 103, 0] ∧
      ¬ (([92, 97, 98, 99, 100, 101, 102, 103, 0] : List Nat).length : Int) ≤
        short_path_constants.GUAC_RDP_FS_MAX_PATH ∧
      ∃ path : List Nat,
        __generate_upload_path guac_rdp_fs_constants (List.replicate 4095 97) = some path ∧
          path.length = 4097 ∧
          ¬ (path.length : Int) ≤ guac_rdp_fs_constants.GUAC_RDP_FS_MAX_PATH := by
  refine ⟨by decide, by decide, _, generate_upload_path_eq _ _, ?_⟩
  have hlen : (92 :: sanitized_filename guac_rdp_fs_constants (List.replicate 4095 97) ++
      [0]).length = 4097 := by
    simp only [List.length_cons, List.length_append, List.length_singleton,
      sanitized_filename_length, strlen_replicate 4095 97 (by decide)]
    decide
  refine ⟨hlen, ?_⟩
  rw [hlen]
  decide

/-- C30 (amended): for every filename `__generate_upload_path` writes as many
characters as the filename has, up to the first NUL, or
`GUAC_RDP_FS_MAX_PATH - 1` of them if there are more, and two besides, the
backslash and the terminator.  With `GUAC_RDP_FS_MAX_PATH` at least 1 that is
at most `GUAC_RDP_FS_MAX_PATH + 1` characters, whatever the length of the
filename, and it is at most `GUAC_RDP_FS_MAX_PATH` exactly when the filename has
at most `GUAC_RDP_FS_MAX_PATH - 2` characters; for a filename of at least
`GUAC_RDP_FS_MAX_PATH - 1` characters it is `GUAC_RDP_FS_MAX_PATH + 1`. -/
theorem C30_upload_path_length (K : rdp_fs_constants) (filename : List Nat) :
    ∃ path : List Nat, __generate_upload_path K filename = some path ∧
      path.length = min (K.GUAC_RDP_FS_MAX_PATH - 1).toNat (strlen filename) + 2 ∧
      (1 ≤ K.GUAC_RDP_FS_MAX_PATH → (path.length : Int) ≤ K.GUAC_RDP_FS_MAX_PATH + 1) ∧
      (1 ≤ K.GUAC_RDP_FS_MAX_PATH →
        ((path.length : Int) ≤ K.GUAC_RDP_FS_MAX_PATH ↔
          (strlen filename : Int) + 2 ≤ K.GUAC_RDP_FS_MAX_PATH)) ∧
      ((strlen filename : Int) + 2 ≤ K.GUAC_RDP_FS_MAX_PATH →
        (path.length : Int) ≤ K.GUAC_RDP_FS_MAX_PATH) ∧
      (1 ≤ K.GUAC_RDP_FS_MAX_PATH → K.GUAC_RDP_FS_MAX_PATH - 1 ≤ strlen filename →
        (path.length : Int) = K.GUAC_RDP_FS_MAX_PATH + 1) := by
  have hlen : (92 :: sanitized_filename K filename ++ [0]).length =
      min (K.GUAC_RDP_FS_MAX_PATH - 1).toNat (strlen filename) + 2 := by
    simp [sanitized_filename_length]
  refine ⟨_, generate_upload_path_eq K filename, hlen, ?_, ?_, ?_, ?_⟩
  · intro h
    rw [hlen]
    omega
  · intro h
    rw [hlen]
    omega
  · intro h
    rw [hlen]
    omega
  · intro h1 h2
    rw [hlen]
    omega

theorem C30_upload_path_length_witness :
    (1 ≤ short_path_constants.GUAC_RDP_FS_MAX_PATH ∧
        short_path_constants.GUAC_RDP_FS_MAX_PATH - 1 ≤
          strlen [97, 98, 99, 100, 101, 102, 103, 104, 105, 106]) ∧
      __generate_upload_path short_path_constants
          [97, 98, 99, 100, 101, 102, 103, 104, 105, 106] =
        some [92, 97, 98, 99, 100, 101, 102, 103, 0] ∧
      __generate_upload_path short_path_constants [97, 98, 99, 100, 101, 102] =
        some [92, 97, 98, 99, 100, 101, 102, 0] ∧
      (∃ path : List Nat,
        __generate_upload_path guac_rdp_fs_constants (List.replicate 5000 97) = some path ∧
          (path.length : Int) = 4097) :=
  ⟨⟨by decide, by decide⟩, by decide, by decide,
    (C30_upload_path_length guac_rdp_fs_constants (List.replicate 5000 97)).imp
      (fun _ h => ⟨h.1, h.2.2.2.2.2 (by decide) (by
        rw [strlen_replicate 5000 97 (by decide)]
        decide)⟩)⟩

end RdpStream

namespace Socket

open Guacamole

/-! ## The keep-alive loop -/

theorem keep_alive_thread_cons (K : socket_constants) (W : Protocol.write_results)
    (R : flush_results) (environment : keep_alive_environment)
    (rest : List keep_alive_environment) (socket : guac_socket) :
    __guac_socket_keep_alive_thread K W R (environment :: rest) socket =
      if (keep_alive_reads environment socket).state = K.GUAC_SOCKET_OPEN then
        if environment.guac_timestamp_current -
            (keep_alive_reads environment socket).last_write_timestamp >
            K.GUAC_SOCKET_KEEP_ALIVE_INTERVAL then
          if (guac_protocol_send_nop W (keep_alive_reads environment socket)).1 ≠ 0 then
            (true, (guac_protocol_send_nop W (keep_alive_reads environment socket)).2)
          else if (guac_socket_flush R
              (guac_protocol_send_nop W (keep_alive_reads environment socket)).2).1 ≠ 0 then
            (true, (guac_socket_flush R
              (guac_protocol_send_nop W (keep_alive_reads environment socket)).2).2)
          else
            __guac_socket_keep_alive_thread K W R rest
              (guac_timestamp_msleep K.GUAC_SOCKET_KEEP_ALIVE_INTERVAL
                (guac_socket_flush R
                  (guac_protocol_send_nop W (keep_alive_reads environment socket)).2).2)
        else
          __guac_socket_keep_alive_thread K W R rest
            (guac_timestamp_msleep K.GUAC_SOCKET_KEEP_ALIVE_INTERVAL
              (keep_alive_reads environment socket))
      else (true, keep_alive_reads environment socket) := by
  rw [__guac_socket_keep_alive_thread]

theorem keep_alive_thread_append (K : socket_constants) (W : Protocol.write_results)
    (R : flush_results) (before : List keep_alive_environment) :
    ∀ (after : List keep_alive_environment) (socket reached : guac_socket),
      __guac_socket_keep_alive_thread K W R before socket = (false, reached) →
      __guac_socket_keep_alive_thread K W R (before ++ after) socket =
        __guac_socket_keep_alive_thread K W R after reached := by
  induction before with
  | nil =>
    intro after socket reached h
    unfold __guac_socket_keep_alive_thread at h
    cases h
    rfl
  | cons environment rest ih =>
    intro after socket reached h
    rw [List.cons_append, keep_alive_thread_cons]
    rw [keep_alive_thread_cons] at h
    split_ifs at h ⊢ with h1 h2 h3 h4
    · cases h
    · cases h
    · exact ih after _ reached h
    · exact ih after _ reached h
    · cases h

theorem send_nop_events (W : Protocol.write_results) (socket : guac_socket) :
    (guac_protocol_send_nop W socket).2.events =
      socket.events ++
        (match socket.lock_handler with
          | some fn => [Protocol.guac_socket_event.lock_handler fn]
          | none => []) ++
        [Protocol.guac_socket_event.write_handler socket.write_handler
          GuacServerInstruction.setNop] ++
        (match socket.unlock_handler with
          | some fn => [Protocol.guac_socket_event.unlock_handler fn]
          | none => []) := by
  obtain ⟨⟨w, l, u, ev⟩, st, lw, ka, fl, fr, ca⟩ := socket
  cases l <;> cases u <;>
    simp [guac_protocol_send_nop, Protocol.guac_protocol_send_nop,
      Protocol.guac_socket_instruction_begin, Protocol.guac_socket_instruction_end,
      Protocol.call_write_handler]

/-! ## C23 -/

/-- C23: every iteration of the keep-alive loop.  Let the thread have run
through the iterations `before` without returning, the socket being `reached`
then, and let the next iteration find the environment `environment`.  If the
state it reads is not `GUAC_SOCKET_OPEN`, the iteration does not start: the
thread returns, having sent and called nothing more.  If the state is open and
`now - last_write_timestamp` is not greater than
`GUAC_SOCKET_KEEP_ALIVE_INTERVAL`, no instruction is sent: the thread sleeps and
goes on.  If it is greater, the `nop` instruction is written once; when that
fails the thread returns at once, without flushing; when the flush fails the
thread returns; when both succeed the thread sleeps and goes on. -/
theorem C23_keep_alive_iteration (K : socket_constants) (W : Protocol.write_results)
    (R : flush_results) (before after : List keep_alive_environment)
    (environment : keep_alive_environment) (socket reached : guac_socket)
    (hreach : __guac_socket_keep_alive_thread K W R before socket = (false, reached)) :
    (environment.state ≠ K.GUAC_SOCKET_OPEN →
        __guac_socket_keep_alive_thread K W R (before ++ environment :: after) socket =
          (true, keep_alive_reads environment reached)) ∧
      (environment.state = K.GUAC_SOCKET_OPEN →
        ¬ (environment.guac_timestamp_current - environment.last_write_timestamp >
          K.GUAC_SOCKET_KEEP_ALIVE_INTERVAL) →
        __guac_socket_keep_alive_thread K W R (before ++ environment :: after) socket =
            __guac_socket_keep_alive_thread K W R after
              (guac_timestamp_msleep K.GUAC_SOCKET_KEEP_ALIVE_INTERVAL
                (keep_alive_reads environment reached)) ∧
          (guac_timestamp_msleep K.GUAC_SOCKET_KEEP_ALIVE_INTERVAL
            (keep_alive_reads environment reached)).events = reached.events) ∧
      (environment.state = K.GUAC_SOCKET_OPEN →
        environment.guac_timestamp_current - environment.last_write_timestamp >
          K.GUAC_SOCKET_KEEP_ALIVE_INTERVAL →
        (guac_protocol_send_nop W (keep_alive_reads environment reached)).2.events =
            reached.events ++
              (match reached.lock_handler with
                | some fn => [Protocol.guac_socket_event.lock_handler fn]
                | none => []) ++
              [Protocol.guac_socket_event.write_handler reached.write_handler
                GuacServerInstruction.setNop] ++
              (match reached.unlock_handler with
                | some fn => [Protocol.guac_socket_event.unlock_handler fn]
                | none => []) ∧
          ((guac_protocol_send_nop W (keep_alive_reads environment reached)).1 ≠ 0 →
            __guac_socket_keep_alive_thread K W R (before ++ environment :: after) socket =
              (true, (guac_protocol_send_nop W (keep_alive_reads environment reached)).2)) ∧
          ((guac_protocol_send_nop W (keep_alive_reads environment reached)).1 = 0 →
            (guac_socket_flush R
              (guac_protocol_send_nop W (keep_alive_reads environment reached)).2).1 ≠ 0 →
            __guac_socket_keep_alive_thread K W R (before ++ environment :: after) socket =
              (true, (guac_socket_flush R
                (guac_protocol_send_nop W (keep_alive_reads environment reached)).2).2)) ∧
          ((guac_protocol_send_nop W (keep_alive_reads environment reached)).1 = 0 →
            (guac_socket_flush R
              (guac_protocol_send_nop W (keep_alive_reads environment reached)).2).1 = 0 →
            __guac_socket_keep_alive_thread K W R (before ++ environment :: after) socket =
              __guac_socket_keep_alive_thread K W R after
                (guac_timestamp_msleep K.GUAC_SOCKET_KEEP_ALIVE_INTERVAL
                  (guac_socket_flush R
                    (guac_protocol_send_nop W (keep_alive_reads environment reached)).2).2))) := by
  rw [keep_alive_thread_append K W R before (environment :: after) socket reached hreach]
  have hstate : (keep_alive_reads environment reached).state = environment.state := rfl
  have hlast : (keep_alive_reads environment reached).last_write_timestamp =
      environment.last_write_timestamp := rfl
  refine ⟨?_, ?_, ?_⟩
  · intro hclosed
    rw [keep_alive_thread_cons, hstate, if_neg hclosed]
  · intro hopen hrecent
    refine ⟨?_, rfl⟩
    rw [keep_alive_thread_cons, hstate, hlast, if_pos hopen, if_neg hrecent]
  · intro hopen hold
    refine ⟨send_nop_events W _, ?_, ?_, ?_⟩
    · intro hnop
      rw [keep_alive_thread_cons, hstate, hlast, if_pos hopen, if_pos hold, if_pos hnop]
    · intro hnop hflush
      rw [keep_alive_thread_cons, hstate, hlast, if_pos hopen, if_pos hold, if_neg (not_not.mpr hnop), if_pos hflush]
    · intro hnop hflush
      rw [keep_alive_thread_cons, hstate, hlast, if_pos hopen, if_pos hold, if_neg (not_not.mpr hnop),
        if_neg (not_not.mpr hflush)]

theorem C23_keep_alive_iteration_witness :
    __guac_socket_keep_alive_thread libguac_socket_constants write_succeeds flush_succeeds
        (example_environments.take 2) kept_alive_socket =
      (false,
        { kept_alive_socket with
          last_write_timestamp := 12000,
          events := [Protocol.guac_socket_event.lock_handler 200,
            Protocol.guac_socket_event.write_handler 100 GuacServerInstruction.setNop,
            Protocol.guac_socket_event.unlock_handler 300],
          calls := [socket_call.flush_handler 400, socket_call.guac_timestamp_msleep 5000,
            socket_call.guac_timestamp_msleep 5000] }) ∧
      __guac_socket_keep_alive_thread libguac_socket_constants write_succeeds flush_succeeds
          (example_environments.take 2 ++
            { state := 1, last_write_timestamp := 12000, guac_timestamp_current := 17001 } ::
              example_environments) kept_alive_socket =
        (true,
          { kept_alive_socket with
            state := 1,
            last_write_timestamp := 12000,
            events := [Protocol.guac_socket_event.lock_handler 200,
              Protocol.guac_socket_event.write_handler 100 GuacServerInstruction.setNop,
              Protocol.guac_socket_event.unlock_handler 300],
            calls := [socket_call.flush_handler 400, socket_call.guac_timestamp_msleep 5000,
              socket_call.guac_timestamp_msleep 5000] }) ∧
      __guac_socket_keep_alive_thread libguac_socket_constants Protocol.write_fails
          flush_succeeds example_environments kept_alive_socket =
        (true,
          { kept_alive_socket with
            events := [Protocol.guac_socket_event.lock_handler 200,
              Protocol.guac_socket_event.write_handler 100 GuacServerInstruction.setNop,
              Protocol.guac_socket_event.unlock_handler 300] }) :=
  ⟨rfl,
    ((C23_keep_alive_iteration libguac_socket_constants write_succeeds flush_succeeds
      (example_environments.take 2) example_environments
      { state := 1, last_write_timestamp := 12000, guac_timestamp_current := 17001 }
      kept_alive_socket _ rfl).1 (by decide)).trans rfl,
    (((C23_keep_alive_iteration libguac_socket_constants Protocol.write_fails flush_succeeds
      [] (example_environments.tail)
      { state := 0, last_write_timestamp := 1000, guac_timestamp_current := 7001 }
      kept_alive_socket kept_alive_socket rfl).2.2 (by decide) (by decide)).2.1
        (by decide)).trans rfl⟩

end Socket

namespace Socket

/-! ## C24 -/

/-- C24: what the code does.  `guac_socket_free` flushes first and calls
`free(socket)` last, after the join.  But the free handler, which releases what
the channel holds, is called second: for a socket with a free handler and the
keep-alive thread started, the calls are the flush handler (if set), the free
handler, the store of `GUAC_SOCKET_CLOSED` to the state, `pthread_join`,
`free`; so the free handler runs while the state is still what it was and
before the keep-alive thread is joined.  Without a free handler the order is
the one of the claim. -/
theorem C24_free_handler_runs_before_close (K : socket_constants) (R : flush_results)
    (socket : guac_socket) :
    (∀ fn : Nat, socket.free_handler = some fn → socket.__keep_alive_enabled ≠ 0 →
        (guac_socket_free K R socket).calls =
          socket.calls ++
            (match socket.flush_handler with
              | some flush => [socket_call.flush_handler flush]
              | none => []) ++
            [socket_call.free_handler fn, socket_call.store_state K.GUAC_SOCKET_CLOSED,
              socket_call.pthread_join, socket_call.free]) ∧
      (socket.free_handler = none →
        (guac_socket_free K R socket).calls =
          socket.calls ++
            (match socket.flush_handler with
              | some flush => [socket_call.flush_handler flush]
              | none => []) ++
            [socket_call.store_state K.GUAC_SOCKET_CLOSED] ++
            (if socket.__keep_alive_enabled ≠ 0 then [socket_call.pthread_join] else []) ++
            [socket_call.free]) ∧
      (guac_socket_free K R socket).state = K.GUAC_SOCKET_CLOSED := by
  obtain ⟨base, st, lw, ka, fl, fr, ca⟩ := socket
  refine ⟨?_, ?_, ?_⟩
  · intro fn hfree hkeep
    dsimp only at hfree hkeep
    subst hfree
    cases fl <;> simp [guac_socket_free, guac_socket_flush, hkeep]
  · intro hfree
    dsimp only at hfree
    subst hfree
    by_cases hkeep : ka = 0 <;> cases fl <;> simp [guac_socket_free, guac_socket_flush, hkeep]
  · by_cases hkeep : ka = 0 <;> cases fl <;> cases fr <;>
      simp [guac_socket_free, guac_socket_flush, hkeep]

theorem C24_free_handler_runs_before_close_witness :
    (kept_alive_socket.free_handler = some 500 ∧ kept_alive_socket.__keep_alive_enabled ≠ 0) ∧
      (guac_socket_free libguac_socket_constants flush_succeeds kept_alive_socket).calls =
        [socket_call.flush_handler 400, socket_call.free_handler 500,
          socket_call.store_state 1, socket_call.pthread_join, socket_call.free] :=
  ⟨⟨rfl, by decide⟩,
    (C24_free_handler_runs_before_close libguac_socket_constants flush_succeeds
      kept_alive_socket).1 500 rfl (by decide)⟩

end Socket

namespace Protocols

/-! ## The frame loops -/

theorem vnc_frame_loop_cons (K : vnc_constants)
    (processing_lag frame_start last_frame_end : Int) (iteration : vnc_iteration)
    (rest : List vnc_iteration) (wait_result : Int) (calls : List frame_call) :
    guac_vnc_client_thread_frame_loop K processing_lag frame_start last_frame_end
        (iteration :: rest) wait_result calls =
      if iteration.HandleRFBServerMessage = false then
        { status := frame_loop_status.ended, wait_result := wait_result,
          calls := calls ++
            [frame_call.guac_client_abort "Error handling message from VNC server."] }
      else if UserHandlers.toInt32 (processing_lag -
          UserHandlers.toInt32 (iteration.guac_timestamp_current - last_frame_end)) >
          K.GUAC_VNC_FRAME_TIMEOUT then
        if (guac_vnc_wait_for_messages iteration.buffered iteration.WaitForMessage
            (UserHandlers.toInt32 (UserHandlers.toInt32 (processing_lag -
              UserHandlers.toInt32 (iteration.guac_timestamp_current - last_frame_end)) * 1000))
            calls).1 > 0 then
          guac_vnc_client_thread_frame_loop K processing_lag frame_start last_frame_end rest
            (guac_vnc_wait_for_messages iteration.buffered iteration.WaitForMessage
              (UserHandlers.toInt32 (UserHandlers.toInt32 (processing_lag -
                UserHandlers.toInt32 (iteration.guac_timestamp_current - last_frame_end)) *
                  1000)) calls).1
            (guac_vnc_wait_for_messages iteration.buffered iteration.WaitForMessage
              (UserHandlers.toInt32 (UserHandlers.toInt32 (processing_lag -
                UserHandlers.toInt32 (iteration.guac_timestamp_current - last_frame_end)) *
                  1000)) calls).2
        else
          { status := frame_loop_status.ended,
            wait_result :=
              (guac_vnc_wait_for_messages iteration.buffered iteration.WaitForMessage
                (UserHandlers.toInt32 (UserHandlers.toInt32 (processing_lag -
                  UserHandlers.toInt32 (iteration.guac_timestamp_current - last_frame_end)) *
                    1000)) calls).1,
            calls :=
              (guac_vnc_wait_for_messages iteration.buffered iteration.WaitForMessage
                (UserHandlers.toInt32 (UserHandlers.toInt32 (processing_lag -
                  UserHandlers.toInt32 (iteration.guac_timestamp_current - last_frame_end)) *
                    1000)) calls).2 }
      else if UserHandlers.toInt32 (frame_start + K.GUAC_VNC_FRAME_DURATION -
          iteration.guac_timestamp_current) > 0 then
        if (guac_vnc_wait_for_messages iteration.buffered iteration.WaitForMessage
            (UserHandlers.toInt32 (K.GUAC_VNC_FRAME_TIMEOUT * 1000)) calls).1 > 0 then
          guac_vnc_client_thread_frame_loop K processing_lag frame_start last_frame_end rest
            (guac_vnc_wait_for_messages iteration.buffered iteration.WaitForMessage
              (UserHandlers.toInt32 (K.GUAC_VNC_FRAME_TIMEOUT * 1000)) calls).1
            (guac_vnc_wait_for_messages iteration.buffered iteration.WaitForMessage
              (UserHandlers.toInt32 (K.GUAC_VNC_FRAME_TIMEOUT * 1000)) calls).2
        else
          { status := frame_loop_status.ended,
            wait_result :=
              (guac_vnc_wait_for_messages iteration.buffered iteration.WaitForMessage
                (UserHandlers.toInt32 (K.GUAC_VNC_FRAME_TIMEOUT * 1000)) calls).1,
            calls :=
              (guac_vnc_wait_for_messages iteration.buffered iteration.WaitForMessage
                (UserHandlers.toInt32 (K.GUAC_VNC_FRAME_TIMEOUT * 1000)) calls).2 }
      else
        { status := frame_loop_status.ended, wait_result := wait_result, calls := calls } := by
  rw [guac_vnc_client_thread_frame_loop]

theorem vnc_frame_loop_append (K : vnc_constants)
    (processing_lag frame_start last_frame_end : Int) (before : List vnc_iteration) :
    ∀ (after : List vnc_iteration) (wait_result : Int) (calls : List frame_call)
      (reached : frame_loop_state),
      guac_vnc_client_thread_frame_loop K processing_lag frame_start last_frame_end before
        wait_result calls = reached →
      reached.status = frame_loop_status.running →
      guac_vnc_client_thread_frame_loop K processing_lag frame_start last_frame_end
          (before ++ after) wait_result calls =
        guac_vnc_client_thread_frame_loop K processing_lag frame_start last_frame_end after
          reached.wait_result reached.calls := by
  induction before with
  | nil =>
    intro after wait_result calls reached h _
    rw [guac_vnc_client_thread_frame_loop] at h
    subst h
    rfl
  | cons iteration rest ih =>
    intro after wait_result calls reached h hrun
    rw [List.cons_append, vnc_frame_loop_cons]
    rw [vnc_frame_loop_cons] at h
    split_ifs at h ⊢
    all_goals first
      | exact ih after _ _ reached h hrun
      | (subst h; cases hrun)

theorem rdp_frame_loop_cons (K : rdp_constants)
    (processing_lag frame_start last_frame_end : Int) (iteration : rdp_iteration)
    (rest : List rdp_iteration) (wait_result : Int) (calls : List frame_call) :
    guac_rdp_handle_connection_frame_loop K processing_lag frame_start last_frame_end
        (iteration :: rest) wait_result calls =
      if iteration.freerdp_shall_disconnect then
        { status := frame_loop_status.returned 1, wait_result := wait_result,
          calls := calls ++ [frame_call.guac_rdp_client_abort] }
      else if UserHandlers.toInt32 (processing_lag -
          UserHandlers.toInt32 (iteration.guac_timestamp_current - last_frame_end)) >
          K.GUAC_RDP_FRAME_TIMEOUT then
        if (rdp_guac_client_wait_for_messages K iteration
            (UserHandlers.toInt32 (processing_lag -
              UserHandlers.toInt32 (iteration.guac_timestamp_current - last_frame_end)))
            calls).1 > 0 then
          guac_rdp_handle_connection_frame_loop K processing_lag frame_start last_frame_end
            rest
            (rdp_guac_client_wait_for_messages K iteration
              (UserHandlers.toInt32 (processing_lag -
                UserHandlers.toInt32 (iteration.guac_timestamp_current - last_frame_end)))
              calls).1
            (rdp_guac_client_wait_for_messages K iteration
              (UserHandlers.toInt32 (processing_lag -
                UserHandlers.toInt32 (iteration.guac_timestamp_current - last_frame_end)))
              calls).2
        else
          { status := frame_loop_status.ended,
            wait_result :=
              (rdp_guac_client_wait_for_messages K iteration
                (UserHandlers.toInt32 (processing_lag -
                  UserHandlers.toInt32 (iteration.guac_timestamp_current - last_frame_end)))
                calls).1,
            calls :=
              (rdp_guac_client_wait_for_messages K iteration
                (UserHandlers.toInt32 (processing_lag -
                  UserHandlers.toInt32 (iteration.guac_timestamp_current - last_frame_end)))
                calls).2 }
      else if UserHandlers.toInt32 (frame_start + K.GUAC_RDP_FRAME_DURATION -
          iteration.guac_timestamp_current) > 0 then
        if (rdp_guac_client_wait_for_messages K iteration K.GUAC_RDP_FRAME_TIMEOUT
            calls).1 > 0 then
          guac_rdp_handle_connection_frame_loop K processing_lag frame_start last_frame_end
            rest
            (rdp_guac_client_wait_for_messages K iteration K.GUAC_RDP_FRAME_TIMEOUT calls).1
            (rdp_guac_client_wait_for_messages K iteration K.GUAC_RDP_FRAME_TIMEOUT calls).2
        else
          { status := frame_loop_status.ended,
            wait_result :=
              (rdp_guac_client_wait_for_messages K iteration K.GUAC_RDP_FRAME_TIMEOUT
                calls).1,
            calls :=
              (rdp_guac_client_wait_for_messages K iteration K.GUAC_RDP_FRAME_TIMEOUT
                calls).2 }
      else
        { status := frame_loop_status.ended, wait_result := wait_result, calls := calls } := by
  rw [guac_rdp_handle_connection_frame_loop]

theorem rdp_frame_loop_append (K : rdp_constants)
    (processing_lag frame_start last_frame_end : Int) (before : List rdp_iteration) :
    ∀ (after : List rdp_iteration) (wait_result : Int) (calls : List frame_call)
      (reached : frame_loop_state),
      guac_rdp_handle_connection_frame_loop K processing_lag frame_start last_frame_end
        before wait_result calls = reached →
      reached.status = frame_loop_status.running →
      guac_rdp_handle_connection_frame_loop K processing_lag frame_start last_frame_end
          (before ++ after) wait_result calls =
        guac_rdp_handle_connection_frame_loop K processing_lag frame_start last_frame_end
          after reached.wait_result reached.calls := by
  induction before with
  | nil =>
    intro after wait_result calls reached h _
    rw [guac_rdp_handle_connection_frame_loop] at h
    subst h
    rfl
  | cons iteration rest ih =>
    intro after wait_result calls reached h hrun
    rw [List.cons_append, rdp_frame_loop_cons]
    rw [rdp_frame_loop_cons] at h
    split_ifs at h ⊢
    all_goals first
      | exact ih after _ _ reached h hrun
      | (subst h; cases hrun)

end Protocols

namespace Protocols

/-! ## C22 -/

/-- C22 as stated does not hold for a client that lags.  With a processing lag
of 1000 ms, a frame started at 100000, 100 ms after the end of the frame before,
and a message handled at 100100: the remaining budget is not positive (-60 for
VNC, -40 for RDP), yet each loop waits for a further message, for 800 ms, and
has not ended. -/
theorem C22_counterexample_lagging_client_waits :
    (UserHandlers.toInt32 (100000 + example_vnc_constants.GUAC_VNC_FRAME_DURATION -
          late_vnc_iteration.guac_timestamp_current) = -60 ∧
        guac_vnc_client_thread_frame_loop example_vnc_constants 1000 100000 99900
            [late_vnc_iteration] 1 [] =
          { status := frame_loop_status.running, wait_result := 1,
            calls := [frame_call.WaitForMessage 800000] }) ∧
      (UserHandlers.toInt32 (100000 + example_rdp_constants.GUAC_RDP_FRAME_DURATION -
          late_rdp_iteration.guac_timestamp_current) = -40 ∧
        guac_rdp_handle_connection_frame_loop example_rdp_constants 1000 100000 99900
            [late_rdp_iteration] 1 [] =
          { status := frame_loop_status.running, wait_result := 1,
            calls := [frame_call.WaitForMultipleObjects 800] }) := by
  decide

/-- C22 (amended): in the frame loops of the VNC and RDP backends, let the
loop have run through the iterations `before` without ending, and let the next
iteration handle its message (VNC) or find no disconnect (RDP) at the time
`now`, with `frame_remaining` the `int` that `frame_start + FRAME_DURATION -
now` gives and `required_wait` the `int` that `processing_lag - (now -
last_frame_end)` gives.  When `frame_remaining ≤ 0`: if `required_wait` is not
greater than `FRAME_TIMEOUT`, the loop ends there, with no further wait and
`wait_result` as it was; if `required_wait` is greater than `FRAME_TIMEOUT`,
the loop does not end there: it waits for a further message, for
`required_wait` ms, and goes on if the wait yields a positive result. -/
theorem C22_budget_ends_frame_unless_lagging
    (processing_lag frame_start last_frame_end : Int) (wait_result : Int)
    (calls : List frame_call) (reached : frame_loop_state)
    (hrun : reached.status = frame_loop_status.running)
    (now frame_remaining required_wait : Int)
    (hwait : required_wait =
      UserHandlers.toInt32 (processing_lag - UserHandlers.toInt32 (now - last_frame_end)))
    (hbudget : frame_remaining ≤ 0) :
    (∀ (K : vnc_constants) (before after : List vnc_iteration) (iteration : vnc_iteration),
      guac_vnc_client_thread_frame_loop K processing_lag frame_start last_frame_end before
        wait_result calls = reached →
      iteration.HandleRFBServerMessage = true →
      iteration.guac_timestamp_current = now →
      frame_remaining = UserHandlers.toInt32 (frame_start + K.GUAC_VNC_FRAME_DURATION - now) →
      (required_wait ≤ K.GUAC_VNC_FRAME_TIMEOUT →
        guac_vnc_client_thread_frame_loop K processing_lag frame_start last_frame_end
            (before ++ iteration :: after) wait_result calls =
          { status := frame_loop_status.ended, wait_result := reached.wait_result,
            calls := reached.calls }) ∧
      (required_wait > K.GUAC_VNC_FRAME_TIMEOUT →
        guac_vnc_client_thread_frame_loop K processing_lag frame_start last_frame_end
            (before ++ iteration :: after) wait_result calls =
          if (guac_vnc_wait_for_messages iteration.buffered iteration.WaitForMessage
              (UserHandlers.toInt32 (required_wait * 1000)) reached.calls).1 > 0 then
            guac_vnc_client_thread_frame_loop K processing_lag frame_start last_frame_end
              after
              (guac_vnc_wait_for_messages iteration.buffered iteration.WaitForMessage
                (UserHandlers.toInt32 (required_wait * 1000)) reached.calls).1
              (guac_vnc_wait_for_messages iteration.buffered iteration.WaitForMessage
                (UserHandlers.toInt32 (required_wait * 1000)) reached.calls).2
          else
            { status := frame_loop_status.ended,
              wait_result :=
                (guac_vnc_wait_for_messages iteration.buffered iteration.WaitForMessage
                  (UserHandlers.toInt32 (required_wait * 1000)) reached.calls).1,
              calls :=
                (guac_vnc_wait_for_messages iteration.buffered iteration.WaitForMessage
                  (UserHandlers.toInt32 (required_wait * 1000)) reached.calls).2 }) ∧
      (iteration.buffered = 0 →
        (guac_vnc_wait_for_messages iteration.buffered iteration.WaitForMessage
            (UserHandlers.toInt32 (required_wait * 1000)) reached.calls) =
          (iteration.WaitForMessage,
            reached.calls ++
              [frame_call.WaitForMessage (UserHandlers.toInt32 (required_wait * 1000))]))) ∧
    (∀ (K : rdp_constants) (before after : List rdp_iteration) (iteration : rdp_iteration),
      guac_rdp_handle_connection_frame_loop K processing_lag frame_start last_frame_end before
        wait_result calls = reached →
      iteration.freerdp_shall_disconnect = false →
      iteration.guac_timestamp_current = now →
      frame_remaining = UserHandlers.toInt32 (frame_start + K.GUAC_RDP_FRAME_DURATION - now) →
      (required_wait ≤ K.GUAC_RDP_FRAME_TIMEOUT →
        guac_rdp_handle_connection_frame_loop K processing_lag frame_start last_frame_end
            (before ++ iteration :: after) wait_result calls =
          { status := frame_loop_status.ended, wait_result := reached.wait_result,
            calls := reached.calls }) ∧
      (required_wait > K.GUAC_RDP_FRAME_TIMEOUT →
        guac_rdp_handle_connection_frame_loop K processing_lag frame_start last_frame_end
            (before ++ iteration :: after) wait_result calls =
          if (rdp_guac_client_wait_for_messages K iteration required_wait
              reached.calls).1 > 0 then
            guac_rdp_handle_connection_frame_loop K processing_lag frame_start last_frame_end
              after
              (rdp_guac_client_wait_for_messages K iteration required_wait reached.calls).1
              (rdp_guac_client_wait_for_messages K iteration required_wait reached.calls).2
          else
            { status := frame_loop_status.ended,
              wait_result :=
                (rdp_guac_client_wait_for_messages K iteration required_wait
                  reached.calls).1,
              calls :=
                (rdp_guac_client_wait_for_messages K iteration required_wait
                  reached.calls).2 }) ∧
      (iteration.freerdp_get_event_handles ≠ 0 →
        ∃ more : List frame_call,
          (rdp_guac_client_wait_for_messages K iteration required_wait reached.calls).2 =
            reached.calls ++ frame_call.WaitForMultipleObjects required_wait :: more)) := by
  constructor
  · intro K before after iteration hreach hmsg hnow hremaining
    rw [vnc_frame_loop_append K processing_lag frame_start last_frame_end before
      (iteration :: after) wait_result calls reached hreach hrun, vnc_frame_loop_cons]
    subst hnow
    rw [← hwait, ← hremaining]
    have hm : ¬ iteration.HandleRFBServerMessage = false := by simp [hmsg]
    refine ⟨?_, ?_, ?_⟩
    · intro hle
      rw [if_neg hm, if_neg (not_lt.mpr hle), if_neg (not_lt.mpr hbudget)]
    · intro hgt
      rw [if_neg hm, if_pos hgt]
    · intro hbuf
      simp [guac_vnc_wait_for_messages, hbuf]
  · intro K before after iteration hreach hmsg hnow hremaining
    rw [rdp_frame_loop_append K processing_lag frame_start last_frame_end before
      (iteration :: after) wait_result calls reached hreach hrun, rdp_frame_loop_cons]
    subst hnow
    rw [← hwait, ← hremaining]
    have hm : ¬ iteration.freerdp_shall_disconnect = true := by simp [hmsg]
    refine ⟨?_, ?_, ?_⟩
    · intro hle
      rw [if_neg hm, if_neg (not_lt.mpr hle), if_neg (not_lt.mpr hbudget)]
    · intro hgt
      rw [if_neg hm, if_pos hgt]
    · intro hcount
      unfold rdp_guac_client_wait_for_messages
      dsimp only
      rw [if_neg hcount]
      split_ifs
      · exact ⟨[frame_call.guac_client_abort "%s: WaitForMultipleObjects failed with %u"],
          by simp⟩
      · exact ⟨[frame_call.guac_client_abort "Failed to check FreeRDP file descriptor"],
          by simp⟩
      · exact ⟨[], by simp⟩

theorem C22_budget_ends_frame_unless_lagging_witness :
    guac_vnc_client_thread_frame_loop example_vnc_constants 0 100000 99900
        ([] ++ late_vnc_iteration :: [late_vnc_iteration]) 1 [] =
      { status := frame_loop_status.ended, wait_result := 1, calls := [] } ∧
    guac_rdp_handle_connection_frame_loop example_rdp_constants 1000 100000 99900
        ([] ++ late_rdp_iteration :: []) 1 [] =
      { status := frame_loop_status.running, wait_result := 1,
        calls := [frame_call.WaitForMultipleObjects 800] } :=
  ⟨((C22_budget_ends_frame_unless_lagging 0 100000 99900 1 []
      { status := frame_loop_status.running, wait_result := 1, calls := [] } rfl
      100100 (-60) (-200) (by decide) (by decide)).1 example_vnc_constants []
      [late_vnc_iteration] late_vnc_iteration rfl rfl rfl (by decide)).1 (by decide),
    (((C22_budget_ends_frame_unless_lagging 1000 100000 99900 1 []
      { status := frame_loop_status.running, wait_result := 1, calls := [] } rfl
      100100 (-40) 800 (by decide) (by decide)).2 example_rdp_constants []
      [] late_rdp_iteration rfl rfl rfl (by decide)).2.1 (by decide)).trans (by decide)⟩

end Protocols

namespace Guacenc

open Guacamole

/-! ## C21 -/

end Guacenc

namespace Guacenc

open Guacamole

end Guacenc
